import Mathlib

/-!
# Source.cpp: camera controller, texture loader and shader program builder

A shallow embedding of `Source.cpp`.  The program keeps its camera in file-scope
globals that the GLFW callbacks and `UProcessInput` mutate; here the globals are one
record that every operation takes and returns.  Scalars are `float` in the program and
an arbitrary linearly ordered field here (exact arithmetic), with the transcendental
library functions passed in as a record so that every definition stays executable
over the rationals.
-/

set_option linter.unusedVariables false

namespace Source

/-! ## Vectors (glm::vec3) -/

/-- Three component vector, the embedding of `glm::vec3`. -/
@[ext]
structure Vec3 (α : Type) where
  x : α
  y : α
  z : α
deriving DecidableEq, Repr

namespace Vec3

variable {α : Type} [Field α]

/-- Componentwise sum, `a + b` on `glm::vec3`. -/
def add (a b : Vec3 α) : Vec3 α :=
  ⟨a.x + b.x, a.y + b.y, a.z + b.z⟩

/-- Componentwise difference, `a - b` on `glm::vec3`. -/
def sub (a b : Vec3 α) : Vec3 α :=
  ⟨a.x - b.x, a.y - b.y, a.z - b.z⟩

/-- Scaling by a scalar, `s * v` and `v * s` on `glm::vec3`. -/
def smul (s : α) (v : Vec3 α) : Vec3 α :=
  ⟨s * v.x, s * v.y, s * v.z⟩

/-- Inner product, `glm::dot`. -/
def dot (a b : Vec3 α) : α :=
  a.x * b.x + a.y * b.y + a.z * b.z

/-- Vector product, `glm::cross`, with the component formulas of GLM. -/
def cross (a b : Vec3 α) : Vec3 α :=
  ⟨a.y * b.z - b.y * a.z, a.z * b.x - b.z * a.x, a.x * b.y - b.x * a.y⟩

end Vec3

/-! ## Library functions without an exact executable counterpart -/

/-- The functions the program takes from `<cmath>` and the constant GLM uses in
`glm::radians`: cosine, sine, square root and pi. -/
structure MathLib (α : Type) where
  cos : α → α
  sin : α → α
  sqrt : α → α
  pi : α

/-- The library functions in exact arithmetic: the real cosine, sine, square root
and pi. -/
noncomputable def realMath : MathLib ℝ where
  cos := Real.cos
  sin := Real.sin
  sqrt := Real.sqrt
  pi := Real.pi

section Camera

variable {α : Type} [LinearOrderedField α]

/-- Degrees to radians, `glm::radians`: the argument times pi / 180. -/
def radians (m : MathLib α) (degrees : α) : α :=
  degrees * (m.pi / 180)

/-- Reciprocal square root, `glm::inversesqrt`: `1 / sqrt(x)`. -/
def inversesqrt (m : MathLib α) (x : α) : α :=
  1 / m.sqrt x

/-- Unit vector of `v`, `glm::normalize`: `v * inversesqrt(dot(v, v))`. -/
def normalize (m : MathLib α) (v : Vec3 α) : Vec3 α :=
  Vec3.smul (inversesqrt m (Vec3.dot v v)) v

/-- Euclidean length, `glm::length`: `sqrt(dot(v, v))`, the divisor in `normalize`. -/
def length (m : MathLib α) (v : Vec3 α) : α :=
  m.sqrt (Vec3.dot v v)

/-! ## Globals -/

/-- The mutable file-scope variables of `Source.cpp` that the input code reads and
writes (lines 200-215), and the close flag of the GLFW window. -/
structure Globals (α : Type) where
  cameraPos : Vec3 α
  cameraFront : Vec3 α
  cameraUp : Vec3 α
  firstMouse : Bool
  yaw : α
  pitch : α
  lastX : α
  lastY : α
  fov : α
  viewProjection : Bool
  deltaTime : α
  lastFrame : α
  windowShouldClose : Bool

/-- The values the globals are given by their initialisers. -/
def Globals.initial : Globals α where
  cameraPos := ⟨0, 0, 3⟩
  cameraFront := ⟨0, 0, -1⟩
  cameraUp := ⟨0, 1, 0⟩
  firstMouse := true
  yaw := -90
  pitch := 0
  lastX := 800 / 2
  lastY := 600 / 2
  fov := 45
  viewProjection := false
  deltaTime := 0
  lastFrame := 0
  windowShouldClose := false

/-! ## Callbacks -/

/-- The direction `mouse_callback` builds from yaw and pitch (lines 1250-1253). -/
def direction (m : MathLib α) (yaw pitch : α) : Vec3 α :=
  ⟨m.cos (radians m yaw) * m.cos (radians m pitch),
   m.sin (radians m pitch),
   m.sin (radians m yaw) * m.cos (radians m pitch)⟩

/-- Cursor position callback, `mouse_callback` (lines 1224-1255). -/
def mouse_callback (m : MathLib α) (xpos ypos : α) (g : Globals α) : Globals α :=
  let g := if g.firstMouse then
      { g with lastX := xpos, lastY := ypos, firstMouse := false }
    else g
  let xoffset := xpos - g.lastX
  let yoffset := g.lastY - ypos
  let g := { g with lastX := xpos, lastY := ypos }
  let sensitivity : α := 0.1
  let xoffset := xoffset * sensitivity
  let yoffset := yoffset * sensitivity
  let g := { g with yaw := g.yaw + xoffset, pitch := g.pitch + yoffset }
  let g := if g.pitch > 89 then { g with pitch := 89 } else g
  let g := if g.pitch < -89 then { g with pitch := -89 } else g
  { g with cameraFront := normalize m (direction m g.yaw g.pitch) }

/-- Scroll wheel callback, `scroll_callback` (lines 1257-1264). -/
def scroll_callback (xoffset yoffset : α) (g : Globals α) : Globals α :=
  let g := { g with fov := g.fov - yoffset }
  let g := if g.fov < 1 then { g with fov := 1 } else g
  let g := if g.fov > 45 then { g with fov := 45 } else g
  g

/-! ## Keyboard -/

/-- The keys `UProcessInput` queries with `glfwGetKey`. -/
inductive Key where
  | ESCAPE | W | S | A | D | Q | E | P
deriving DecidableEq, Repr

/-- Keyboard polling, `UProcessInput` (lines 1075-1101).  `pressed k` is the outcome of
`glfwGetKey(window, k) == GLFW_PRESS`. -/
def UProcessInput (m : MathLib α) (pressed : Key → Bool) (g : Globals α) : Globals α :=
  let g := if pressed Key.ESCAPE then { g with windowShouldClose := true } else g
  let cameraSpeed : α := 2.5 * g.deltaTime
  let g := if pressed Key.W then
      { g with cameraPos := Vec3.add g.cameraPos (Vec3.smul cameraSpeed g.cameraFront) }
    else g
  let g := if pressed Key.S then
      { g with cameraPos := Vec3.sub g.cameraPos (Vec3.smul cameraSpeed g.cameraFront) }
    else g
  let g := if pressed Key.A then
      { g with
        cameraPos :=
          Vec3.sub g.cameraPos
            (Vec3.smul cameraSpeed (normalize m (Vec3.cross g.cameraFront g.cameraUp))) }
    else g
  let g := if pressed Key.D then
      { g with
        cameraPos :=
          Vec3.add g.cameraPos
            (Vec3.smul cameraSpeed (normalize m (Vec3.cross g.cameraFront g.cameraUp))) }
    else g
  let g := if pressed Key.Q then
      { g with cameraPos := Vec3.add g.cameraPos (Vec3.smul cameraSpeed g.cameraUp) }
    else g
  let g := if pressed Key.E then
      { g with cameraPos := Vec3.sub g.cameraPos (Vec3.smul cameraSpeed g.cameraUp) }
    else g
  let g := if pressed Key.P then
      (if g.viewProjection = true then { g with viewProjection := false }
       else if g.viewProjection = false then { g with viewProjection := true }
       else g)
    else g
  g

/-- Frame timing at the top of the render loop (lines 861-863): `currentFrame` is the
value of `glfwGetTime()`. -/
def frameTiming (currentFrame : α) (g : Globals α) : Globals α :=
  { g with deltaTime := currentFrame - g.lastFrame, lastFrame := currentFrame }

/-! ## Input events -/

/-- What the window system delivers to the program between and during frames: a cursor
move, a scroll, or the start of a frame (clock value and keyboard state), at which
`main` recomputes `deltaTime` and calls `UProcessInput`. -/
inductive Event (α : Type) where
  | mouse (xpos ypos : α)
  | scroll (xoffset yoffset : α)
  | frame (currentFrame : α) (pressed : Key → Bool)

/-- Whether an event is a cursor move, the kind delivered to `mouse_callback`. -/
def Event.isMouse : Event α → Bool
  | Event.mouse _ _ => true
  | _ => false

/-- Effect of one event on the globals. -/
def step (m : MathLib α) (g : Globals α) : Event α → Globals α
  | Event.mouse xpos ypos => mouse_callback m xpos ypos g
  | Event.scroll xoffset yoffset => scroll_callback xoffset yoffset g
  | Event.frame currentFrame pressed => UProcessInput m pressed (frameTiming currentFrame g)

/-- Effect of a sequence of events, oldest first. -/
def run (m : MathLib α) (g : Globals α) (events : List (Event α)) : Globals α :=
  events.foldl (step m) g

/-- Effect of a sequence of cursor positions, each delivered to `mouse_callback`. -/
def mouseRun (m : MathLib α) (g : Globals α) (positions : List (α × α)) : Globals α :=
  positions.foldl (fun g p => mouse_callback m p.1 p.2 g) g

/-- Effect of a sequence of scroll offsets, each delivered to `scroll_callback`. -/
def scrollRun (g : Globals α) (offsets : List (α × α)) : Globals α :=
  offsets.foldl (fun g p => scroll_callback p.1 p.2 g) g

/-- One `UProcessInput` call per element of `deltaTimes`, with the same keys held in
every frame; `deltaTime` is set before each call as the render loop does. -/
def inputRun (m : MathLib α) (pressed : Key → Bool) (g : Globals α) (deltaTimes : List α) :
    Globals α :=
  deltaTimes.foldl (fun g dt => UProcessInput m pressed { g with deltaTime := dt }) g

/-- Sign of a key pair: 1 when only the first is held, -1 when only the second is, 0
otherwise. -/
def axis (pressed : Key → Bool) (plus minus : Key) : α :=
  (if pressed plus then 1 else 0) - (if pressed minus then 1 else 0)

/-- The direction one `UProcessInput` call moves the camera in, per unit of
`cameraSpeed`, for the keys held. -/
def moveDirection (m : MathLib α) (pressed : Key → Bool) (g : Globals α) : Vec3 α :=
  Vec3.add
    (Vec3.add (Vec3.smul (axis pressed Key.W Key.S) g.cameraFront)
      (Vec3.smul (axis pressed Key.D Key.A)
        (normalize m (Vec3.cross g.cameraFront g.cameraUp))))
    (Vec3.smul (axis pressed Key.Q Key.E) g.cameraUp)

end Camera

/-! ## OpenGL context -/

/-- The OpenGL enumerants the program passes. -/
inductive GLenum where
  | GL_TEXTURE_2D
  | GL_TEXTURE_WRAP_S | GL_TEXTURE_WRAP_T | GL_TEXTURE_MIN_FILTER | GL_TEXTURE_MAG_FILTER
  | GL_REPEAT | GL_LINEAR
  | GL_RGB | GL_RGBA
  | GL_VERTEX_SHADER | GL_FRAGMENT_SHADER
  | GL_ARRAY_BUFFER | GL_STATIC_DRAW | GL_FLOAT | GL_TRIANGLES | GL_DEPTH_TEST
deriving DecidableEq, Repr

/-- An OpenGL or GLFW entry point invoked by the program, with its arguments.  Uniform
uploads of floating point data are logged without the data, which `ProgramState` keeps. -/
inductive GLCall where
  | glGenTextures (name : Nat)
  | glBindTexture (target : GLenum) (texture : Nat)
  | glTexParameteri (target pname param : GLenum)
  | glTexImage2D (target : GLenum) (format : GLenum) (width height : Int)
  | glGenerateMipmap (target : GLenum)
  | glCreateProgram (name : Nat)
  | glCreateShader (type : GLenum) (name : Nat)
  | glShaderSource (shader : Nat) (source : String)
  | glCompileShader (shader : Nat)
  | glAttachShader (program shader : Nat)
  | glLinkProgram (program : Nat)
  | glUseProgram (program : Nat)
  | glDeleteProgram (program : Nat)
  | glGenVertexArrays (name : Nat)
  | glGenBuffers (name : Nat)
  | glBindVertexArray (array : Nat)
  | glBindBuffer (target : GLenum) (buffer : Nat)
  | glBufferData (target : GLenum) (size : Nat) (usage : GLenum)
  | glVertexAttribPointer (index size : Nat) (type : GLenum) (normalized : Bool)
      (stride pointer : Nat)
  | glEnableVertexAttribArray (index : Nat)
  | glDeleteVertexArrays (array : Nat)
  | glDeleteBuffers (n buffer : Nat)
  | glUniform1i (program : Nat) (name : String) (v0 : Int)
  | glUniform3f (program : Nat) (name : String)
  | glUniform2fv (program : Nat) (name : String)
  | glUniformMatrix4fv (program : Nat) (name : String)
  | glClearColor (red green blue alpha : ℚ)
  | glEnable (cap : GLenum)
  | glClear (color depth : Bool)
  | glActiveTexture (unit : Nat)
  | glDrawArrays (mode : GLenum) (first count : Nat)
  | glViewport (x y width height : Int)
  | glfwSwapBuffers
  | glfwPollEvents
deriving DecidableEq, Repr

/-- One generic vertex attribute of a vertex array object, as `glVertexAttribPointer`
sets it: the number of floats per vertex, the byte stride and byte offset, and the
buffer that was bound to `GL_ARRAY_BUFFER` at the call. -/
structure VertexAttrib where
  vertexArray : Nat
  index : Nat
  size : Nat
  stride : Nat
  pointer : Nat
  buffer : Nat
deriving DecidableEq, Repr

/-- The level 0 image of a texture, as `glTexImage2D` uploads it. -/
structure TexImage where
  texture : Nat
  format : GLenum
  width : Int
  height : Int
  pixels : List Nat
deriving DecidableEq, Repr

/-- What one `glDrawArrays` call draws with: the program in use, the active texture
unit and the texture bound to its 2D target, the vertex array bound, the vertex range,
and whether every enabled attribute of that range lies inside its buffer. -/
structure DrawRecord where
  program : Nat
  textureUnit : Nat
  texture : Nat
  vertexArray : Nat
  first : Nat
  count : Nat
  inBounds : Bool
deriving DecidableEq, Repr

/-- State of the OpenGL context and of the standard streams.  Names are natural
numbers and 0 is the reserved name: no texture bound, no program in use, no vertex
array bound.  `boundTexture2D` is the binding of the 2D target of the active texture
unit; the program never selects a unit other than 0. -/
structure GLContext where
  calls : List GLCall
  textures : List Nat
  boundTexture2D : Nat
  programs : List Nat
  shaders : List Nat
  attached : List (Nat × Nat)
  linked : List Nat
  currentProgram : Nat
  stdout : List String
  stderr : List String
  activeTexture : Nat
  vertexArrays : List Nat
  buffers : List (Nat × List ℚ)
  boundVertexArray : Nat
  boundArrayBuffer : Nat
  attribs : List VertexAttrib
  enabledAttribs : List (Nat × Nat)
  draws : List DrawRecord
  texImages : List TexImage
deriving DecidableEq, Repr

/-- A context right after creation: no objects, nothing bound, nothing printed. -/
def GLContext.fresh : GLContext where
  calls := []
  textures := []
  boundTexture2D := 0
  programs := []
  shaders := []
  attached := []
  linked := []
  currentProgram := 0
  stdout := []
  stderr := []
  activeTexture := 0
  vertexArrays := []
  buffers := []
  boundVertexArray := 0
  boundArrayBuffer := 0
  attribs := []
  enabledAttribs := []
  draws := []
  texImages := []

/-- An unused object name: one more than the largest name in use, so never 0 and never
a name in `used`. -/
def freshName (used : List Nat) : Nat :=
  used.foldl max 0 + 1

/-- One output statement on `std::cout`. -/
def cout (text : String) (gl : GLContext) : GLContext :=
  { gl with stdout := gl.stdout ++ [text] }

/-- One output statement on `std::cerr`. -/
def cerr (text : String) (gl : GLContext) : GLContext :=
  { gl with stderr := gl.stderr ++ [text] }

/-- Model of `glGenTextures(1, &name)`: returns the new name. -/
def glGenTextures (gl : GLContext) : Nat × GLContext :=
  let name := freshName gl.textures
  (name, { gl with calls := gl.calls ++ [GLCall.glGenTextures name],
                   textures := gl.textures ++ [name] })

/-- Model of `glBindTexture(GL_TEXTURE_2D, texture)`. -/
def glBindTexture (texture : Nat) (gl : GLContext) : GLContext :=
  { gl with calls := gl.calls ++ [GLCall.glBindTexture GLenum.GL_TEXTURE_2D texture],
            boundTexture2D := texture }

/-- Model of `glTexParameteri(GL_TEXTURE_2D, pname, param)`. -/
def glTexParameteri (pname param : GLenum) (gl : GLContext) : GLContext :=
  { gl with calls := gl.calls ++ [GLCall.glTexParameteri GLenum.GL_TEXTURE_2D pname param] }

/-- Model of `glTexImage2D(GL_TEXTURE_2D, 0, format, width, height, 0, format,
GL_UNSIGNED_BYTE, image)`: the texture bound to the 2D target receives the image. -/
def glTexImage2D (format : GLenum) (width height : Int) (image : List Nat)
    (gl : GLContext) : GLContext :=
  { gl with
    calls := gl.calls ++ [GLCall.glTexImage2D GLenum.GL_TEXTURE_2D format width height],
    texImages := gl.texImages.filter (fun t => t.texture != gl.boundTexture2D) ++
      [{ texture := gl.boundTexture2D, format := format, width := width, height := height,
         pixels := image }] }

/-- Model of `glGenerateMipmap(GL_TEXTURE_2D)`. -/
def glGenerateMipmap (gl : GLContext) : GLContext :=
  { gl with calls := gl.calls ++ [GLCall.glGenerateMipmap GLenum.GL_TEXTURE_2D] }

/-- Model of `glCreateProgram()`: programs and shaders share one name space. -/
def glCreateProgram (gl : GLContext) : Nat × GLContext :=
  let name := freshName (gl.programs ++ gl.shaders)
  (name, { gl with calls := gl.calls ++ [GLCall.glCreateProgram name],
                   programs := gl.programs ++ [name] })

/-- Model of `glCreateShader(type)`. -/
def glCreateShader (type : GLenum) (gl : GLContext) : Nat × GLContext :=
  let name := freshName (gl.programs ++ gl.shaders)
  (name, { gl with calls := gl.calls ++ [GLCall.glCreateShader type name],
                   shaders := gl.shaders ++ [name] })

/-- Model of `glShaderSource(shader, 1, &source, NULL)`. -/
def glShaderSource (shader : Nat) (source : String) (gl : GLContext) : GLContext :=
  { gl with calls := gl.calls ++ [GLCall.glShaderSource shader source] }

/-- Model of `glCompileShader(shader)`. -/
def glCompileShader (shader : Nat) (gl : GLContext) : GLContext :=
  { gl with calls := gl.calls ++ [GLCall.glCompileShader shader] }

/-- Model of `glAttachShader(program, shader)`. -/
def glAttachShader (program shader : Nat) (gl : GLContext) : GLContext :=
  { gl with calls := gl.calls ++ [GLCall.glAttachShader program shader],
            attached := gl.attached ++ [(program, shader)] }

/-- Model of `glLinkProgram(program)`; `status` is the link status the driver reports
for it. -/
def glLinkProgram (status : Bool) (program : Nat) (gl : GLContext) : GLContext :=
  { gl with calls := gl.calls ++ [GLCall.glLinkProgram program],
            linked := if status then gl.linked ++ [program]
                      else gl.linked.filter (fun p => p != program) }

/-- Model of `glUseProgram(program)`. -/
def glUseProgram (program : Nat) (gl : GLContext) : GLContext :=
  { gl with calls := gl.calls ++ [GLCall.glUseProgram program],
            currentProgram := program }

/-- Model of `glDeleteProgram(program)`. -/
def glDeleteProgram (program : Nat) (gl : GLContext) : GLContext :=
  { gl with calls := gl.calls ++ [GLCall.glDeleteProgram program],
            programs := gl.programs.filter (fun p => p != program),
            linked := gl.linked.filter (fun p => p != program) }

/-- Model of `glGenVertexArrays(1, &name)`: returns the new name. -/
def glGenVertexArrays (gl : GLContext) : Nat × GLContext :=
  let name := freshName gl.vertexArrays
  (name, { gl with calls := gl.calls ++ [GLCall.glGenVertexArrays name],
                   vertexArrays := gl.vertexArrays ++ [name] })

/-- Model of `glGenBuffers(1, &name)`: returns the new name; the buffer has no data. -/
def glGenBuffers (gl : GLContext) : Nat × GLContext :=
  let name := freshName (gl.buffers.map Prod.fst)
  (name, { gl with calls := gl.calls ++ [GLCall.glGenBuffers name],
                   buffers := gl.buffers ++ [(name, [])] })

/-- Model of `glBindVertexArray(array)`. -/
def glBindVertexArray (array : Nat) (gl : GLContext) : GLContext :=
  { gl with calls := gl.calls ++ [GLCall.glBindVertexArray array],
            boundVertexArray := array }

/-- Model of `glBindBuffer(GL_ARRAY_BUFFER, buffer)`. -/
def glBindBuffer (buffer : Nat) (gl : GLContext) : GLContext :=
  { gl with calls := gl.calls ++ [GLCall.glBindBuffer GLenum.GL_ARRAY_BUFFER buffer],
            boundArrayBuffer := buffer }

/-- Model of `glBufferData(GL_ARRAY_BUFFER, sizeof(data), data, GL_STATIC_DRAW)`: the
buffer bound to `GL_ARRAY_BUFFER` receives the floats; the size is 4 bytes per float. -/
def glBufferData (data : List ℚ) (gl : GLContext) : GLContext :=
  { gl with
    calls := gl.calls ++
      [GLCall.glBufferData GLenum.GL_ARRAY_BUFFER (4 * data.length) GLenum.GL_STATIC_DRAW],
    buffers := gl.buffers.map
      (fun b => if b.1 = gl.boundArrayBuffer then (b.1, data) else b) }

/-- Model of `glVertexAttribPointer(index, size, GL_FLOAT, GL_FALSE, stride, pointer)`
on the vertex array bound: the attribute is sourced from the buffer bound to
`GL_ARRAY_BUFFER`, replacing an earlier setting of the same attribute. -/
def glVertexAttribPointer (index size stride pointer : Nat) (gl : GLContext) : GLContext :=
  { gl with
    calls := gl.calls ++
      [GLCall.glVertexAttribPointer index size GLenum.GL_FLOAT false stride pointer],
    attribs :=
      gl.attribs.filter (fun a => !(a.vertexArray = gl.boundVertexArray ∧ a.index = index)) ++
        [{ vertexArray := gl.boundVertexArray, index := index, size := size,
           stride := stride, pointer := pointer, buffer := gl.boundArrayBuffer }] }

/-- Model of `glEnableVertexAttribArray(index)` on the vertex array bound. -/
def glEnableVertexAttribArray (index : Nat) (gl : GLContext) : GLContext :=
  { gl with calls := gl.calls ++ [GLCall.glEnableVertexAttribArray index],
            enabledAttribs := gl.enabledAttribs ++ [(gl.boundVertexArray, index)] }

/-- Model of `glDeleteVertexArrays(1, &array)`. -/
def glDeleteVertexArrays (array : Nat) (gl : GLContext) : GLContext :=
  { gl with calls := gl.calls ++ [GLCall.glDeleteVertexArrays array],
            vertexArrays := gl.vertexArrays.filter (fun a => a != array),
            boundVertexArray := if gl.boundVertexArray = array then 0 else gl.boundVertexArray }

/-- Model of `glDeleteBuffers(2, &buffer)` as the program calls it, with a count of 2 on
the address of a single name: the named buffer is deleted; the second name the call
reads lies outside the variable and is not modelled. -/
def glDeleteBuffers (n buffer : Nat) (gl : GLContext) : GLContext :=
  { gl with calls := gl.calls ++ [GLCall.glDeleteBuffers n buffer],
            buffers := gl.buffers.filter (fun b => b.1 != buffer),
            boundArrayBuffer := if gl.boundArrayBuffer = buffer then 0 else gl.boundArrayBuffer }

/-- The floats held by a buffer; none for a name that is not a buffer. -/
def bufferData (gl : GLContext) (buffer : Nat) : List ℚ :=
  match gl.buffers.find? (fun b => b.1 = buffer) with
  | some b => b.2
  | none => []

/-- Whether fetching vertices `first .. first + count - 1` of an attribute stays inside
its buffer: the last vertex ends at byte
`pointer + (first + count - 1) * stride + 4 * size`. -/
def attribInBounds (gl : GLContext) (first count : Nat) (a : VertexAttrib) : Bool :=
  count = 0 ||
    a.pointer + (first + count - 1) * a.stride + 4 * a.size ≤ 4 * (bufferData gl a.buffer).length

/-- Whether a draw of the vertex range from the vertex array bound stays inside the
buffers of all its enabled attributes. -/
def drawInBounds (gl : GLContext) (first count : Nat) : Bool :=
  (gl.attribs.filter (fun a => a.vertexArray = gl.boundVertexArray ∧
      (a.vertexArray, a.index) ∈ gl.enabledAttribs)).all (attribInBounds gl first count)

/-- Model of `glActiveTexture(GL_TEXTURE0 + unit)`. -/
def glActiveTexture (unit : Nat) (gl : GLContext) : GLContext :=
  { gl with calls := gl.calls ++ [GLCall.glActiveTexture unit], activeTexture := unit }

/-- Model of `glDrawArrays(GL_TRIANGLES, first, count)`: the draw is recorded with the
bindings in force. -/
def glDrawArrays (first count : Nat) (gl : GLContext) : GLContext :=
  { gl with
    calls := gl.calls ++ [GLCall.glDrawArrays GLenum.GL_TRIANGLES first count],
    draws := gl.draws ++
      [{ program := gl.currentProgram, textureUnit := gl.activeTexture,
         texture := gl.boundTexture2D, vertexArray := gl.boundVertexArray,
         first := first, count := count, inBounds := drawInBounds gl first count }] }

/-- Model of a call that is logged and changes no state the model keeps. -/
def glCall (call : GLCall) (gl : GLContext) : GLContext :=
  { gl with calls := gl.calls ++ [call] }

/-! ## Texture loader -/

/-- An image as `stbi_load` decodes it: dimensions, channel count and pixel bytes. -/
structure Image where
  width : Int
  height : Int
  channels : Int
  pixels : List Nat
deriving DecidableEq, Repr

/-- Texture creation, `UCreateTexture` (lines 1112-1148).  `stbi_load` is the decoder
with the file system behind it: `none` is the null pointer it returns for a file that
is missing or cannot be decoded.  `textureId` is the reference parameter, returned as
the second component. -/
def UCreateTexture (stbi_load : String → Option Image) (filename : String)
    (textureId : Nat) (gl : GLContext) : Bool × Nat × GLContext :=
  match stbi_load filename with
  | some image =>
    let r := glGenTextures gl
    let textureId := r.1
    let gl := r.2
    let gl := glBindTexture textureId gl
    let gl := glTexParameteri GLenum.GL_TEXTURE_WRAP_S GLenum.GL_REPEAT gl
    let gl := glTexParameteri GLenum.GL_TEXTURE_WRAP_T GLenum.GL_REPEAT gl
    let gl := glTexParameteri GLenum.GL_TEXTURE_MIN_FILTER GLenum.GL_LINEAR gl
    let gl := glTexParameteri GLenum.GL_TEXTURE_MAG_FILTER GLenum.GL_LINEAR gl
    if image.channels = 3 then
      let gl := glTexImage2D GLenum.GL_RGB image.width image.height image.pixels gl
      let gl := glGenerateMipmap gl
      let gl := glBindTexture 0 gl
      (true, textureId, gl)
    else if image.channels = 4 then
      let gl := glTexImage2D GLenum.GL_RGBA image.width image.height image.pixels gl
      let gl := glGenerateMipmap gl
      let gl := glBindTexture 0 gl
      (true, textureId, gl)
    else
      let gl := cout ("Not implemented to handle image with " ++ toString image.channels
        ++ " channels\n") gl
      (false, textureId, gl)
  | none => (false, textureId, gl)

/-- Texture release as written, `UDestroyTexture` (lines 1151-1154): the body calls
`glGenTextures` on its by-value parameter. -/
def UDestroyTexture (textureId : Nat) (gl : GLContext) : GLContext :=
  (glGenTextures gl).2

/-! ## Shader program builder -/

/-- The GPU driver's compiler and linker: what `glGetShaderiv(GL_COMPILE_STATUS)`,
`glGetShaderInfoLog`, `glGetProgramiv(GL_LINK_STATUS)` and `glGetProgramInfoLog` report
for a stage of a given type and source text, and for a pair of stages. -/
structure Driver where
  compileStatus : GLenum → String → Bool
  shaderInfoLog : GLenum → String → String
  linkStatus : String → String → Bool
  programInfoLog : String → String → String

/-- Shader program creation, `UCreateShaderProgram` (lines 1158-1216).  The reference
parameter `programId` is assigned before it is read, so it is an output only: the
second component of the result.  `infoLog` holds 512 bytes, so 511 characters of the
driver's log. -/
def UCreateShaderProgram (d : Driver) (vtxShaderSource fragShaderSource : String)
    (gl : GLContext) : Bool × Nat × GLContext :=
  let r := glCreateProgram gl
  let programId := r.1
  let gl := r.2
  let r := glCreateShader GLenum.GL_VERTEX_SHADER gl
  let vertexShaderId := r.1
  let gl := r.2
  let r := glCreateShader GLenum.GL_FRAGMENT_SHADER gl
  let fragmentShaderId := r.1
  let gl := r.2
  let gl := glShaderSource vertexShaderId vtxShaderSource gl
  let gl := glShaderSource fragmentShaderId fragShaderSource gl
  let gl := glCompileShader vertexShaderId gl
  let success := d.compileStatus GLenum.GL_VERTEX_SHADER vtxShaderSource
  if !success then
    let infoLog := (d.shaderInfoLog GLenum.GL_VERTEX_SHADER vtxShaderSource).take 511
    let gl := cout ("ERROR::SHADER::VERTEX::COMPILATION_FAILED\n" ++ infoLog ++ "\n") gl
    (false, programId, gl)
  else
    let gl := glCompileShader fragmentShaderId gl
    let success := d.compileStatus GLenum.GL_FRAGMENT_SHADER fragShaderSource
    if !success then
      let infoLog := (d.shaderInfoLog GLenum.GL_FRAGMENT_SHADER fragShaderSource).take 511
      let gl := cout ("ERROR::SHADER::FRAGMENT::COMPILATION_FAILED\n" ++ infoLog ++ "\n") gl
      (false, programId, gl)
    else
      let gl := glAttachShader programId vertexShaderId gl
      let gl := glAttachShader programId fragmentShaderId gl
      let success := d.linkStatus vtxShaderSource fragShaderSource
      let gl := glLinkProgram success programId gl
      if !success then
        let infoLog := (d.programInfoLog vtxShaderSource fragShaderSource).take 511
        let gl := cout ("ERROR::SHADER::PROGRAM::LINKING_FAILED\n" ++ infoLog ++ "\n") gl
        (false, programId, gl)
      else
        let gl := glUseProgram programId gl
        (true, programId, gl)

/-- Program release, `UDestroyShaderProgram` (lines 1219-1222). -/
def UDestroyShaderProgram (programId : Nat) (gl : GLContext) : GLContext :=
  glDeleteProgram programId gl

/-- Whether a call attaches a shader, links a program or makes a program current. -/
def GLCall.isAttachLinkOrUse : GLCall → Bool
  | GLCall.glAttachShader _ _ => true
  | GLCall.glLinkProgram _ => true
  | GLCall.glUseProgram _ => true
  | _ => false

/-- The calls made since `before`: the suffix of the later call log. -/
def callsSince (before after : GLContext) : List GLCall :=
  after.calls.drop before.calls.length

/-! ## Vertex data -/

/-- Vertex data of the table plane, the array `plane` (lines 233-242): 8 floats per vertex,
position, normal and texture coordinate. -/
def plane : List ℚ :=
  [2.0, -0.5, 4.0, 0.0, 1.0, 0.0, 1.0, 1.0,
   2.0, -0.5, -4.0, 0.0, 1.0, 0.0, 1.0, 0.0,
   -2.0, -0.5, -4.0, 0.0, 1.0, 0.0, 0.0, 0.0,
   -2.0, -0.5, 4.0, 0.0, 1.0, 0.0, 0.0, 1.0,
   2.0, -0.5, 4.0, 0.0, 1.0, 0.0, 1.0, 1.0,
   -2.0, -0.5, -4.0, 0.0, 1.0, 0.0, 0.0, 0.0]

/-- Vertex data of the coaster, the array `coaster` (lines 271-316): 8 floats per vertex,
position, normal and texture coordinate. -/
def coaster : List ℚ :=
  [0.0, -0.5, 1.5, 0.0, 0.0, -1.0, 0.0, 0.0,
   1.0, -0.5, 1.5, 0.0, 0.0, -1.0, 1.0, 0.0,
   1.0, -0.45, 1.5, 0.0, 0.0, -1.0, 1.0, 1.0,
   1.0, -0.45, 1.5, 0.0, 0.0, -1.0, 1.0, 1.0,
   0.0, -0.45, 1.5, 0.0, 0.0, -1.0, 0.0, 1.0,
   0.0, -0.5, 1.5, 0.0, 0.0, -1.0, 0.0, 0.0,
   0.0, -0.5, 2.5, 1.0, 0.0, 0.0, 0.0, 0.0,
   1.0, -0.5, 2.5, 1.0, 0.0, 0.0, 1.0, 0.0,
   1.0, -0.45, 2.5, 1.0, 0.0, 0.0, 1.0, 1.0,
   1.0, -0.45, 2.5, 1.0, 0.0, 0.0, 1.0, 1.0,
   0.0, -0.45, 2.5, 1.0, 0.0, 0.0, 0.0, 1.0,
   0.0, -0.5, 2.5, 1.0, 0.0, 0.0, 0.0, 0.0,
   0.0, -0.45, 2.5, -1.0, 0.0, 0.0, 1.0, 0.0,
   0.0, -0.45, 1.5, -1.0, 0.0, 0.0, 1.0, 1.0,
   0.0, -0.5, 1.5, -1.0, 0.0, 0.0, 0.0, 1.0,
   0.0, -0.5, 1.5, -1.0, 0.0, 0.0, 0.0, 1.0,
   0.0, -0.5, 2.5, -1.0, 0.0, 0.0, 0.0, 0.0,
   0.0, -0.45, 2.5, -1.0, 0.0, 0.0, 1.0, 0.0,
   1.0, -0.45, 2.5, 0.0, 0.0, 1.0, 1.0, 0.0,
   1.0, -0.45, 1.5, 0.0, 0.0, 1.0, 1.0, 1.0,
   1.0, -0.5, 1.5, 0.0, 0.0, 1.0, 0.0, 1.0,
   1.0, -0.5, 1.5, 0.0, 0.0, 1.0, 0.0, 1.0,
   1.0, -0.5, 2.5, 0.0, 0.0, 1.0, 0.0, 0.0,
   1.0, -0.45, 2.5, 0.0, 0.0, 1.0, 1.0, 0.0,
   0.0, -0.5, 1.5, 0.0, 1.0, 0.0, 0.0, 1.0,
   1.0, -0.5, 1.5, 0.0, 1.0, 0.0, 1.0, 1.0,
   1.0, -0.5, 2.5, 0.0, 1.0, 0.0, 1.0, 0.0,
   1.0, -0.5, 2.5, 0.0, 1.0, 0.0, 1.0, 0.0,
   0.0, -0.5, 2.5, 0.0, 1.0, 0.0, 0.0, 0.0,
   0.0, -0.5, 1.5, 0.0, 1.0, 0.0, 0.0, 1.0,
   0.0, -0.45, 1.5, 0.0, -1.0, 0.0, 0.0, 1.0,
   1.0, -0.45, 1.5, 0.0, -1.0, 0.0, 1.0, 1.0,
   1.0, -0.45, 2.5, 0.0, -1.0, 0.0, 1.0, 0.0,
   1.0, -0.45, 2.5, 0.0, -1.0, 0.0, 1.0, 0.0,
   0.0, -0.45, 2.5, 0.0, -1.0, 0.0, 0.0, 0.0,
   0.0, -0.45, 1.5, 0.0, -1.0, 0.0, 0.0, 1.0]

/-- Vertex data of the light indicator, the array `lamp` (lines 336-367): 8 floats per vertex,
position, normal and texture coordinate. -/
def lamp : List ℚ :=
  [0.0, 1.0, 0.0, 0.0, 0.5, 1.0, 0.5, 1.0,
   -0.5, 0.0, 0.5, 0.0, 0.5, 1.0, 0.0, 0.0,
   0.5, 0.0, 0.5, 0.0, 0.5, 1.0, 1.0, 0.0,
   0.0, 1.0, 0.0, 1.0, 0.5, 0.0, 0.5, 1.0,
   -0.5, 0.0, 0.5, 1.0, 0.5, 0.0, 0.0, 0.0,
   -0.5, 0.0, -0.5, 1.0, 0.5, 0.0, 1.0, 0.0,
   0.0, 1.0, 0.0, 0.0, 0.5, -1.0, 0.5, 1.0,
   -0.5, 0.0, -0.5, 0.0, 0.5, -1.0, 0.0, 0.0,
   0.5, 0.0, -0.5, 0.0, 0.5, -1.0, 1.0, 0.0,
   0.0, 1.0, 0.0, -1.0, 0.5, 0.0, 0.5, 1.0,
   0.5, 0.0, -0.5, -1.0, 0.5, 0.0, 0.0, 0.0,
   0.5, 0.0, 0.5, -1.0, 0.5, 0.0, 1.0, 0.0,
   -0.5, 0.0, -0.5, 0.0, -1.0, 0.0, 0.0, 0.0,
   0.5, 0.0, 0.5, 0.0, -1.0, 0.0, 1.0, 1.0,
   -0.5, 0.0, 0.5, 0.0, -1.0, 0.0, 0.0, 1.0,
   -0.5, 0.0, -0.5, 0.0, -1.0, 0.0, 0.0, 0.0,
   0.5, 0.0, 0.5, 0.0, -1.0, 0.0, 1.0, 1.0,
   0.5, 0.0, -0.5, 0.0, -1.0, 0.0, 1.0, 0.0]

/-- Vertex data of the candle stand, the array `stand` (lines 386-458): 8 floats per vertex,
position, normal and texture coordinate. -/
def stand : List ℚ :=
  [0.0, 0.0, 0.0, 0.0, 1.0, 0.0, 0.0, 1.0,
   -0.7, 0.0, 0.7, 0.0, 1.0, 0.0, 0.0, 1.0,
   0.0, 0.0, 1.0, 0.0, 1.0, 0.0, 0.0, 1.0,
   0.0, 0.0, 0.0, 0.0, 1.0, 0.0, 0.0, 1.0,
   0.0, 0.0, 1.0, 0.0, 1.0, 0.0, 0.0, 1.0,
   0.7, 0.0, 0.7, 0.0, 1.0, 0.0, 0.0, 1.0,
   0.0, 0.0, 0.0, 0.0, 1.0, 0.0, 0.0, 1.0,
   0.7, 0.0, 0.7, 0.0, 1.0, 0.0, 0.0, 1.0,
   1.0, 0.0, 0.0, 0.0, 1.0, 0.0, 0.0, 1.0,
   0.0, 0.0, 0.0, 0.0, 1.0, 0.0, 0.0, 1.0,
   1.0, 0.0, 0.0, 0.0, 1.0, 0.0, 0.0, 1.0,
   0.7, 0.0, -0.7, 0.0, 1.0, 0.0, 0.0, 1.0,
   0.0, 0.0, 0.0, 0.0, 1.0, 0.0, 0.0, 1.0,
   0.7, 0.0, -0.7, 0.0, 1.0, 0.0, 0.0, 1.0,
   0.0, 0.0, -1.0, 0.0, 1.0, 0.0, 0.0, 1.0,
   0.0, 0.0, 0.0, 0.0, 1.0, 0.0, 0.0, 1.0,
   0.0, 0.0, -1.0, 0.0, 1.0, 0.0, 0.0, 1.0,
   -0.7, 0.0, -0.7, 0.0, 1.0, 0.0, 0.0, 1.0,
   0.0, 0.0, 0.0, 0.0, 1.0, 0.0, 0.0, 1.0,
   -0.7, 0.0, -0.7, 0.0, 1.0, 0.0, 0.0, 1.0,
   -1.0, 0.0, 0.0, 0.0, 1.0, 0.0, 0.0, 1.0,
   0.0, 0.0, 0.0, 0.0, 1.0, 0.0, 0.0, 1.0,
   -1.0, 0.0, 0.0, 0.0, 1.0, 0.0, 0.0, 1.0,
   -0.7, 0.0, 0.7, 0.0, 1.0, 0.0, 0.0, 1.0,
   -0.3, -0.5, -0.3, 0.0, 0.0, -1.0, 0.0, 0.0,
   0.3, -0.5, -0.3, 0.0, 0.0, -1.0, 1.0, 0.0,
   0.3, 0.0, -0.3, 0.0, 0.0, -1.0, 1.0, 1.0,
   0.3, 0.0, -0.3, 0.0, 0.0, -1.0, 1.0, 1.0,
   -0.3, 0.0, -0.3, 0.0, 0.0, -1.0, 0.0, 1.0,
   -0.3, -0.5, -0.3, 0.0, 0.0, -1.0, 0.0, 0.0,
   -0.3, -0.5, 0.3, 1.0, 0.0, 0.0, 0.0, 0.0,
   0.3, -0.5, 0.3, 1.0, 0.0, 0.0, 1.0, 0.0,
   0.3, 0.0, 0.3, 1.0, 0.0, 0.0, 1.0, 1.0,
   0.3, 0.0, 0.3, 1.0, 0.0, 0.0, 1.0, 1.0,
   -0.3, 0.0, 0.3, 1.0, 0.0, 0.0, 0.0, 1.0,
   -0.3, -0.5, 0.3, 1.0, 0.0, 0.0, 0.0, 0.0,
   -0.3, 0.0, 0.3, -1.0, 0.0, 0.0, 1.0, 0.0,
   -0.3, 0.0, -0.3, -1.0, 0.0, 0.0, 1.0, 1.0,
   -0.3, -0.5, -0.3, -1.0, 0.0, 0.0, 0.0, 1.0,
   -0.3, -0.5, -0.3, -1.0, 0.0, 0.0, 0.0, 1.0,
   -0.3, -0.5, 0.3, -1.0, 0.0, 0.0, 0.0, 0.0,
   -0.3, 0.0, 0.3, -1.0, 0.0, 0.0, 1.0, 0.0,
   0.3, 0.0, 0.3, 0.0, 0.0, 1.0, 1.0, 0.0,
   0.3, 0.0, -0.3, 0.0, 0.0, 1.0, 1.0, 1.0,
   0.3, -0.5, -0.3, 0.0, 0.0, 1.0, 0.0, 1.0,
   0.3, -0.5, -0.3, 0.0, 0.0, 1.0, 0.0, 1.0,
   0.3, -0.5, 0.3, 0.0, 0.0, 1.0, 0.0, 0.0,
   0.3, 0.0, 0.3, 0.0, 0.0, 1.0, 1.0, 0.0,
   -0.3, -0.5, -0.3, 0.0, 1.0, 0.0, 0.0, 1.0,
   0.3, -0.5, -0.3, 0.0, 1.0, 0.0, 1.0, 1.0,
   0.3, -0.5, 0.3, 0.0, 1.0, 0.0, 1.0, 0.0,
   0.3, -0.5, 0.3, 0.0, 1.0, 0.0, 1.0, 0.0,
   -0.3, -0.5, 0.3, 0.0, 1.0, 0.0, 0.0, 0.0,
   -0.3, -0.5, -0.3, 0.0, 1.0, 0.0, 0.0, 1.0]

/-- Vertex data of the cup, the array `cup` (lines 477-572): 8 floats per vertex,
position, normal and texture coordinate. -/
def cup : List ℚ :=
  [0.5, -0.449, 2.0, 0.0, 1.0, 0.0, 0.0, 1.0,
   0.325, -0.449, 2.175, 0.0, 1.0, 0.0, 0.0, 1.0,
   0.5, -0.449, 2.25, 0.0, 1.0, 0.0, 0.0, 1.0,
   0.5, -0.449, 2.0, 0.0, 1.0, 0.0, 0.0, 1.0,
   0.5, -0.449, 2.25, 0.0, 1.0, 0.0, 0.0, 1.0,
   0.675, -0.449, 2.175, 0.0, 1.0, 0.0, 0.0, 1.0,
   0.5, -0.449, 2.0, 0.0, 1.0, 0.0, 0.0, 1.0,
   0.675, -0.449, 2.175, 0.0, 1.0, 0.0, 0.0, 1.0,
   0.75, -0.449, 2.0, 0.0, 1.0, 0.0, 0.0, 1.0,
   0.5, -0.449, 2.0, 0.0, 1.0, 0.0, 0.0, 1.0,
   0.75, -0.449, 2.0, 0.0, 1.0, 0.0, 0.0, 1.0,
   0.675, -0.449, 1.825, 0.0, 1.0, 0.0, 0.0, 1.0,
   0.5, -0.449, 2.0, 0.0, 1.0, 0.0, 0.0, 1.0,
   0.675, -0.449, 1.825, 0.0, 1.0, 0.0, 0.0, 1.0,
   0.5, -0.449, 1.75, 0.0, 1.0, 0.0, 0.0, 1.0,
   0.5, -0.449, 2.0, 0.0, 1.0, 0.0, 0.0, 1.0,
   0.5, -0.449, 1.75, 0.0, 1.0, 0.0, 0.0, 1.0,
   0.325, -0.449, 1.825, 0.0, 1.0, 0.0, 0.0, 1.0,
   0.5, -0.449, 2.0, 0.0, 1.0, 0.0, 0.0, 1.0,
   0.325, -0.449, 1.825, 0.0, 1.0, 0.0, 0.0, 1.0,
   0.25, -0.449, 2.0, 0.0, 1.0, 0.0, 0.0, 1.0,
   0.5, -0.449, 2.0, 0.0, 1.0, 0.0, 0.0, 1.0,
   0.25, -0.449, 2.0, 0.0, 1.0, 0.0, 0.0, 1.0,
   0.325, -0.449, 2.175, 0.0, 1.0, 0.0, 0.0, 1.0,
   0.26, 0.5, 2.24, 0.0, 0.0, 1.0, 0.0, 1.0,
   0.5, 0.5, 2.34, 0.0, 0.0, 1.0, 0.0, 1.0,
   0.325, -0.45, 2.175, 0.0, 0.0, 1.0, 0.0, 1.0,
   0.325, -0.45, 2.175, 0.0, 0.0, 1.0, 0.0, 1.0,
   0.5, -0.45, 2.25, 0.0, 0.0, 1.0, 0.0, 1.0,
   0.5, 0.5, 2.34, 0.0, 0.0, 1.0, 0.0, 1.0,
   0.5, 0.5, 2.34, 0.0, 0.0, 1.0, 0.0, 1.0,
   0.74, 0.5, 2.24, 0.0, 0.0, 1.0, 0.0, 1.0,
   0.5, -0.45, 2.25, 0.0, 0.0, 1.0, 0.0, 1.0,
   0.5, -0.45, 2.25, 0.0, 0.0, 1.0, 0.0, 1.0,
   0.675, -0.45, 2.175, 0.0, 0.0, 1.0, 0.0, 1.0,
   0.74, 0.5, 2.24, 0.0, 0.0, 1.0, 0.0, 1.0,
   0.74, 0.5, 2.24, 1.0, 0.0, -0.2, 0.0, 1.0,
   0.85, 0.5, 2.0, 1.0, 0.0, -0.2, 0.0, 1.0,
   0.675, -0.45, 2.175, 1.0, 0.0, -0.2, 0.0, 1.0,
   0.675, -0.45, 2.175, 1.0, 0.0, -0.2, 0.0, 1.0,
   0.75, -0.45, 2.0, 1.0, 0.0, -0.2, 0.0, 1.0,
   0.85, 0.5, 2.0, 1.0, 0.0, -0.2, 0.0, 1.0,
   0.85, 0.5, 2.0, 1.0, 0.0, -0.5, 0.0, 1.0,
   0.74, 0.5, 1.76, 1.0, 0.0, -0.5, 0.0, 1.0,
   0.75, -0.45, 2.0, 1.0, 0.0, -0.5, 0.0, 1.0,
   0.75, -0.45, 2.0, 1.0, 0.0, -0.5, 0.0, 1.0,
   0.675, -0.45, 1.825, 1.0, 0.0, -0.5, 0.0, 1.0,
   0.74, 0.5, 1.76, 1.0, 0.0, -0.5, 0.0, 1.0,
   0.74, 0.5, 1.76, 0.0, 0.0, -1.0, 0.0, 1.0,
   0.5, 0.5, 1.65, 0.0, 0.0, -1.0, 0.0, 1.0,
   0.675, -0.45, 1.825, 0.0, 0.0, -1.0, 0.0, 1.0,
   0.675, -0.45, 1.825, 0.0, 0.0, -1.0, 0.0, 1.0,
   0.5, -0.45, 1.75, 0.0, 0.0, -1.0, 0.0, 1.0,
   0.5, 0.5, 1.65, 0.0, 0.0, -1.0, 0.0, 1.0,
   0.5, 0.5, 1.65, 0.0, 0.0, -1.0, 0.0, 1.0,
   0.26, 0.5, 1.76, 0.0, 0.0, -1.0, 0.0, 1.0,
   0.5, -0.45, 1.75, 0.0, 0.0, -1.0, 0.0, 1.0,
   0.5, -0.45, 1.75, 0.0, 0.0, -1.0, 0.0, 1.0,
   0.325, -0.45, 1.825, 0.0, 0.0, -1.0, 0.0, 1.0,
   0.26, 0.5, 1.76, 0.0, 0.0, -1.0, 0.0, 1.0,
   0.26, 0.5, 1.76, -1.0, 0.0, -0.5, 0.0, 1.0,
   0.15, 0.5, 2.0, -1.0, 0.0, -0.5, 0.0, 1.0,
   0.325, -0.45, 1.825, -1.0, 0.0, -0.5, 0.0, 1.0,
   0.325, -0.45, 1.825, -1.0, 0.0, -0.5, 0.0, 1.0,
   0.25, -0.45, 2.0, -1.0, 0.0, -0.5, 0.0, 1.0,
   0.15, 0.5, 2.0, -1.0, 0.0, -0.5, 0.0, 1.0,
   0.15, 0.5, 2.0, -1.0, 0.0, -0.2, 0.0, 1.0,
   0.26, 0.5, 2.24, -1.0, 0.0, -0.2, 0.0, 1.0,
   0.25, -0.45, 2.0, -1.0, 0.0, -0.2, 0.0, 1.0,
   0.25, -0.45, 2.0, -1.0, 0.0, -0.2, 0.0, 1.0,
   0.325, -0.45, 2.175, -1.0, 0.0, -0.2, 0.0, 1.0,
   0.26, 0.5, 2.24, -1.0, 0.0, -0.2, 0.0, 1.0]

/-- Vertex data of the candle body, the array `candle` (lines 591-684): 8 floats per vertex,
position, normal and texture coordinate. -/
def candle : List ℚ :=
  [0.0, 0.01, 0.0, 0.0, 1.0, 0.0, 0.0, 1.0,
   -0.35, 0.01, 0.35, 0.0, 1.0, 0.0, 0.0, 1.0,
   0.0, 0.01, 0.5, 0.0, 1.0, 0.0, 0.0, 1.0,
   0.0, 0.01, 0.0, 0.0, 1.0, 0.0, 0.0, 1.0,
   0.0, 0.01, 0.5, 0.0, 1.0, 0.0, 0.0, 1.0,
   0.35, 0.01, 0.35, 0.0, 1.0, 0.0, 0.0, 1.0,
   0.0, 0.01, 0.0, 0.0, 1.0, 0.0, 0.0, 1.0,
   0.35, 0.01, 0.35, 0.0, 1.0, 0.0, 0.0, 1.0,
   0.5, 0.01, 0.0, 0.0, 1.0, 0.0, 0.0, 1.0,
   0.0, 0.01, 0.0, 0.0, 1.0, 0.0, 0.0, 1.0,
   0.5, 0.01, 0.0, 0.0, 1.0, 0.0, 0.0, 1.0,
   0.35, 0.01, -0.35, 0.0, 1.0, 0.0, 0.0, 1.0,
   0.0, 0.01, 0.0, 0.0, 1.0, 0.0, 0.0, 1.0,
   0.35, 0.01, -0.35, 0.0, 1.0, 0.0, 0.0, 1.0,
   0.0, 0.01, -0.5, 0.0, 1.0, 0.0, 0.0, 1.0,
   0.0, 0.01, 0.0, 0.0, 1.0, 0.0, 0.0, 1.0,
   0.0, 0.01, -0.5, 0.0, 1.0, 0.0, 0.0, 1.0,
   -0.35, 0.01, -0.35, 0.0, 1.0, 0.0, 0.0, 1.0,
   0.0, 0.01, 0.0, 0.0, 1.0, 0.0, 0.0, 1.0,
   -0.35, 0.01, -0.35, 0.0, 1.0, 0.0, 0.0, 1.0,
   -0.5, 0.01, 0.0, 0.0, 1.0, 0.0, 0.0, 1.0,
   0.0, 0.01, 0.0, 0.0, 1.0, 0.0, 0.0, 1.0,
   -0.5, 0.01, 0.0, 0.0, 1.0, 0.0, 0.0, 1.0,
   -0.35, 0.01, 0.35, 0.0, 1.0, 0.0, 0.0, 1.0,
   -0.35, 0.01, 0.35, 0.0, 1.0, 0.0, 0.0, 0.0,
   0.0, 0.01, 0.5, 0.0, 1.0, 0.0, 1.0, 0.0,
   -0.35, 0.3, 0.35, 0.0, 1.0, 0.0, 0.0, 1.0,
   -0.35, 0.3, 0.35, 0.0, 1.0, 0.0, 0.0, 1.0,
   0.0, 0.3, 0.5, 0.0, 1.0, 0.0, 1.0, 1.0,
   0.0, 0.01, 0.5, 0.0, 1.0, 0.0, 1.0, 0.0,
   0.0, 0.01, 0.5, 0.0, 1.0, 0.0, 0.0, 0.0,
   0.35, 0.01, 0.35, 0.0, 1.0, 0.0, 1.0, 0.0,
   0.0, 0.3, 0.5, 0.0, 1.0, 0.0, 0.0, 1.0,
   0.0, 0.3, 0.5, 0.0, 1.0, 0.0, 0.0, 1.0,
   0.35, 0.3, 0.35, 0.0, 1.0, 0.0, 1.0, 1.0,
   0.35, 0.01, 0.35, 0.0, 1.0, 0.0, 1.0, 0.0,
   0.35, 0.01, 0.35, 0.0, 1.0, 0.0, 0.0, 0.0,
   0.5, 0.01, 0.0, 0.0, 1.0, 0.0, 1.0, 0.0,
   0.35, 0.3, 0.35, 0.0, 1.0, 0.0, 0.0, 1.0,
   0.35, 0.3, 0.35, 0.0, 1.0, 0.0, 0.0, 1.0,
   0.5, 0.3, 0.0, 0.0, 1.0, 0.0, 1.0, 1.0,
   0.5, 0.01, 0.0, 0.0, 1.0, 0.0, 1.0, 0.0,
   0.5, 0.01, 0.0, 0.0, 1.0, 0.0, 0.0, 0.0,
   0.35, 0.01, -0.35, 0.0, 1.0, 0.0, 1.0, 0.0,
   0.5, 0.3, 0.0, 0.0, 1.0, 0.0, 0.0, 1.0,
   0.5, 0.3, 0.0, 0.0, 1.0, 0.0, 0.0, 1.0,
   0.35, 0.3, -0.35, 0.0, 1.0, 0.0, 1.0, 1.0,
   0.35, 0.01, -0.35, 0.0, 1.0, 0.0, 1.0, 0.0,
   0.35, 0.01, -0.35, 0.0, 1.0, 0.0, 0.0, 0.0,
   0.0, 0.01, -0.5, 0.0, 1.0, 0.0, 1.0, 0.0,
   0.35, 0.3, -0.35, 0.0, 1.0, 0.0, 0.0, 1.0,
   0.35, 0.3, -0.35, 0.0, 1.0, 0.0, 0.0, 1.0,
   0.0, 0.3, -0.5, 0.0, 1.0, 0.0, 1.0, 1.0,
   0.0, 0.01, -0.5, 0.0, 1.0, 0.0, 1.0, 0.0,
   0.0, 0.01, -0.5, 0.0, 1.0, 0.0, 0.0, 1.0,
   -0.35, 0.01, -0.35, 0.0, 1.0, 0.0, 1.0, 0.0,
   0.0, 0.3, -0.5, 0.0, 1.0, 0.0, 0.0, 1.0,
   0.0, 0.3, -0.5, 0.0, 1.0, 0.0, 0.0, 1.0,
   -0.35, 0.3, -0.35, 0.0, 1.0, 0.0, 1.0, 1.0,
   -0.35, 0.01, -0.35, 0.0, 1.0, 0.0, 1.0, 0.0,
   -0.35, 0.01, -0.35, 0.0, 1.0, 0.0, 0.0, 0.0,
   -0.5, 0.01, 0.0, 0.0, 1.0, 0.0, 1.0, 0.0,
   -0.35, 0.3, -0.35, 0.0, 1.0, 0.0, 0.0, 1.0,
   -0.35, 0.3, -0.35, 0.0, 1.0, 0.0, 0.0, 1.0,
   -0.5, 0.3, 0.0, 0.0, 1.0, 0.0, 1.0, 1.0,
   -0.5, 0.01, 0.0, 0.0, 1.0, 0.0, 1.0, 0.0,
   -0.5, 0.01, 0.0, 0.0, 1.0, 0.0, 0.0, 0.0,
   -0.35, 0.01, 0.35, 0.0, 1.0, 0.0, 1.0, 0.0,
   -0.5, 0.3, 0.0, 0.0, 1.0, 0.0, 0.0, 1.0,
   -0.5, 0.3, 0.0, 0.0, 1.0, 0.0, 0.0, 1.0,
   -0.35, 0.3, 0.35, 0.0, 1.0, 0.0, 1.0, 1.0,
   -0.35, 0.01, 0.35, 0.0, 1.0, 0.0, 1.0, 0.0]

/-- Vertex data of the lid, the array `lid` (lines 703-796): 8 floats per vertex,
position, normal and texture coordinate. -/
def lid : List ℚ :=
  [0.0, 0.4, 0.0, 0.0, 1.0, 0.0, 0.5, 0.5,
   -0.35, 0.4, 0.35, 0.0, 1.0, 0.0, 0.0, 1.0,
   0.0, 0.4, 0.5, 0.0, 1.0, 0.0, 0.0, 1.0,
   0.0, 0.4, 0.0, 0.0, 1.0, 0.0, 0.5, 0.5,
   0.0, 0.4, 0.5, 0.0, 1.0, 0.0, 0.0, 1.0,
   0.35, 0.4, 0.35, 0.0, 1.0, 0.0, 0.0, 1.0,
   0.0, 0.4, 0.0, 0.0, 1.0, 0.0, 0.5, 0.5,
   0.35, 0.4, 0.35, 0.0, 1.0, 0.0, 0.0, 1.0,
   0.5, 0.4, 0.0, 0.0, 1.0, 0.0, 0.0, 1.0,
   0.0, 0.4, 0.0, 0.0, 1.0, 0.0, 0.5, 0.5,
   0.5, 0.4, 0.0, 0.0, 1.0, 0.0, 0.0, 1.0,
   0.35, 0.4, -0.35, 0.0, 1.0, 0.0, 0.0, 1.0,
   0.0, 0.4, 0.0, 0.0, 1.0, 0.0, 0.5, 0.5,
   0.35, 0.4, -0.35, 0.0, 1.0, 0.0, 0.0, 1.0,
   0.0, 0.4, -0.5, 0.0, 1.0, 0.0, 0.0, 1.0,
   0.0, 0.4, 0.0, 0.0, 1.0, 0.0, 0.5, 0.5,
   0.0, 0.4, -0.5, 0.0, 1.0, 0.0, 0.0, 1.0,
   -0.35, 0.4, -0.35, 0.0, 1.0, 0.0, 0.0, 1.0,
   0.0, 0.4, 0.0, 0.0, 1.0, 0.0, 0.5, 0.5,
   -0.35, 0.4, -0.35, 0.0, 1.0, 0.0, 0.0, 1.0,
   -0.5, 0.4, 0.0, 0.0, 1.0, 0.0, 0.0, 1.0,
   0.0, 0.4, 0.0, 0.0, 1.0, 0.0, 0.5, 0.5,
   -0.5, 0.4, 0.0, 0.0, 1.0, 0.0, 0.0, 1.0,
   -0.35, 0.4, 0.35, 0.0, 1.0, 0.0, 0.0, 1.0,
   -0.35, 0.3, 0.35, 0.0, 1.0, 0.0, 0.0, 0.0,
   0.0, 0.3, 0.5, 0.0, 1.0, 0.0, 0.0, 0.125,
   -0.35, 0.4, 0.35, 0.0, 1.0, 0.0, 0.4, 0.0,
   -0.35, 0.4, 0.35, 0.0, 1.0, 0.0, 0.4, 0.0,
   0.0, 0.4, 0.5, 0.0, 1.0, 0.0, 0.4, 0.125,
   0.0, 0.3, 0.5, 0.0, 1.0, 0.0, 0.0, 0.125,
   0.0, 0.3, 0.5, 0.0, 1.0, 0.0, 0.0, 0.125,
   0.35, 0.3, 0.35, 0.0, 1.0, 0.0, 0.0, 0.25,
   0.0, 0.4, 0.5, 0.0, 1.0, 0.0, 0.4, 0.125,
   0.0, 0.4, 0.5, 0.0, 1.0, 0.0, 0.4, 0.125,
   0.35, 0.4, 0.35, 0.0, 1.0, 0.0, 0.4, 0.25,
   0.35, 0.3, 0.35, 0.0, 1.0, 0.0, 0.0, 0.25,
   0.35, 0.3, 0.35, 0.0, 1.0, 0.0, 0.0, 0.25,
   0.5, 0.3, 0.0, 0.0, 1.0, 0.0, 0.0, 0.375,
   0.35, 0.4, 0.35, 0.0, 1.0, 0.0, 0.4, 0.25,
   0.35, 0.4, 0.35, 0.0, 1.0, 0.0, 0.4, 0.25,
   0.5, 0.4, 0.0, 0.0, 1.0, 0.0, 0.4, 0.375,
   0.5, 0.3, 0.0, 0.0, 1.0, 0.0, 0.0, 0.375,
   0.5, 0.3, 0.0, 0.0, 1.0, 0.0, 0.0, 0.375,
   0.35, 0.3, -0.35, 0.0, 1.0, 0.0, 0.0, 0.5,
   0.5, 0.4, 0.0, 0.0, 1.0, 0.0, 0.4, 0.375,
   0.5, 0.4, 0.0, 0.0, 1.0, 0.0, 0.4, 0.375,
   0.35, 0.4, -0.35, 0.0, 1.0, 0.0, 0.4, 0.5,
   0.35, 0.3, -0.35, 0.0, 1.0, 0.0, 0.0, 0.5,
   0.35, 0.3, -0.35, 0.0, 1.0, 0.0, 0.0, 0.5,
   0.0, 0.3, -0.5, 0.0, 1.0, 0.0, 0.0, 0.625,
   0.35, 0.4, -0.35, 0.0, 1.0, 0.0, 0.4, 0.5,
   0.35, 0.4, -0.35, 0.0, 1.0, 0.0, 0.4, 0.5,
   0.0, 0.4, -0.5, 0.0, 1.0, 0.0, 0.4, 0.625,
   0.0, 0.3, -0.5, 0.0, 1.0, 0.0, 0.0, 0.625,
   0.0, 0.3, -0.5, 0.0, 1.0, 0.0, 0.0, 0.625,
   -0.35, 0.3, -0.35, 0.0, 1.0, 0.0, 0.0, 0.75,
   0.0, 0.4, -0.5, 0.0, 1.0, 0.0, 0.4, 0.625,
   0.0, 0.4, -0.5, 0.0, 1.0, 0.0, 0.4, 0.625,
   -0.35, 0.4, -0.35, 0.0, 1.0, 0.0, 0.4, 0.75,
   -0.35, 0.3, -0.35, 0.0, 1.0, 0.0, 0.0, 0.75,
   -0.35, 0.3, -0.35, 0.0, 1.0, 0.0, 0.0, 0.75,
   -0.5, 0.3, 0.0, 0.0, 1.0, 0.0, 0.0, 0.875,
   -0.35, 0.4, -0.35, 0.0, 1.0, 0.0, 0.4, 0.75,
   -0.35, 0.4, -0.35, 0.0, 1.0, 0.0, 0.4, 0.75,
   -0.5, 0.4, 0.0, 0.0, 1.0, 0.0, 0.4, 0.875,
   -0.5, 0.3, 0.0, 0.0, 1.0, 0.0, 0.0, 0.875,
   -0.5, 0.3, 0.0, 0.0, 1.0, 0.0, 0.0, 0.875,
   -0.35, 0.3, 0.35, 0.0, 1.0, 0.0, 0.0, 1.0,
   -0.5, 0.4, 0.0, 0.0, 1.0, 0.0, 0.4, 0.875,
   -0.5, 0.4, 0.0, 0.0, 1.0, 0.0, 0.4, 0.875,
   -0.35, 0.4, 0.35, 0.0, 1.0, 0.0, 0.4, 1.0,
   -0.35, 0.3, 0.35, 0.0, 1.0, 0.0, 0.0, 1.0]

/-! ## The program state -/

/-- The exit status `EXIT_SUCCESS`. -/
def EXIT_SUCCESS : Nat := 0

/-- The exit status `EXIT_FAILURE`. -/
def EXIT_FAILURE : Nat := 1

/-- Matrices as the GLM expressions that build them; the entries are not computed.
`uninitialised` is the global `projection` before its first assignment. -/
inductive Mat4 (α : Type) where
  | uninitialised
  | identity
  | mul (a b : Mat4 α)
  | lookAt (eye center up : Vec3 α)
  | ortho (left right bottom top zNear zFar : α)
  | perspective (fovy aspect zNear zFar : α)
  | translate (v : Vec3 α)
  | scale (v : Vec3 α)

/-- The value of a uniform upload. -/
inductive UniformValue (α : Type) where
  | vec2 (x y : α)
  | vec3 (x y z : α)
  | mat4 (value : Mat4 α)

/-- One upload of floating point data to a uniform of a program, the location being
the one `glGetUniformLocation(program, name)` returns. -/
structure UniformUpload (α : Type) where
  program : Nat
  name : String
  value : UniformValue α

/-- Everything `main` works on: the camera globals, the global `projection`, the
OpenGL context with the standard streams, the uniform data uploaded so far, and the
object names held in the globals `gCubeProgramId` .. `gTextureId7` and in the locals
`VAO` .. `VBO7` of `main` (0 until assigned). -/
structure ProgramState (α : Type) where
  globals : Globals α
  projection : Mat4 α
  gl : GLContext
  uniforms : List (UniformUpload α)
  gCubeProgramId : Nat
  gLightProgramId : Nat
  gTextureId : Nat
  gTextureId2 : Nat
  gTextureId3 : Nat
  gTextureId5 : Nat
  gTextureId6 : Nat
  gTextureId7 : Nat
  VAO : Nat
  VBO : Nat
  VAO2 : Nat
  VBO2 : Nat
  VAO3 : Nat
  VBO3 : Nat
  VAO4 : Nat
  VBO4 : Nat
  VAO5 : Nat
  VBO5 : Nat
  VAO6 : Nat
  VBO6 : Nat
  VAO7 : Nat
  VBO7 : Nat

/-- What the program finds outside itself at startup: whether `glfwCreateWindow`
returns a window, the result of `glewInit` (`none` for `GLEW_OK`, otherwise the text of
`glewGetErrorString`), the version string of the context, the GPU driver, the image
decoder with the file system behind it, and the four GLSL texts the `GLSL` macro builds
(lines 84-197), whose content matters to the driver only. -/
structure Environment where
  glfwCreateWindow : Bool
  glewInit : Option String
  glVersion : String
  driver : Driver
  stbi_load : String → Option Image
  cubeVertexShaderSource : String
  cubeFragmentShaderSource : String
  lampVertexShaderSource : String
  lampFragmentShaderSource : String

section Program

variable {α : Type} [LinearOrderedField α]

/-- The state when `main` is entered. -/
def ProgramState.initial : ProgramState α where
  globals := Globals.initial
  projection := Mat4.uninitialised
  gl := GLContext.fresh
  uniforms := []
  gCubeProgramId := 0
  gLightProgramId := 0
  gTextureId := 0
  gTextureId2 := 0
  gTextureId3 := 0
  gTextureId5 := 0
  gTextureId6 := 0
  gTextureId7 := 0
  VAO := 0
  VBO := 0
  VAO2 := 0
  VBO2 := 0
  VAO3 := 0
  VBO3 := 0
  VAO4 := 0
  VBO4 := 0
  VAO5 := 0
  VBO5 := 0
  VAO6 := 0
  VBO6 := 0
  VAO7 := 0
  VBO7 := 0

/-- The global `gObjectColor`. -/
def gObjectColor : Vec3 α := ⟨1, 0.2, 0⟩

/-- The global `gLightColor`. -/
def gLightColor : Vec3 α := ⟨1, 1, 1⟩

/-- The global `gLightPosition`. -/
def gLightPosition : Vec3 α := ⟨0, 2, 0⟩

/-- The global `gLightScale`, `glm::vec3(0.3f)`. -/
def gLightScale : Vec3 α := ⟨0.3, 0.3, 0.3⟩

/-- A step on the OpenGL context carried out in the program state. -/
def onGL (f : GLContext → GLContext) (st : ProgramState α) : ProgramState α :=
  { st with gl := f st.gl }

/-- A step on the OpenGL context in the rendering part of an iteration, which works on
the context and the uniform data uploaded so far. -/
def withGL (f : GLContext → GLContext) (s : GLContext × List (UniformUpload α)) :
    GLContext × List (UniformUpload α) :=
  (f s.1, s.2)

/-- Model of `glUniformMatrix4fv(glGetUniformLocation(program, name), 1, GL_FALSE,
glm::value_ptr(value))`. -/
def glUniformMatrix4fv (program : Nat) (name : String) (value : Mat4 α)
    (s : GLContext × List (UniformUpload α)) : GLContext × List (UniformUpload α) :=
  (glCall (GLCall.glUniformMatrix4fv program name) s.1,
    s.2 ++ [⟨program, name, UniformValue.mat4 value⟩])

/-- Model of `glUniform3f(glGetUniformLocation(program, name), v.x, v.y, v.z)`. -/
def glUniform3f (program : Nat) (name : String) (v : Vec3 α)
    (s : GLContext × List (UniformUpload α)) : GLContext × List (UniformUpload α) :=
  (glCall (GLCall.glUniform3f program name) s.1,
    s.2 ++ [⟨program, name, UniformValue.vec3 v.x v.y v.z⟩])

/-- Model of `glUniform2fv(glGetUniformLocation(program, name), 1, value)`. -/
def glUniform2fv (program : Nat) (name : String) (x y : α)
    (s : GLContext × List (UniformUpload α)) : GLContext × List (UniformUpload α) :=
  (glCall (GLCall.glUniform2fv program name) s.1,
    s.2 ++ [⟨program, name, UniformValue.vec2 x y⟩])

/-! ## Startup -/

/-- Window and loader setup, `UInitialize` (lines 1025-1071).  The GLFW configuration
calls have no state in the model; what remains is the two failure exits with their
messages and the version line printed on success. -/
def UInitialize (env : Environment) (gl : GLContext) : Bool × GLContext :=
  if !env.glfwCreateWindow then
    (false, cout "Failed to create GLFW window\n" gl)
  else
    match env.glewInit with
    | some glewErrorString => (false, cerr (glewErrorString ++ "\n") gl)
    | none => (true, cout ("INFO: OpenGL Version: " ++ env.glVersion ++ "\n") gl)

/-- Early exit of `main`: `if (!step) return EXIT_FAILURE;` followed by the rest. -/
def andThen (r : Bool × ProgramState α) (next : ProgramState α → Bool × ProgramState α) :
    Bool × ProgramState α :=
  if r.1 then next r.2 else r

/-- The call of `UInitialize` in `main` (line 221). -/
def initializeStep (env : Environment) (st : ProgramState α) : Bool × ProgramState α :=
  (( UInitialize env st.gl).1, { st with gl := ( UInitialize env st.gl).2 })

/-- Creation of the lit program (line 226). -/
def cubeProgramStep (env : Environment) (st : ProgramState α) : Bool × ProgramState α :=
  let r := UCreateShaderProgram env.driver env.cubeVertexShaderSource
    env.cubeFragmentShaderSource st.gl
  (r.1, { st with gCubeProgramId := r.2.1, gl := r.2.2 })

/-- Creation of the lamp program (line 229). -/
def lightProgramStep (env : Environment) (st : ProgramState α) : Bool × ProgramState α :=
  let r := UCreateShaderProgram env.driver env.lampVertexShaderSource
    env.lampFragmentShaderSource st.gl
  (r.1, { st with gLightProgramId := r.2.1, gl := r.2.2 })

/-- The constant `floatsPerVertex`. -/
def floatsPerVertex : Nat := 3

/-- The constant `floatsPerNormal`. -/
def floatsPerNormal : Nat := 3

/-- The constant `floatsPerUV`. -/
def floatsPerUV : Nat := 2

/-- The local `stride`: `sizeof(float)` times the floats of one vertex. -/
def stride : Nat := 4 * (floatsPerVertex + floatsPerNormal + floatsPerUV)

/-- The block `main` repeats for each vertex array (lines 250-268, 320-335, 369-384,
461-476, 575-590, 687-702, 798-813): generate a vertex array and a buffer, bind both,
upload the data and set up the three attributes.  Returns the two names. -/
def setupMesh (data : List ℚ) (gl : GLContext) : Nat × Nat × GLContext :=
  let r := glGenVertexArrays gl
  let vao := r.1
  let gl := r.2
  let r := glGenBuffers gl
  let vbo := r.1
  let gl := r.2
  let gl := glBindVertexArray vao gl
  let gl := glBindBuffer vbo gl
  let gl := glBufferData data gl
  let gl := glVertexAttribPointer 0 floatsPerVertex stride 0 gl
  let gl := glEnableVertexAttribArray 0 gl
  let gl := glVertexAttribPointer 1 floatsPerNormal stride (4 * floatsPerVertex) gl
  let gl := glEnableVertexAttribArray 1 gl
  let gl := glVertexAttribPointer 2 floatsPerUV stride
    (4 * (floatsPerVertex + floatsPerNormal)) gl
  let gl := glEnableVertexAttribArray 2 gl
  (vao, vbo, gl)

/-- The seven vertex arrays of `main` (lines 233-813), in the order of the source:
plane, coaster, lamp, stand, cup, candle, lid. -/
def meshStep (st : ProgramState α) : Bool × ProgramState α :=
  let r1 := setupMesh plane st.gl
  let r2 := setupMesh coaster r1.2.2
  let r3 := setupMesh lamp r2.2.2
  let r4 := setupMesh stand r3.2.2
  let r5 := setupMesh cup r4.2.2
  let r6 := setupMesh candle r5.2.2
  let r7 := setupMesh lid r6.2.2
  (true,
    { st with
      VAO := r1.1, VBO := r1.2.1, VAO2 := r2.1, VBO2 := r2.2.1, VAO3 := r3.1, VBO3 := r3.2.1,
      VAO4 := r4.1, VBO4 := r4.2.1, VAO5 := r5.1, VBO5 := r5.2.1, VAO6 := r6.1,
      VBO6 := r6.2.1, VAO7 := r7.1, VBO7 := r7.2.1, gl := r7.2.2 })

/-- One texture load of `main` (lines 816-845): `UCreateTexture` on `filename` into the
global read by `get` and written by `set`, and on failure the message, which names
`printed`. -/
def textureStep (env : Environment) (filename printed : String)
    (get : ProgramState α → Nat) (set : Nat → ProgramState α → ProgramState α)
    (st : ProgramState α) : Bool × ProgramState α :=
  let r := UCreateTexture env.stbi_load filename (get st) st.gl
  let st := set r.2.1 { st with gl := r.2.2 }
  if r.1 then (true, st)
  else (false, onGL (cout ("Failed to load texture " ++ printed ++ "\n")) st)

/-- The end of the setup (lines 847-853): the lit program is made current, its sampler
is set to texture unit 0 and the clear colour is set. -/
def samplerStep (st : ProgramState α) : Bool × ProgramState α :=
  let gl := st.gl
  let gl := glUseProgram st.gCubeProgramId gl
  let gl := glCall (GLCall.glUniform1i st.gCubeProgramId "uTexture" 0) gl
  let gl := glCall (GLCall.glClearColor 0.0 0.0 0.2 1.0) gl
  (true, { st with gl := gl })

/-- Everything `main` does before the render loop (lines 221-853); the first component
is false when one of the steps made `main` return `EXIT_FAILURE`. -/
def startup (env : Environment) : Bool × ProgramState α :=
  andThen (andThen (andThen (andThen (andThen (andThen (andThen (andThen (andThen (andThen
    (initializeStep env ProgramState.initial)
    (cubeProgramStep env))
    (lightProgramStep env))
    meshStep)
    (textureStep env "textures/black.jpg" "textures/black.jpg"
      (fun st => st.gTextureId) (fun t st => { st with gTextureId := t })))
    (textureStep env "textures/wood.jpg" "textures/wood.jpg"
      (fun st => st.gTextureId2) (fun t st => { st with gTextureId2 := t })))
    (textureStep env "textures/matte_black.jpg" "textures/wood.jpg"
      (fun st => st.gTextureId3) (fun t st => { st with gTextureId3 := t })))
    (textureStep env "textures/blue.jpg" "textures/wood.jpg"
      (fun st => st.gTextureId5) (fun t st => { st with gTextureId5 := t })))
    (textureStep env "textures/candle.jpg" "textures/wood.jpg"
      (fun st => st.gTextureId6) (fun t st => { st with gTextureId6 := t })))
    (textureStep env "textures/metal.jpg" "textures/wood.jpg"
      (fun st => st.gTextureId7) (fun t st => { st with gTextureId7 := t })))
    samplerStep

/-! ## The render loop -/

/-- The block the loop repeats for each scene mesh (lines 920-964): select texture
unit 0, bind the texture and the vertex array, draw, unbind the vertex array. -/
def drawMesh (texture vertexArray count : Nat) (gl : GLContext) : GLContext :=
  let gl := glActiveTexture 0 gl
  let gl := glBindTexture texture gl
  let gl := glBindVertexArray vertexArray gl
  let gl := glDrawArrays 0 count gl
  let gl := glBindVertexArray 0 gl
  gl

/-- The rendering part of one loop iteration (lines 870-985).  The object names are
read from the globals and locals, which this part does not write; what it works on is
the OpenGL context, the uniform data and the global `projection`. -/
def renderFrame (m : MathLib α) (st : ProgramState α) : ProgramState α :=
  let s : GLContext × List (UniformUpload α) := (st.gl, st.uniforms)
  let s := withGL (glCall (GLCall.glEnable GLenum.GL_DEPTH_TEST)) s
  let s := withGL (glCall (GLCall.glClearColor 0.2 0.3 0.3 1.0)) s
  let s := withGL (glCall (GLCall.glClear true true)) s
  let s := withGL (glUseProgram st.gCubeProgramId) s
  let scale : Mat4 α := Mat4.identity
  let trans : Mat4 α := Mat4.identity
  let model := Mat4.mul trans scale
  let view := Mat4.lookAt st.globals.cameraPos
    (Vec3.add st.globals.cameraPos st.globals.cameraFront) st.globals.cameraUp
  let projection :=
    if st.globals.viewProjection = true then Mat4.ortho (-5) 5 (-5) 5 0.1 100
    else if st.globals.viewProjection = false then
      Mat4.perspective (radians m st.globals.fov) (800 / 600) 0.1 100
    else st.projection
  let s := glUniformMatrix4fv st.gCubeProgramId "model" model s
  let s := glUniformMatrix4fv st.gCubeProgramId "view" view s
  let s := glUniformMatrix4fv st.gCubeProgramId "projection" projection s
  let s := glUniform3f st.gCubeProgramId "objectColor" gObjectColor s
  let s := glUniform3f st.gCubeProgramId "lightColor" gLightColor s
  let s := glUniform3f st.gCubeProgramId "lightPos" gLightPosition s
  let cameraPosition := st.globals.cameraPos
  let s := glUniform3f st.gCubeProgramId "viewPosition" cameraPosition s
  let s := glUniform2fv st.gCubeProgramId "uvScale" 1 1 s
  let s := withGL (drawMesh st.gTextureId st.VAO 6) s
  let s := withGL (drawMesh st.gTextureId2 st.VAO2 36) s
  let s := withGL (drawMesh st.gTextureId3 st.VAO4 54) s
  let s := withGL (drawMesh st.gTextureId5 st.VAO5 78) s
  let s := withGL (drawMesh st.gTextureId6 st.VAO6 78) s
  let s := withGL (drawMesh st.gTextureId7 st.VAO7 78) s
  let s := withGL (glUseProgram st.gLightProgramId) s
  let model := Mat4.mul (Mat4.translate gLightPosition) (Mat4.scale gLightScale)
  let s := glUniformMatrix4fv st.gLightProgramId "model" model s
  let s := glUniformMatrix4fv st.gLightProgramId "view" view s
  let s := glUniformMatrix4fv st.gLightProgramId "projection" projection s
  let s := withGL (glBindVertexArray st.VAO3) s
  let s := withGL (glDrawArrays 0 18) s
  let s := withGL (glBindVertexArray 0) s
  { st with projection := projection, gl := s.1, uniforms := s.2 }

/-- What `glfwPollEvents` can deliver: a cursor move, a scroll, a framebuffer resize,
or a close request from the window system. -/
inductive PollEvent (α : Type) where
  | cursorPos (xpos ypos : α)
  | scroll (xoffset yoffset : α)
  | framebufferSize (width height : Int)
  | close

/-- Whether a polled event is a close request. -/
def PollEvent.isClose : PollEvent α → Bool
  | PollEvent.close => true
  | _ => false

/-- Framebuffer size callback, `UResizeWindow` (lines 1105-1108). -/
def UResizeWindow (width height : Int) (gl : GLContext) : GLContext :=
  glCall (GLCall.glViewport 0 0 width height) gl

/-- Dispatch of one polled event to the callback registered for it; a close request
sets the close flag of the window. -/
def deliver (m : MathLib α) (st : ProgramState α) : PollEvent α → ProgramState α
  | PollEvent.cursorPos xpos ypos =>
    { st with globals := mouse_callback m xpos ypos st.globals }
  | PollEvent.scroll xoffset yoffset =>
    { st with globals := scroll_callback xoffset yoffset st.globals }
  | PollEvent.framebufferSize width height => onGL (UResizeWindow width height) st
  | PollEvent.close => { st with globals := { st.globals with windowShouldClose := true } }

/-- What one loop iteration finds outside the program: the value of `glfwGetTime()`,
the keys held, and the events `glfwPollEvents` delivers at its end. -/
structure FrameInput (α : Type) where
  currentFrame : α
  pressed : Key → Bool
  polled : List (PollEvent α)

/-- One iteration of the render loop (lines 859-990). -/
def frame (m : MathLib α) (input : FrameInput α) (st : ProgramState α) : ProgramState α :=
  let st := { st with globals := frameTiming input.currentFrame st.globals }
  let st := { st with globals := UProcessInput m input.pressed st.globals }
  let st := renderFrame m st
  let st := onGL (glCall GLCall.glfwSwapBuffers) st
  let st := onGL (glCall GLCall.glfwPollEvents) st
  input.polled.foldl (deliver m) st

/-- The render loop (lines 857-991) over the inputs of successive iterations.  The
first component tells whether the loop was left, which happens when
`glfwWindowShouldClose` is true at the top of an iteration; it is false when the
inputs ran out with the window still open. -/
def renderLoop (m : MathLib α) : List (FrameInput α) → ProgramState α → Bool × ProgramState α
  | [], st => (st.globals.windowShouldClose, st)
  | input :: rest, st =>
    if st.globals.windowShouldClose then (true, st)
    else renderLoop m rest (frame m input st)

/-- The release section of `main` (lines 993-1018). -/
def release (st : ProgramState α) : ProgramState α :=
  let gl := st.gl
  let gl := glDeleteVertexArrays st.VAO gl
  let gl := glDeleteBuffers 2 st.VBO gl
  let gl := glDeleteVertexArrays st.VAO2 gl
  let gl := glDeleteBuffers 2 st.VBO2 gl
  let gl := glDeleteVertexArrays st.VAO3 gl
  let gl := glDeleteBuffers 2 st.VBO3 gl
  let gl := glDeleteVertexArrays st.VAO4 gl
  let gl := glDeleteBuffers 2 st.VBO4 gl
  let gl := glDeleteVertexArrays st.VAO5 gl
  let gl := glDeleteBuffers 2 st.VBO5 gl
  let gl := glDeleteVertexArrays st.VAO6 gl
  let gl := glDeleteBuffers 2 st.VBO6 gl
  let gl := glDeleteVertexArrays st.VAO7 gl
  let gl := glDeleteBuffers 2 st.VBO7 gl
  let gl := UDestroyTexture st.gTextureId gl
  let gl := UDestroyTexture st.gTextureId2 gl
  let gl := UDestroyTexture st.gTextureId3 gl
  let gl := UDestroyTexture st.gTextureId5 gl
  let gl := UDestroyTexture st.gTextureId6 gl
  let gl := UDestroyTexture st.gTextureId7 gl
  let gl := UDestroyShaderProgram st.gCubeProgramId gl
  { st with gl := gl }

/-- The program, `main` (lines 219-1021).  The first component is the exit status, or
`none` when the inputs ran out with the render loop still running. -/
def main (m : MathLib α) (env : Environment) (inputs : List (FrameInput α)) :
    Option Nat × ProgramState α :=
  let r := startup env
  if !r.1 then (some EXIT_FAILURE, r.2)
  else
    let l := renderLoop m inputs r.2
    if l.1 then (some EXIT_SUCCESS, release l.2)
    else (none, l.2)

/-- The number of loop iterations carried out so far: one buffer swap each. -/
def framesExecuted (st : ProgramState α) : Nat :=
  st.gl.calls.count GLCall.glfwSwapBuffers

/-- Whether an iteration ends with the close flag set when it began with it clear: the
Escape key is held or the window system asks to close. -/
def FrameInput.requestsClose (input : FrameInput α) : Bool :=
  input.pressed Key.ESCAPE || input.polled.any PollEvent.isClose

/-- Whether the nine fallible steps of the startup all succeed: `UInitialize`, the two
`UCreateShaderProgram` calls and the six `UCreateTexture` calls, each taken on its own
(the outcome of none of them depends on the OpenGL state it starts from). -/
def startupSucceeds (env : Environment) : Bool :=
  ( UInitialize env GLContext.fresh).1 &&
  (UCreateShaderProgram env.driver env.cubeVertexShaderSource env.cubeFragmentShaderSource
    GLContext.fresh).1 &&
  (UCreateShaderProgram env.driver env.lampVertexShaderSource env.lampFragmentShaderSource
    GLContext.fresh).1 &&
  (UCreateTexture env.stbi_load "textures/black.jpg" 0 GLContext.fresh).1 &&
  (UCreateTexture env.stbi_load "textures/wood.jpg" 0 GLContext.fresh).1 &&
  (UCreateTexture env.stbi_load "textures/matte_black.jpg" 0 GLContext.fresh).1 &&
  (UCreateTexture env.stbi_load "textures/blue.jpg" 0 GLContext.fresh).1 &&
  (UCreateTexture env.stbi_load "textures/candle.jpg" 0 GLContext.fresh).1 &&
  (UCreateTexture env.stbi_load "textures/metal.jpg" 0 GLContext.fresh).1

/-- The floats a vertex array draws from: the data of the buffer its first attribute is
sourced from; none for a vertex array without attributes. -/
def vertexArrayData (gl : GLContext) (vertexArray : Nat) : List ℚ :=
  match gl.attribs.find? (fun a => a.vertexArray = vertexArray) with
  | some a => bufferData gl a.buffer
  | none => []

/-- The pixels of the image a texture holds; none for a texture without image. -/
def texturePixels (gl : GLContext) (texture : Nat) : Option (List Nat) :=
  (gl.texImages.find? (fun t => t.texture = texture)).map (fun t => t.pixels)

/-- Whether a call selects a program or a texture unit, binds a texture or a vertex
array, or draws. -/
def GLCall.isBindOrDraw : GLCall → Bool
  | GLCall.glUseProgram _ => true
  | GLCall.glActiveTexture _ => true
  | GLCall.glBindTexture _ _ => true
  | GLCall.glBindVertexArray _ => true
  | GLCall.glDrawArrays _ _ _ => true
  | _ => false

/-- An environment in which every startup step succeeds: the window opens, GLEW
loads, the driver accepts every shader and program, and every file decodes to a one
pixel RGB image whose bytes spell the file name. -/
def Environment.working : Environment where
  glfwCreateWindow := true
  glewInit := none
  glVersion := "4.4.0"
  driver := ⟨fun _ _ => true, fun _ _ => "", fun _ _ => true, fun _ _ => ""⟩
  stbi_load := fun filename => some ⟨1, 1, 3, filename.toList.map Char.toNat⟩
  cubeVertexShaderSource := "cubeVertexShaderSource"
  cubeFragmentShaderSource := "cubeFragmentShaderSource"
  lampVertexShaderSource := "lampVertexShaderSource"
  lampFragmentShaderSource := "lampFragmentShaderSource"

/-- A loop iteration at clock value 0 with only the Escape key held and no events. -/
def FrameInput.escape : FrameInput α where
  currentFrame := 0
  pressed := fun k => decide (k = Key.ESCAPE)
  polled := []

/-- A loop iteration at clock value 0 with no key held and no events. -/
def FrameInput.idle : FrameInput α where
  currentFrame := 0
  pressed := fun _ => false
  polled := []

/-- What identifies a draw: the program in use, the texture unit and texture, the
vertex array and the vertex range. -/
def DrawRecord.key (d : DrawRecord) : Nat × Nat × Nat × Nat × Nat × Nat :=
  (d.program, d.textureUnit, d.texture, d.vertexArray, d.first, d.count)

/-- The vertex array names a program state holds: `VAO` .. `VAO7`. -/
def ProgramState.vertexArrays (st : ProgramState α) : List Nat :=
  [st.VAO, st.VAO2, st.VAO3, st.VAO4, st.VAO5, st.VAO6, st.VAO7]

/-- The texture names a program state holds: `gTextureId` .. `gTextureId7`. -/
def ProgramState.textureIds (st : ProgramState α) : List Nat :=
  [st.gTextureId, st.gTextureId2, st.gTextureId3, st.gTextureId5, st.gTextureId6,
    st.gTextureId7]

/-- The object names a program state holds, in the order of the fields. -/
def ProgramState.handles (st : ProgramState α) : List Nat :=
  [st.gCubeProgramId, st.gLightProgramId, st.gTextureId, st.gTextureId2, st.gTextureId3,
    st.gTextureId5, st.gTextureId6, st.gTextureId7, st.VAO, st.VBO, st.VAO2, st.VBO2, st.VAO3,
    st.VBO3, st.VAO4, st.VBO4, st.VAO5, st.VBO5, st.VAO6, st.VBO6, st.VAO7, st.VBO7]

/-- The state after the loop iterations of `inputs`, one `frame` each, without the test
of the close flag at the top of the loop. -/
def frames (m : MathLib α) (inputs : List (FrameInput α)) (st : ProgramState α) :
    ProgramState α :=
  inputs.foldl (fun st input => frame m input st) st

/-- What a draw puts on the screen: the program in use, the texture unit, the pixels of
the texture bound to it and the floats of the vertex array bound. -/
def DrawRecord.content (gl : GLContext) (d : DrawRecord) :
    Nat × Nat × Option (List Nat) × List ℚ :=
  (d.program, d.textureUnit, texturePixels gl d.texture, vertexArrayData gl d.vertexArray)

/-- The three attributes `setupMesh` gives a vertex array, sourced from a buffer. -/
def meshAttribs (vertexArray buffer : Nat) : List VertexAttrib :=
  [{ vertexArray := vertexArray, index := 0, size := floatsPerVertex, stride := stride,
     pointer := 0, buffer := buffer },
   { vertexArray := vertexArray, index := 1, size := floatsPerNormal, stride := stride,
     pointer := 4 * floatsPerVertex, buffer := buffer },
   { vertexArray := vertexArray, index := 2, size := floatsPerUV, stride := stride,
     pointer := 4 * (floatsPerVertex + floatsPerNormal), buffer := buffer }]

/-- The texture image `UCreateTexture` uploads for a decoded image. -/
def Image.upload (image : Image) (texture : Nat) : TexImage where
  texture := texture
  format := if image.channels = 3 then GLenum.GL_RGB else GLenum.GL_RGBA
  width := image.width
  height := image.height
  pixels := image.pixels

/-- No vertex array, buffer, vertex attribute, texture or texture image exists yet: the
state of the objects up to the mesh blocks of `main`. -/
def Unloaded (st : ProgramState α) : Prop :=
  st.gl.vertexArrays = [] ∧ st.gl.buffers = [] ∧ st.gl.attribs = [] ∧ st.gl.textures = [] ∧
    st.gl.texImages = []

/-- The state of the objects after the seven mesh blocks of `main`, run from a context
without objects, and the texture loads that made `textures` with the images
`texImages`: the vertex arrays `VAO` .. `VAO7` are 1 .. 7, each with three attributes
sourced from the buffer of the same number, which holds the floats of its array, and
the first texture globals hold `textures`. -/
def Loaded (textures : List Nat) (texImages : List TexImage) (st : ProgramState α) : Prop :=
  st.vertexArrays = [1, 2, 3, 4, 5, 6, 7] ∧
    st.gl.buffers =
      [(1, plane), (2, coaster), (3, lamp), (4, stand), (5, cup), (6, candle), (7, lid)] ∧
    st.gl.attribs =
      meshAttribs 1 1 ++ meshAttribs 2 2 ++ meshAttribs 3 3 ++ meshAttribs 4 4 ++
        meshAttribs 5 5 ++ meshAttribs 6 6 ++ meshAttribs 7 7 ∧
    st.gl.textures = textures ∧ st.gl.texImages = texImages ∧
    st.textureIds.take textures.length = textures

/-- The constant `WINDOW_WIDTH` (line 26), the width the window is created with. -/
def WINDOW_WIDTH : Int := 800

/-- The constant `WINDOW_HEIGHT` (line 27), the height the window is created with. -/
def WINDOW_HEIGHT : Int := 600

/-- The size of the window: the size GLFW passed to the last call of the framebuffer
size callback `UResizeWindow`, which hands it to `glViewport`, and the size the window
was created with when the callback has not run. -/
def windowSize (gl : GLContext) : Int × Int :=
  gl.calls.foldl
    (fun size call =>
      match call with
      | GLCall.glViewport _ _ width height => (width, height)
      | _ => size)
    (WINDOW_WIDTH, WINDOW_HEIGHT)

/-- A loop iteration at clock value 0 with no key held, at the end of which the window
system reports a resize to `width` x `height`. -/
def FrameInput.resize (width height : Int) : FrameInput α where
  currentFrame := 0
  pressed := fun _ => false
  polled := [PollEvent.framebufferSize width height]

/-- The working environment with one file that does not decode. -/
def Environment.missing (filename : String) : Environment :=
  { Environment.working with
    stbi_load := fun name =>
      if name = filename then none else Environment.working.stbi_load name }

end Program

/-! ## Pitch and field of view stay in range -/

section CameraTheorems

variable {α : Type} [LinearOrderedField α]

/-- Whatever the globals were, `mouse_callback` leaves pitch within [-89, 89]. -/
theorem mouse_callback_pitch_range (m : MathLib α) (xpos ypos : α) (g : Globals α) :
    -89 ≤ (mouse_callback m xpos ypos g).pitch ∧ (mouse_callback m xpos ypos g).pitch ≤ 89 := by
  simp only [mouse_callback]
  split_ifs <;> constructor <;> (try dsimp only at *) <;> linarith

/-- Whatever the globals were, `scroll_callback` leaves fov within [1, 45]. -/
theorem scroll_callback_fov_range (xoffset yoffset : α) (g : Globals α) :
    1 ≤ (scroll_callback xoffset yoffset g).fov ∧ (scroll_callback xoffset yoffset g).fov ≤ 45 := by
  simp only [scroll_callback]
  split_ifs <;> constructor <;> (try dsimp only at *) <;> linarith

/-- Splitting off the last cursor position of a run. -/
theorem mouseRun_append_singleton (m : MathLib α) (g : Globals α) (ps : List (α × α))
    (p : α × α) :
    mouseRun m g (ps ++ [p]) = mouse_callback m p.1 p.2 (mouseRun m g ps) := by
  simp [mouseRun, List.foldl_append]

/-- Splitting off the last scroll offset of a run. -/
theorem scrollRun_append_singleton (g : Globals α) (os : List (α × α)) (o : α × α) :
    scrollRun g (os ++ [o]) = scroll_callback o.1 o.2 (scrollRun g os) := by
  simp [scrollRun, List.foldl_append]

/-- C1. Starting from the initial globals (pitch = 0), after each of the events of any
finite sequence of cursor positions delivered to `mouse_callback` (the first `n` of
them, for every `n`), pitch lies in [-89, 89]. -/
theorem pitch_clamped_after_every_event (m : MathLib α) (positions : List (α × α)) (n : Nat) :
    -89 ≤ (mouseRun m Globals.initial (positions.take n)).pitch ∧
      (mouseRun m Globals.initial (positions.take n)).pitch ≤ 89 := by
  induction (positions.take n) using List.reverseRecOn with
  | nil => simp [mouseRun, Globals.initial]
  | append_singleton ps p _ =>
    rw [mouseRun_append_singleton]
    exact mouse_callback_pitch_range m p.1 p.2 _

/-- C2. Starting from the initial globals (fov = 45), after each of the events of any
finite sequence of scroll offsets delivered to `scroll_callback` (the first `n` of them,
for every `n`), fov lies in [1, 45]. -/
theorem fov_clamped_after_every_event (offsets : List (α × α)) (n : Nat) :
    1 ≤ (scrollRun (Globals.initial : Globals α) (offsets.take n)).fov ∧
      (scrollRun (Globals.initial : Globals α) (offsets.take n)).fov ≤ 45 := by
  induction (offsets.take n) using List.reverseRecOn with
  | nil => simp [scrollRun, Globals.initial]
  | append_singleton os o _ =>
    rw [scrollRun_append_singleton]
    exact scroll_callback_fov_range o.1 o.2 _

/-! ## The front vector -/

/-- The front vector `mouse_callback` stores is the normalised direction of the yaw and
pitch it stores. -/
theorem mouse_callback_cameraFront (m : MathLib α) (xpos ypos : α) (g : Globals α) :
    (mouse_callback m xpos ypos g).cameraFront =
      normalize m (direction m (mouse_callback m xpos ypos g).yaw
        (mouse_callback m xpos ypos g).pitch) := by
  simp only [mouse_callback]

/-- Over the reals the direction built from any yaw and pitch has squared length 1. -/
theorem dot_direction_self (yaw pitch : ℝ) :
    Vec3.dot (direction realMath yaw pitch) (direction realMath yaw pitch) = 1 := by
  have hy := Real.sin_sq_add_cos_sq (radians realMath yaw)
  have hp := Real.sin_sq_add_cos_sq (radians realMath pitch)
  have hc : realMath.cos = Real.cos := rfl
  have hs : realMath.sin = Real.sin := rfl
  simp only [Vec3.dot, direction, hc, hs]
  linear_combination (Real.cos (radians realMath pitch)) ^ 2 * hy + hp

/-- Over the reals normalising the direction returns it unchanged. -/
theorem normalize_direction (yaw pitch : ℝ) :
    normalize realMath (direction realMath yaw pitch) = direction realMath yaw pitch := by
  have h : inversesqrt realMath
      (Vec3.dot (direction realMath yaw pitch) (direction realMath yaw pitch)) = 1 := by
    rw [dot_direction_self]
    simp [inversesqrt, realMath]
  rw [normalize, h]
  ext <;> simp [Vec3.smul]

/-- C3. Over the reals, for every yaw and pitch (degrees) the vector
(cos yaw cos pitch, sin pitch, sin yaw cos pitch) has length 1, so the divisor of the
normalisation is not zero, and the front vector after any `mouse_callback` has
length 1. -/
theorem front_has_unit_length (yaw pitch xpos ypos : ℝ) (g : Globals ℝ) :
    length realMath (direction realMath yaw pitch) = 1 ∧
      realMath.sqrt
        (Vec3.dot (direction realMath yaw pitch) (direction realMath yaw pitch)) ≠ 0 ∧
      length realMath (mouse_callback realMath xpos ypos g).cameraFront = 1 := by
  have hlen : ∀ y p : ℝ, length realMath (direction realMath y p) = 1 := by
    intro y p
    rw [length, dot_direction_self]
    simp [realMath]
  refine ⟨hlen yaw pitch, ?_, ?_⟩
  · have h := hlen yaw pitch
    rw [length] at h
    rw [h]
    exact one_ne_zero
  · rw [mouse_callback_cameraFront, normalize_direction]
    exact hlen _ _

/-! ## What `UProcessInput` changes -/

/-- Frame of `UProcessInput`: it does not write `cameraFront`, `cameraUp`, `yaw`, `pitch` or
`fov`. -/
theorem UProcessInput_frame (m : MathLib α) (pressed : Key → Bool) (g : Globals α) :
    (UProcessInput m pressed g).cameraFront = g.cameraFront ∧
      (UProcessInput m pressed g).cameraUp = g.cameraUp ∧
      (UProcessInput m pressed g).yaw = g.yaw ∧
      (UProcessInput m pressed g).pitch = g.pitch ∧
      (UProcessInput m pressed g).fov = g.fov := by
  unfold UProcessInput
  lift_lets
  intro g1 cameraSpeed g2 g3 g4 g5 g6 g7 g8
  have e1 : g1.cameraFront = g.cameraFront ∧ g1.cameraUp = g.cameraUp ∧ g1.yaw = g.yaw ∧
      g1.pitch = g.pitch ∧ g1.fov = g.fov := by
    simp only [g1]; split_ifs <;> exact ⟨rfl, rfl, rfl, rfl, rfl⟩
  have e2 : g2.cameraFront = g1.cameraFront ∧ g2.cameraUp = g1.cameraUp ∧ g2.yaw = g1.yaw ∧
      g2.pitch = g1.pitch ∧ g2.fov = g1.fov := by
    simp only [g2]; split_ifs <;> exact ⟨rfl, rfl, rfl, rfl, rfl⟩
  have e3 : g3.cameraFront = g2.cameraFront ∧ g3.cameraUp = g2.cameraUp ∧ g3.yaw = g2.yaw ∧
      g3.pitch = g2.pitch ∧ g3.fov = g2.fov := by
    simp only [g3]; split_ifs <;> exact ⟨rfl, rfl, rfl, rfl, rfl⟩
  have e4 : g4.cameraFront = g3.cameraFront ∧ g4.cameraUp = g3.cameraUp ∧ g4.yaw = g3.yaw ∧
      g4.pitch = g3.pitch ∧ g4.fov = g3.fov := by
    simp only [g4]; split_ifs <;> exact ⟨rfl, rfl, rfl, rfl, rfl⟩
  have e5 : g5.cameraFront = g4.cameraFront ∧ g5.cameraUp = g4.cameraUp ∧ g5.yaw = g4.yaw ∧
      g5.pitch = g4.pitch ∧ g5.fov = g4.fov := by
    simp only [g5]; split_ifs <;> exact ⟨rfl, rfl, rfl, rfl, rfl⟩
  have e6 : g6.cameraFront = g5.cameraFront ∧ g6.cameraUp = g5.cameraUp ∧ g6.yaw = g5.yaw ∧
      g6.pitch = g5.pitch ∧ g6.fov = g5.fov := by
    simp only [g6]; split_ifs <;> exact ⟨rfl, rfl, rfl, rfl, rfl⟩
  have e7 : g7.cameraFront = g6.cameraFront ∧ g7.cameraUp = g6.cameraUp ∧ g7.yaw = g6.yaw ∧
      g7.pitch = g6.pitch ∧ g7.fov = g6.fov := by
    simp only [g7]; split_ifs <;> exact ⟨rfl, rfl, rfl, rfl, rfl⟩
  have e8 : g8.cameraFront = g7.cameraFront ∧ g8.cameraUp = g7.cameraUp ∧ g8.yaw = g7.yaw ∧
      g8.pitch = g7.pitch ∧ g8.fov = g7.fov := by
    simp only [g8]; split_ifs <;> exact ⟨rfl, rfl, rfl, rfl, rfl⟩
  clear_value g1 g2 g3 g4 g5 g6 g7 g8
  obtain ⟨a1, b1, c1, d1, f1⟩ := e1
  obtain ⟨a2, b2, c2, d2, f2⟩ := e2
  obtain ⟨a3, b3, c3, d3, f3⟩ := e3
  obtain ⟨a4, b4, c4, d4, f4⟩ := e4
  obtain ⟨a5, b5, c5, d5, f5⟩ := e5
  obtain ⟨a6, b6, c6, d6, f6⟩ := e6
  obtain ⟨a7, b7, c7, d7, f7⟩ := e7
  obtain ⟨a8, b8, c8, d8, f8⟩ := e8
  refine ⟨?_, ?_, ?_, ?_, ?_⟩
  · rw [a8, a7, a6, a5, a4, a3, a2, a1]
  · rw [b8, b7, b6, b5, b4, b3, b2, b1]
  · rw [c8, c7, c6, c5, c4, c3, c2, c1]
  · rw [d8, d7, d6, d5, d4, d3, d2, d1]
  · rw [f8, f7, f6, f5, f4, f3, f2, f1]

/-- The projection flag after one `UProcessInput`: negated when P is held, the same
otherwise. -/
theorem UProcessInput_viewProjection (m : MathLib α) (pressed : Key → Bool) (g : Globals α) :
    (UProcessInput m pressed g).viewProjection =
      if pressed Key.P then !g.viewProjection else g.viewProjection := by
  unfold UProcessInput
  lift_lets
  intro g1 cameraSpeed g2 g3 g4 g5 g6 g7 g8
  have e1 : g1.viewProjection = g.viewProjection := by simp only [g1]; split_ifs <;> rfl
  have e2 : g2.viewProjection = g1.viewProjection := by simp only [g2]; split_ifs <;> rfl
  have e3 : g3.viewProjection = g2.viewProjection := by simp only [g3]; split_ifs <;> rfl
  have e4 : g4.viewProjection = g3.viewProjection := by simp only [g4]; split_ifs <;> rfl
  have e5 : g5.viewProjection = g4.viewProjection := by simp only [g5]; split_ifs <;> rfl
  have e6 : g6.viewProjection = g5.viewProjection := by simp only [g6]; split_ifs <;> rfl
  have e7 : g7.viewProjection = g6.viewProjection := by simp only [g7]; split_ifs <;> rfl
  have e8 : g8.viewProjection = if pressed Key.P then !g7.viewProjection
      else g7.viewProjection := by
    simp only [g8]
    cases hv : g7.viewProjection <;> cases hp : pressed Key.P <;> simp [hv]
  clear_value g1 g2 g3 g4 g5 g6 g7 g8
  rw [e8, e7, e6, e5, e4, e3, e2, e1]

/-- The camera position after one `UProcessInput`: the old position plus
`2.5 * deltaTime` times the direction of the keys held. -/
theorem UProcessInput_cameraPos (m : MathLib α) (pressed : Key → Bool) (g : Globals α) :
    (UProcessInput m pressed g).cameraPos =
      Vec3.add g.cameraPos (Vec3.smul (2.5 * g.deltaTime) (moveDirection m pressed g)) := by
  unfold UProcessInput
  lift_lets
  intro g1 cameraSpeed g2 g3 g4 g5 g6 g7 g8
  have e1 : g1.cameraFront = g.cameraFront ∧ g1.cameraUp = g.cameraUp ∧
      g1.deltaTime = g.deltaTime ∧ g1.cameraPos = g.cameraPos := by
    simp only [g1]; split_ifs <;> exact ⟨rfl, rfl, rfl, rfl⟩
  have e2 : g2.cameraFront = g1.cameraFront ∧ g2.cameraUp = g1.cameraUp ∧
      g2.cameraPos = Vec3.add g1.cameraPos
        (Vec3.smul ((if pressed Key.W then 1 else 0) * cameraSpeed) g1.cameraFront) := by
    simp only [g2]
    split_ifs <;> refine ⟨rfl, rfl, ?_⟩ <;> ext <;> simp [Vec3.add, Vec3.smul]
  have e3 : g3.cameraFront = g2.cameraFront ∧ g3.cameraUp = g2.cameraUp ∧
      g3.cameraPos = Vec3.sub g2.cameraPos
        (Vec3.smul ((if pressed Key.S then 1 else 0) * cameraSpeed) g2.cameraFront) := by
    simp only [g3]
    split_ifs <;> refine ⟨rfl, rfl, ?_⟩ <;> ext <;> simp [Vec3.sub, Vec3.smul]
  have e4 : g4.cameraFront = g3.cameraFront ∧ g4.cameraUp = g3.cameraUp ∧
      g4.cameraPos = Vec3.sub g3.cameraPos
        (Vec3.smul ((if pressed Key.A then 1 else 0) * cameraSpeed)
          (normalize m (Vec3.cross g3.cameraFront g3.cameraUp))) := by
    simp only [g4]
    split_ifs <;> refine ⟨rfl, rfl, ?_⟩ <;> ext <;> simp [Vec3.sub, Vec3.smul]
  have e5 : g5.cameraFront = g4.cameraFront ∧ g5.cameraUp = g4.cameraUp ∧
      g5.cameraPos = Vec3.add g4.cameraPos
        (Vec3.smul ((if pressed Key.D then 1 else 0) * cameraSpeed)
          (normalize m (Vec3.cross g4.cameraFront g4.cameraUp))) := by
    simp only [g5]
    split_ifs <;> refine ⟨rfl, rfl, ?_⟩ <;> ext <;> simp [Vec3.add, Vec3.smul]
  have e6 : g6.cameraFront = g5.cameraFront ∧ g6.cameraUp = g5.cameraUp ∧
      g6.cameraPos = Vec3.add g5.cameraPos
        (Vec3.smul ((if pressed Key.Q then 1 else 0) * cameraSpeed) g5.cameraUp) := by
    simp only [g6]
    split_ifs <;> refine ⟨rfl, rfl, ?_⟩ <;> ext <;> simp [Vec3.add, Vec3.smul]
  have e7 : g7.cameraFront = g6.cameraFront ∧ g7.cameraUp = g6.cameraUp ∧
      g7.cameraPos = Vec3.sub g6.cameraPos
        (Vec3.smul ((if pressed Key.E then 1 else 0) * cameraSpeed) g6.cameraUp) := by
    simp only [g7]
    split_ifs <;> refine ⟨rfl, rfl, ?_⟩ <;> ext <;> simp [Vec3.sub, Vec3.smul]
  have e8 : g8.cameraPos = g7.cameraPos := by
    simp only [g8]; split_ifs <;> rfl
  have hs : cameraSpeed = 2.5 * g.deltaTime := by simp only [cameraSpeed, e1.2.2.1]
  clear_value g1 g2 g3 g4 g5 g6 g7 g8 cameraSpeed
  obtain ⟨a1, b1, -, p1⟩ := e1
  obtain ⟨a2, b2, p2⟩ := e2
  obtain ⟨a3, b3, p3⟩ := e3
  obtain ⟨a4, b4, p4⟩ := e4
  obtain ⟨a5, b5, p5⟩ := e5
  obtain ⟨a6, b6, p6⟩ := e6
  obtain ⟨a7, b7, p7⟩ := e7
  rw [e8, p7, p6, p5, p4, p3, p2, p1]
  simp only [a4, a3, a2, a1, b6, b5, b4, b3, b2, b1, hs]
  simp only [moveDirection, axis]
  ext <;> simp only [Vec3.add, Vec3.sub, Vec3.smul] <;> ring

/-- Frame of `scroll_callback`, which writes nothing but `fov`: orientation is
untouched. -/
theorem scroll_callback_orientation (xoffset yoffset : α) (g : Globals α) :
    (scroll_callback xoffset yoffset g).cameraFront = g.cameraFront ∧
      (scroll_callback xoffset yoffset g).yaw = g.yaw ∧
      (scroll_callback xoffset yoffset g).pitch = g.pitch := by
  simp only [scroll_callback]
  split_ifs <;> exact ⟨rfl, rfl, rfl⟩

/-- Each event keeps the front vector equal to the direction of yaw and pitch. -/
theorem step_front_eq_direction (g : Globals ℝ) (e : Event ℝ)
    (h : g.cameraFront = direction realMath g.yaw g.pitch) :
    (step realMath g e).cameraFront =
      direction realMath (step realMath g e).yaw (step realMath g e).pitch := by
  cases e with
  | mouse xpos ypos =>
    show (mouse_callback realMath xpos ypos g).cameraFront = _
    rw [mouse_callback_cameraFront, normalize_direction]
    rfl
  | scroll xoffset yoffset =>
    obtain ⟨hf, hy, hp⟩ := scroll_callback_orientation xoffset yoffset g
    show (scroll_callback xoffset yoffset g).cameraFront =
      direction realMath (scroll_callback xoffset yoffset g).yaw
        (scroll_callback xoffset yoffset g).pitch
    rw [hf, hy, hp, h]
  | frame currentFrame pressed =>
    obtain ⟨hf, -, hy, hp, -⟩ :=
      UProcessInput_frame realMath pressed (frameTiming currentFrame g)
    show (UProcessInput realMath pressed (frameTiming currentFrame g)).cameraFront =
      direction realMath (UProcessInput realMath pressed (frameTiming currentFrame g)).yaw
        (UProcessInput realMath pressed (frameTiming currentFrame g)).pitch
    rw [hf, hy, hp]
    exact h

/-- The initial front vector (0, 0, -1) is the direction of yaw = -90, pitch = 0. -/
theorem initial_front_eq_direction :
    (Globals.initial : Globals ℝ).cameraFront =
      direction realMath (Globals.initial : Globals ℝ).yaw (Globals.initial : Globals ℝ).pitch := by
  have h90 : (-90 : ℝ) * (Real.pi / 180) = -(Real.pi / 2) := by ring
  ext <;> simp [Globals.initial, direction, radians, realMath, h90]

/-- C4. In every state reached from the initial globals by a sequence of
`mouse_callback`, `scroll_callback` and `UProcessInput` events in any order, over the
reals, `cameraFront` is (cos yaw cos pitch, sin pitch, sin yaw cos pitch) for the current
yaw and pitch in degrees; and the initial front (0, 0, -1) is that vector for yaw = -90,
pitch = 0. -/
theorem front_is_direction_of_yaw_pitch (events : List (Event ℝ)) :
    (run realMath Globals.initial events).cameraFront =
        direction realMath (run realMath Globals.initial events).yaw
          (run realMath Globals.initial events).pitch ∧
      (⟨0, 0, -1⟩ : Vec3 ℝ) = direction realMath (-90) 0 := by
  constructor
  · induction events using List.reverseRecOn with
    | nil => exact initial_front_eq_direction
    | append_singleton es e ih =>
      have hrun : run realMath Globals.initial (es ++ [e]) =
          step realMath (run realMath Globals.initial es) e := by
        simp [run, List.foldl_append]
      rw [hrun]
      exact step_front_eq_direction _ e ih
  · exact initial_front_eq_direction

/-! ## Movement over several frames -/

/-- The direction of movement depends on the globals through front and up only. -/
theorem moveDirection_congr (m : MathLib α) (pressed : Key → Bool) (g g' : Globals α)
    (hf : g'.cameraFront = g.cameraFront) (hu : g'.cameraUp = g.cameraUp) :
    moveDirection m pressed g' = moveDirection m pressed g := by
  simp only [moveDirection, hf, hu]

/-- Position, front and up after `UProcessInput` has run once per `deltaTime`. -/
theorem inputRun_cameraPos (m : MathLib α) (pressed : Key → Bool) (deltaTimes : List α) :
    ∀ g : Globals α,
      (inputRun m pressed g deltaTimes).cameraFront = g.cameraFront ∧
        (inputRun m pressed g deltaTimes).cameraUp = g.cameraUp ∧
        (inputRun m pressed g deltaTimes).cameraPos =
          Vec3.add g.cameraPos
            (Vec3.smul (2.5 * deltaTimes.sum) (moveDirection m pressed g)) := by
  induction deltaTimes with
  | nil =>
    intro g
    refine ⟨rfl, rfl, ?_⟩
    ext <;> simp [inputRun, Vec3.add, Vec3.smul]
  | cons dt dts ih =>
    intro g
    have hcons : inputRun m pressed g (dt :: dts) =
        inputRun m pressed (UProcessInput m pressed { g with deltaTime := dt }) dts := rfl
    obtain ⟨hf, hu, -, -, -⟩ := UProcessInput_frame m pressed { g with deltaTime := dt }
    have hp := UProcessInput_cameraPos m pressed { g with deltaTime := dt }
    have hd : moveDirection m pressed { g with deltaTime := dt } = moveDirection m pressed g :=
      moveDirection_congr m pressed g _ rfl rfl
    obtain ⟨ihf, ihu, ihp⟩ := ih (UProcessInput m pressed { g with deltaTime := dt })
    rw [hcons]
    refine ⟨by rw [ihf, hf], by rw [ihu, hu], ?_⟩
    rw [ihp, moveDirection_congr m pressed _ _ hf hu, hp, hd, List.sum_cons]
    ext <;> simp only [Vec3.add, Vec3.smul] <;> ring

/-- C5. With the same keys held in every frame and the front vector fixed, two
sequences of `deltaTime` values with the same sum, each driving one `UProcessInput` call
per value from the same globals, end at the same camera position in exact arithmetic;
the displacement is 2.5 times the summed `deltaTime` times the direction of the keys
held, whatever the number of frames. -/
theorem frame_rate_independence (m : MathLib α) (pressed : Key → Bool) (g : Globals α)
    (deltaTimes₁ deltaTimes₂ : List α) (h : deltaTimes₁.sum = deltaTimes₂.sum) :
    (inputRun m pressed g deltaTimes₁).cameraPos = (inputRun m pressed g deltaTimes₂).cameraPos ∧
      (inputRun m pressed g deltaTimes₁).cameraPos =
        Vec3.add g.cameraPos
          (Vec3.smul (2.5 * deltaTimes₁.sum) (moveDirection m pressed g)) := by
  have h₁ := (inputRun_cameraPos m pressed deltaTimes₁ g).2.2
  have h₂ := (inputRun_cameraPos m pressed deltaTimes₂ g).2.2
  exact ⟨by rw [h₁, h₂, h], h₁⟩

/-- Three frames of one second and one frame of three seconds with W held move the
camera from (0, 0, 3) to the same place. -/
theorem frame_rate_independence_witness :
    (inputRun realMath (fun k => decide (k = Key.W)) Globals.initial [1, 1, 1]).cameraPos =
        (inputRun realMath (fun k => decide (k = Key.W)) Globals.initial [3]).cameraPos ∧
      (inputRun realMath (fun k => decide (k = Key.W)) Globals.initial [1, 1, 1]).cameraPos =
        Vec3.add (Globals.initial : Globals ℝ).cameraPos
          (Vec3.smul (2.5 * ([1, 1, 1] : List ℝ).sum)
            (moveDirection realMath (fun k => decide (k = Key.W)) Globals.initial)) :=
  frame_rate_independence realMath (fun k => decide (k = Key.W)) Globals.initial
    [1, 1, 1] [3] (by norm_num)

/-! ## Projection toggle -/

/-- Negating a Boolean `n` times gives it back exactly when `n` is even. -/
theorem not_iterate_eq_self_iff (b : Bool) (n : Nat) : (not^[n] b = b) ↔ Even n := by
  induction n with
  | zero => simp
  | succ n ih =>
    rw [Function.iterate_succ_apply', Nat.even_add_one, ← ih]
    cases hb : (not^[n] b) <;> cases b <;> simp

/-- The projection flag after `UProcessInput` has run once per `deltaTime` with P
held: negated once per frame. -/
theorem inputRun_viewProjection (m : MathLib α) (pressed : Key → Bool)
    (hP : pressed Key.P = true) (deltaTimes : List α) :
    ∀ g : Globals α,
      (inputRun m pressed g deltaTimes).viewProjection =
        not^[deltaTimes.length] g.viewProjection := by
  induction deltaTimes with
  | nil => intro g; rfl
  | cons dt dts ih =>
    intro g
    have hcons : inputRun m pressed g (dt :: dts) =
        inputRun m pressed (UProcessInput m pressed { g with deltaTime := dt }) dts := rfl
    rw [hcons, ih, UProcessInput_viewProjection, hP, List.length_cons,
      Function.iterate_succ_apply]
    rfl

/-- C6. With P held, N consecutive `UProcessInput` calls (one per element of
`deltaTimes`) negate `viewProjection` N times, so the final mode equals the initial
mode exactly when N is even, for either initial mode; a call with P not held leaves
`viewProjection` unchanged. -/
theorem viewProjection_flips_every_frame (m : MathLib α) (pressed : Key → Bool)
    (g : Globals α) (deltaTimes : List α) :
    (pressed Key.P = true →
        (inputRun m pressed g deltaTimes).viewProjection =
            not^[deltaTimes.length] g.viewProjection ∧
          ((inputRun m pressed g deltaTimes).viewProjection = g.viewProjection ↔
            Even deltaTimes.length)) ∧
      (pressed Key.P = false →
        (UProcessInput m pressed g).viewProjection = g.viewProjection) := by
  constructor
  · intro hP
    have h := inputRun_viewProjection m pressed hP deltaTimes g
    exact ⟨h, by rw [h]; exact not_iterate_eq_self_iff _ _⟩
  · intro hP
    rw [UProcessInput_viewProjection, hP]
    rfl

/-- Three frames with P held turn the initial perspective mode into orthographic, and
a frame with only W held leaves the mode alone. -/
theorem viewProjection_flips_every_frame_witness :
    (inputRun realMath (fun k => decide (k = Key.P)) Globals.initial
        [0.016, 0.016, 0.016]).viewProjection = true ∧
      (UProcessInput realMath (fun k => decide (k = Key.W)) Globals.initial).viewProjection =
        false := by
  have h := viewProjection_flips_every_frame realMath (fun k => decide (k = Key.P))
    Globals.initial [0.016, 0.016, 0.016]
  have h' := viewProjection_flips_every_frame realMath (fun k => decide (k = Key.W))
    Globals.initial []
  exact ⟨(h.1 (by decide)).1, h'.2 (by decide)⟩

end CameraTheorems

/-! ## Texture loader -/

/-- C7. `UCreateTexture` returns failure exactly when the decoder returns no image or
the decoded image has a channel count other than 3 and 4, and returns success exactly
when the decoder returns an image with 3 or 4 channels. -/
theorem UCreateTexture_fails_iff (stbi_load : String → Option Image) (filename : String)
    (textureId : Nat) (gl : GLContext) :
    ((UCreateTexture stbi_load filename textureId gl).1 = false ↔
        (stbi_load filename = none ∨
          ∃ image, stbi_load filename = some image ∧ image.channels ≠ 3 ∧ image.channels ≠ 4)) ∧
      ((UCreateTexture stbi_load filename textureId gl).1 = true ↔
        ∃ image, stbi_load filename = some image ∧
          (image.channels = 3 ∨ image.channels = 4)) := by
  unfold UCreateTexture
  cases h : stbi_load filename with
  | none => simp
  | some image =>
    by_cases h3 : image.channels = 3
    · simp [h3]
    · by_cases h4 : image.channels = 4
      · simp [h4]
      · simp [h3, h4]

/-- When the decoder returns no image, `UCreateTexture` fails and touches neither the
context nor the caller's texture id. -/
theorem UCreateTexture_decode_failure (stbi_load : String → Option Image) (filename : String)
    (textureId : Nat) (gl : GLContext) (h : stbi_load filename = none) :
    UCreateTexture stbi_load filename textureId gl = (false, textureId, gl) := by
  simp [UCreateTexture, h]

/-- When the decoder returns an image with 3 or 4 channels, `UCreateTexture` ends with
no texture bound. -/
theorem UCreateTexture_success_unbinds (stbi_load : String → Option Image) (filename : String)
    (textureId : Nat) (gl : GLContext) (image : Image) (h : stbi_load filename = some image)
    (hc : image.channels = 3 ∨ image.channels = 4) :
    (UCreateTexture stbi_load filename textureId gl).2.2.boundTexture2D = 0 := by
  rcases hc with hc | hc <;> simp [UCreateTexture, h, hc, glBindTexture]

/-- C8, the code at a failing input. For a decodable one-channel image
`UCreateTexture` returns failure after it has generated texture name 1 in a context
that had no textures and has overwritten the caller's texture id 0 with that name. -/
theorem UCreateTexture_unsupported_channels_generates_texture :
    (UCreateTexture (fun _ => some ⟨2, 2, 1, [0, 0, 0, 0]⟩) "textures/grey.jpg" 0
        GLContext.fresh).1 = false ∧
      (UCreateTexture (fun _ => some ⟨2, 2, 1, [0, 0, 0, 0]⟩) "textures/grey.jpg" 0
        GLContext.fresh).2.1 = 1 ∧
      GLContext.fresh.textures = [] ∧
      (UCreateTexture (fun _ => some ⟨2, 2, 1, [0, 0, 0, 0]⟩) "textures/grey.jpg" 0
        GLContext.fresh).2.2.textures = [1] := by
  refine ⟨rfl, rfl, rfl, rfl⟩

/-- C9, the code at a failing input. Called with no texture bound, for a decodable
two-channel image `UCreateTexture` returns failure with texture 1 still bound to the 2D
target. -/
theorem UCreateTexture_unsupported_channels_leaves_texture_bound :
    GLContext.fresh.boundTexture2D = 0 ∧
      (UCreateTexture (fun _ => some ⟨1, 1, 2, [0, 0]⟩) "textures/grey_alpha.png" 0
        GLContext.fresh).1 = false ∧
      (UCreateTexture (fun _ => some ⟨1, 1, 2, [0, 0]⟩) "textures/grey_alpha.png" 0
        GLContext.fresh).2.2.boundTexture2D = 1 := by
  refine ⟨rfl, rfl, rfl⟩

/-! ## Shader program builder -/

/-- C10. Whatever the driver reports, when the vertex stage or the fragment stage
fails to compile `UCreateShaderProgram` returns failure, none of the calls it has made
is `glAttachShader`, `glLinkProgram` or `glUseProgram`, and the attachments, the linked
programs and the program in use are those from before the call. -/
theorem UCreateShaderProgram_compile_failure (d : Driver)
    (vtxShaderSource fragShaderSource : String) (gl : GLContext)
    (h : d.compileStatus GLenum.GL_VERTEX_SHADER vtxShaderSource = false ∨
      d.compileStatus GLenum.GL_FRAGMENT_SHADER fragShaderSource = false) :
    (UCreateShaderProgram d vtxShaderSource fragShaderSource gl).1 = false ∧
      (callsSince gl (UCreateShaderProgram d vtxShaderSource fragShaderSource gl).2.2).any
        GLCall.isAttachLinkOrUse = false ∧
      (UCreateShaderProgram d vtxShaderSource fragShaderSource gl).2.2.attached = gl.attached ∧
      (UCreateShaderProgram d vtxShaderSource fragShaderSource gl).2.2.linked = gl.linked ∧
      (UCreateShaderProgram d vtxShaderSource fragShaderSource gl).2.2.currentProgram =
        gl.currentProgram := by
  cases hv : d.compileStatus GLenum.GL_VERTEX_SHADER vtxShaderSource with
  | false =>
    simp [UCreateShaderProgram, hv, callsSince, cout, glCompileShader, glShaderSource,
      glCreateShader, glCreateProgram, GLCall.isAttachLinkOrUse]
  | true =>
    have hf : d.compileStatus GLenum.GL_FRAGMENT_SHADER fragShaderSource = false := by
      rcases h with h | h
      · rw [hv] at h; exact absurd h (by decide)
      · exact h
    simp [UCreateShaderProgram, hv, hf, callsSince, cout, glCompileShader, glShaderSource,
      glCreateShader, glCreateProgram, GLCall.isAttachLinkOrUse]

/-- A driver that rejects every vertex stage: in a new context the builder fails with
no attach, link or use call and no program in use. -/
theorem UCreateShaderProgram_compile_failure_witness :
    (UCreateShaderProgram
        ⟨fun t _ => decide (t ≠ GLenum.GL_VERTEX_SHADER), fun _ _ => "0:1: error",
          fun _ _ => true, fun _ _ => ""⟩
        "void main()" "void main()" GLContext.fresh).1 = false ∧
      (callsSince GLContext.fresh
          (UCreateShaderProgram
            ⟨fun t _ => decide (t ≠ GLenum.GL_VERTEX_SHADER), fun _ _ => "0:1: error",
              fun _ _ => true, fun _ _ => ""⟩
            "void main()" "void main()" GLContext.fresh).2.2).any
        GLCall.isAttachLinkOrUse = false ∧
      (UCreateShaderProgram
        ⟨fun t _ => decide (t ≠ GLenum.GL_VERTEX_SHADER), fun _ _ => "0:1: error",
          fun _ _ => true, fun _ _ => ""⟩
        "void main()" "void main()" GLContext.fresh).2.2.currentProgram = 0 := by
  have h := UCreateShaderProgram_compile_failure
    ⟨fun t _ => decide (t ≠ GLenum.GL_VERTEX_SHADER), fun _ _ => "0:1: error",
      fun _ _ => true, fun _ _ => ""⟩
    "void main()" "void main()" GLContext.fresh (Or.inl (by decide))
  exact ⟨h.1, h.2.1, h.2.2.2.2⟩

/-- C11. `UCreateShaderProgram` returns success exactly when the driver reports
success for the vertex compile, the fragment compile and the link; on success the
program it created is linked and is the program in use, and on failure the program in
use is the one from before the call. -/
theorem UCreateShaderProgram_success_iff (d : Driver)
    (vtxShaderSource fragShaderSource : String) (gl : GLContext) :
    ((UCreateShaderProgram d vtxShaderSource fragShaderSource gl).1 = true ↔
        (d.compileStatus GLenum.GL_VERTEX_SHADER vtxShaderSource = true ∧
          d.compileStatus GLenum.GL_FRAGMENT_SHADER fragShaderSource = true ∧
          d.linkStatus vtxShaderSource fragShaderSource = true)) ∧
      (UCreateShaderProgram d vtxShaderSource fragShaderSource gl).2.2.currentProgram =
        (if (UCreateShaderProgram d vtxShaderSource fragShaderSource gl).1 then
          (UCreateShaderProgram d vtxShaderSource fragShaderSource gl).2.1
        else gl.currentProgram) ∧
      ((UCreateShaderProgram d vtxShaderSource fragShaderSource gl).2.1 ∈
          (UCreateShaderProgram d vtxShaderSource fragShaderSource gl).2.2.linked ∨
        (UCreateShaderProgram d vtxShaderSource fragShaderSource gl).1 = false) := by
  cases hv : d.compileStatus GLenum.GL_VERTEX_SHADER vtxShaderSource <;>
    cases hf : d.compileStatus GLenum.GL_FRAGMENT_SHADER fragShaderSource <;>
    cases hl : d.linkStatus vtxShaderSource fragShaderSource <;>
    simp [UCreateShaderProgram, hv, hf, hl, cout, glCompileShader, glShaderSource,
      glCreateShader, glCreateProgram, glAttachShader, glLinkProgram, glUseProgram]

/-- C12. What `UCreateShaderProgram` prints: nothing on success, and on failure one
output statement, which carries the VERTEX tag when the vertex compile failed, the
FRAGMENT tag when the vertex compile succeeded and the fragment compile failed, and the
LINKING_FAILED tag when both compiled and the link failed; the three tags are pairwise
different. -/
theorem UCreateShaderProgram_diagnostic (d : Driver)
    (vtxShaderSource fragShaderSource : String) (gl : GLContext) :
    (UCreateShaderProgram d vtxShaderSource fragShaderSource gl).2.2.stdout =
        gl.stdout ++
          (if d.compileStatus GLenum.GL_VERTEX_SHADER vtxShaderSource = false then
            ["ERROR::SHADER::VERTEX::COMPILATION_FAILED\n" ++
              (d.shaderInfoLog GLenum.GL_VERTEX_SHADER vtxShaderSource).take 511 ++ "\n"]
          else if d.compileStatus GLenum.GL_FRAGMENT_SHADER fragShaderSource = false then
            ["ERROR::SHADER::FRAGMENT::COMPILATION_FAILED\n" ++
              (d.shaderInfoLog GLenum.GL_FRAGMENT_SHADER fragShaderSource).take 511 ++ "\n"]
          else if d.linkStatus vtxShaderSource fragShaderSource = false then
            ["ERROR::SHADER::PROGRAM::LINKING_FAILED\n" ++
              (d.programInfoLog vtxShaderSource fragShaderSource).take 511 ++ "\n"]
          else []) ∧
      (UCreateShaderProgram d vtxShaderSource fragShaderSource gl).2.2.stdout.length =
        gl.stdout.length +
          (if (UCreateShaderProgram d vtxShaderSource fragShaderSource gl).1 then 0 else 1) ∧
      "ERROR::SHADER::PROGRAM::LINKING_FAILED\n" ≠
        "ERROR::SHADER::VERTEX::COMPILATION_FAILED\n" ∧
      "ERROR::SHADER::PROGRAM::LINKING_FAILED\n" ≠
        "ERROR::SHADER::FRAGMENT::COMPILATION_FAILED\n" ∧
      "ERROR::SHADER::VERTEX::COMPILATION_FAILED\n" ≠
        "ERROR::SHADER::FRAGMENT::COMPILATION_FAILED\n" := by
  refine ⟨?_, ?_, by decide, by decide, by decide⟩ <;>
    cases hv : d.compileStatus GLenum.GL_VERTEX_SHADER vtxShaderSource <;>
    cases hf : d.compileStatus GLenum.GL_FRAGMENT_SHADER fragShaderSource <;>
    cases hl : d.linkStatus vtxShaderSource fragShaderSource <;>
    simp [UCreateShaderProgram, hv, hf, hl, cout, glCompileShader, glShaderSource,
      glCreateShader, glCreateProgram, glAttachShader, glLinkProgram, glUseProgram]

/-! ## Mouse look, keyboard movement and zoom, one event at a time -/

section CameraBehaviour

variable {α : Type} [LinearOrderedField α]

/-- Frame of `scroll_callback` for the cursor bookkeeping: `firstMouse`, `lastX` and
`lastY` are untouched. -/
theorem scroll_callback_cursor (xoffset yoffset : α) (g : Globals α) :
    (scroll_callback xoffset yoffset g).firstMouse = g.firstMouse ∧
      (scroll_callback xoffset yoffset g).lastX = g.lastX ∧
      (scroll_callback xoffset yoffset g).lastY = g.lastY := by
  simp only [scroll_callback]
  split_ifs <;> exact ⟨rfl, rfl, rfl⟩

/-- Frame of `UProcessInput` for the cursor bookkeeping: `firstMouse`, `lastX` and
`lastY` are untouched. -/
theorem UProcessInput_cursor (m : MathLib α) (pressed : Key → Bool) (g : Globals α) :
    (UProcessInput m pressed g).firstMouse = g.firstMouse ∧
      (UProcessInput m pressed g).lastX = g.lastX ∧
      (UProcessInput m pressed g).lastY = g.lastY := by
  unfold UProcessInput
  lift_lets
  intro g1 cameraSpeed g2 g3 g4 g5 g6 g7 g8
  have e1 : g1.firstMouse = g.firstMouse ∧ g1.lastX = g.lastX ∧ g1.lastY = g.lastY := by
    simp only [g1]; split_ifs <;> exact ⟨rfl, rfl, rfl⟩
  have e2 : g2.firstMouse = g1.firstMouse ∧ g2.lastX = g1.lastX ∧ g2.lastY = g1.lastY := by
    simp only [g2]; split_ifs <;> exact ⟨rfl, rfl, rfl⟩
  have e3 : g3.firstMouse = g2.firstMouse ∧ g3.lastX = g2.lastX ∧ g3.lastY = g2.lastY := by
    simp only [g3]; split_ifs <;> exact ⟨rfl, rfl, rfl⟩
  have e4 : g4.firstMouse = g3.firstMouse ∧ g4.lastX = g3.lastX ∧ g4.lastY = g3.lastY := by
    simp only [g4]; split_ifs <;> exact ⟨rfl, rfl, rfl⟩
  have e5 : g5.firstMouse = g4.firstMouse ∧ g5.lastX = g4.lastX ∧ g5.lastY = g4.lastY := by
    simp only [g5]; split_ifs <;> exact ⟨rfl, rfl, rfl⟩
  have e6 : g6.firstMouse = g5.firstMouse ∧ g6.lastX = g5.lastX ∧ g6.lastY = g5.lastY := by
    simp only [g6]; split_ifs <;> exact ⟨rfl, rfl, rfl⟩
  have e7 : g7.firstMouse = g6.firstMouse ∧ g7.lastX = g6.lastX ∧ g7.lastY = g6.lastY := by
    simp only [g7]; split_ifs <;> exact ⟨rfl, rfl, rfl⟩
  have e8 : g8.firstMouse = g7.firstMouse ∧ g8.lastX = g7.lastX ∧ g8.lastY = g7.lastY := by
    simp only [g8]; split_ifs <;> exact ⟨rfl, rfl, rfl⟩
  clear_value g1 g2 g3 g4 g5 g6 g7 g8
  obtain ⟨a1, b1, c1⟩ := e1
  obtain ⟨a2, b2, c2⟩ := e2
  obtain ⟨a3, b3, c3⟩ := e3
  obtain ⟨a4, b4, c4⟩ := e4
  obtain ⟨a5, b5, c5⟩ := e5
  obtain ⟨a6, b6, c6⟩ := e6
  obtain ⟨a7, b7, c7⟩ := e7
  obtain ⟨a8, b8, c8⟩ := e8
  refine ⟨?_, ?_, ?_⟩
  · rw [a8, a7, a6, a5, a4, a3, a2, a1]
  · rw [b8, b7, b6, b5, b4, b3, b2, b1]
  · rw [c8, c7, c6, c5, c4, c3, c2, c1]

/-- Scroll and frame events before the first cursor move leave `firstMouse` set and
yaw and pitch at their initial values. -/
theorem run_before_first_mouse (m : MathLib α) (events : List (Event α))
    (h : ∀ e ∈ events, Event.isMouse e = false) :
    (run m Globals.initial events).firstMouse = true ∧
      (run m Globals.initial events).yaw = -90 ∧
      (run m Globals.initial events).pitch = 0 := by
  induction events using List.reverseRecOn with
  | nil => exact ⟨rfl, rfl, rfl⟩
  | append_singleton es e ih =>
    have hrun : run m Globals.initial (es ++ [e]) = step m (run m Globals.initial es) e := by
      simp [run, List.foldl_append]
    obtain ⟨i1, i2, i3⟩ := ih (fun e' he' => h e' (List.mem_append_left _ he'))
    have he : Event.isMouse e = false := h e (by simp)
    rw [hrun]
    cases e with
    | mouse xpos ypos => simp [Event.isMouse] at he
    | scroll xoffset yoffset =>
      obtain ⟨-, hy, hp⟩ := scroll_callback_orientation xoffset yoffset (run m Globals.initial es)
      obtain ⟨hfm, -, -⟩ := scroll_callback_cursor xoffset yoffset (run m Globals.initial es)
      exact ⟨hfm.trans i1, hy.trans i2, hp.trans i3⟩
    | frame currentFrame pressed =>
      obtain ⟨-, -, hy, hp, -⟩ :=
        UProcessInput_frame m pressed (frameTiming currentFrame (run m Globals.initial es))
      obtain ⟨hfm, -, -⟩ :=
        UProcessInput_cursor m pressed (frameTiming currentFrame (run m Globals.initial es))
      exact ⟨hfm.trans i1, hy.trans i2, hp.trans i3⟩

/-- With `firstMouse` set, `mouse_callback` records the cursor position, clears the
flag and leaves yaw unchanged, and leaves a pitch within [-89, 89] unchanged. -/
theorem mouse_callback_first (m : MathLib α) (xpos ypos : α) (g : Globals α)
    (hfirst : g.firstMouse = true) (hlo : -89 ≤ g.pitch) (hhi : g.pitch ≤ 89) :
    (mouse_callback m xpos ypos g).yaw = g.yaw ∧
      (mouse_callback m xpos ypos g).pitch = g.pitch ∧
      (mouse_callback m xpos ypos g).lastX = xpos ∧
      (mouse_callback m xpos ypos g).lastY = ypos ∧
      (mouse_callback m xpos ypos g).firstMouse = false := by
  have h1 : ¬ (g.pitch > 89) := not_lt.mpr hhi
  have h2 : ¬ (g.pitch < -89) := not_lt.mpr hlo
  simp [mouse_callback, hfirst, h1, h2]

/-- C14. The first `mouse_callback` after startup, whatever scroll and frame events
came before it and for every cursor position (x, y), over the reals: yaw stays -90 and
pitch stays 0, `cameraFront` is (0, 0, -1), the last cursor position becomes (x, y) and
`firstMouse` is cleared. -/
theorem first_mouse_event_no_jump (events : List (Event ℝ)) (xpos ypos : ℝ)
    (h : ∀ e ∈ events, Event.isMouse e = false) :
    (mouse_callback realMath xpos ypos (run realMath Globals.initial events)).yaw = -90 ∧
      (mouse_callback realMath xpos ypos (run realMath Globals.initial events)).pitch = 0 ∧
      (mouse_callback realMath xpos ypos (run realMath Globals.initial events)).cameraFront =
        ⟨0, 0, -1⟩ ∧
      (mouse_callback realMath xpos ypos (run realMath Globals.initial events)).lastX = xpos ∧
      (mouse_callback realMath xpos ypos (run realMath Globals.initial events)).lastY = ypos ∧
      (mouse_callback realMath xpos ypos (run realMath Globals.initial events)).firstMouse =
        false := by
  obtain ⟨hfm, hy, hp⟩ := run_before_first_mouse realMath events h
  obtain ⟨r1, r2, r3, r4, r5⟩ := mouse_callback_first realMath xpos ypos
    (run realMath Globals.initial events) hfm (by rw [hp]; norm_num) (by rw [hp]; norm_num)
  refine ⟨r1.trans hy, r2.trans hp, ?_, r3, r4, r5⟩
  rw [mouse_callback_cameraFront, normalize_direction, r1, r2, hy, hp]
  exact initial_front_eq_direction.symm

/-- After a scroll and a frame with W held, the first cursor move, to (512, 80), keeps
yaw, pitch and the front vector and records the position. -/
theorem first_mouse_event_no_jump_witness :
    (mouse_callback realMath 512 80
        (run realMath Globals.initial
          [Event.scroll 0 1, Event.frame 0.5 (fun k => decide (k = Key.W))])).yaw = -90 ∧
      (mouse_callback realMath 512 80
        (run realMath Globals.initial
          [Event.scroll 0 1, Event.frame 0.5 (fun k => decide (k = Key.W))])).cameraFront =
        ⟨0, 0, -1⟩ ∧
      (mouse_callback realMath 512 80
        (run realMath Globals.initial
          [Event.scroll 0 1, Event.frame 0.5 (fun k => decide (k = Key.W))])).lastX = 512 := by
  have h := first_mouse_event_no_jump
    [Event.scroll 0 1, Event.frame 0.5 (fun k => decide (k = Key.W))] 512 80
    (by intro e he; simp at he; rcases he with rfl | rfl <;> rfl)
  exact ⟨h.1, h.2.2.1, h.2.2.2.1⟩

/-- C15. One `UProcessInput` call, for every globals, `deltaTime` and set of held keys,
sets the position to pos + s ([W] - [S]) front + s ([D] - [A]) normalize(cross(front, up))
+ s ([Q] - [E]) up with s = 2.5 deltaTime, where [k] is 1 if k is held and 0 otherwise. -/
theorem UProcessInput_position_formula (m : MathLib α) (pressed : Key → Bool)
    (g : Globals α) :
    (UProcessInput m pressed g).cameraPos =
      Vec3.add
        (Vec3.add
          (Vec3.add g.cameraPos
            (Vec3.smul
              (2.5 * g.deltaTime *
                ((if pressed Key.W then 1 else 0) - (if pressed Key.S then 1 else 0)))
              g.cameraFront))
          (Vec3.smul
            (2.5 * g.deltaTime *
              ((if pressed Key.D then 1 else 0) - (if pressed Key.A then 1 else 0)))
            (normalize m (Vec3.cross g.cameraFront g.cameraUp))))
        (Vec3.smul
          (2.5 * g.deltaTime *
            ((if pressed Key.Q then 1 else 0) - (if pressed Key.E then 1 else 0)))
          g.cameraUp) := by
  rw [UProcessInput_cameraPos]
  simp only [moveDirection, axis]
  ext <;> simp only [Vec3.add, Vec3.smul] <;> ring

/-- C19. A `mouse_callback` event after the first (`firstMouse` cleared), with previous
cursor position (lastX, lastY) and new position (x, y): yaw becomes
yaw + 0.1 (x - lastX) with no clamp, pitch becomes pitch + 0.1 (lastY - y) clamped to
[-89, 89], the last cursor position becomes (x, y), and moving the cursor up (y below
lastY) raises a pitch that is within [-89, 89). -/
theorem mouse_callback_update (m : MathLib α) (xpos ypos : α) (g : Globals α)
    (hfirst : g.firstMouse = false) :
    (mouse_callback m xpos ypos g).yaw = g.yaw + 0.1 * (xpos - g.lastX) ∧
      (mouse_callback m xpos ypos g).pitch =
        max (-89) (min 89 (g.pitch + 0.1 * (g.lastY - ypos))) ∧
      (mouse_callback m xpos ypos g).lastX = xpos ∧
      (mouse_callback m xpos ypos g).lastY = ypos ∧
      (ypos < g.lastY → -89 ≤ g.pitch → g.pitch < 89 →
        g.pitch < (mouse_callback m xpos ypos g).pitch) := by
  have hp : (mouse_callback m xpos ypos g).pitch =
      max (-89) (min 89 (g.pitch + 0.1 * (g.lastY - ypos))) := by
    simp only [mouse_callback, hfirst]
    by_cases h1 : g.pitch + (g.lastY - ypos) * 0.1 > 89
    · have e : g.pitch + 0.1 * (g.lastY - ypos) = g.pitch + (g.lastY - ypos) * 0.1 := by ring
      rw [e, min_eq_left (le_of_lt h1), max_eq_right (by norm_num)]
      simp [h1]
      norm_num
    · have e : g.pitch + 0.1 * (g.lastY - ypos) = g.pitch + (g.lastY - ypos) * 0.1 := by ring
      rw [e, min_eq_right (not_lt.mp h1)]
      by_cases h2 : g.pitch + (g.lastY - ypos) * 0.1 < -89
      · rw [max_eq_left (le_of_lt h2)]
        simp [h1, h2]
      · rw [max_eq_right (not_lt.mp h2)]
        simp [h1, h2]
  refine ⟨?_, hp, ?_, ?_, ?_⟩
  · simp only [mouse_callback, hfirst, Bool.false_eq_true, if_false]
    split_ifs <;> simp only [mul_comm (0.1 : α)]
  · simp only [mouse_callback, hfirst, Bool.false_eq_true, if_false]
    split_ifs <;> rfl
  · simp only [mouse_callback, hfirst, Bool.false_eq_true, if_false]
    split_ifs <;> rfl
  · intro hy hlo hhi
    rw [hp]
    have hpos : g.pitch < g.pitch + 0.1 * (g.lastY - ypos) := by
      have : (0 : α) < 0.1 * (g.lastY - ypos) := by
        apply mul_pos (by norm_num) (sub_pos.mpr hy)
      linarith
    exact lt_max_of_lt_right (lt_min hhi hpos)

/-- From yaw -90, pitch 0 and last cursor position (400, 300), a move to (410, 280)
gives yaw -89, pitch 2 and last position (410, 280). -/
theorem mouse_callback_update_witness :
    (mouse_callback realMath 410 280
        { (Globals.initial : Globals ℝ) with firstMouse := false }).yaw =
        -90 + 0.1 * (410 - 800 / 2) ∧
      (mouse_callback realMath 410 280
        { (Globals.initial : Globals ℝ) with firstMouse := false }).pitch =
        max (-89) (min 89 (0 + 0.1 * (600 / 2 - 280))) ∧
      (mouse_callback realMath 410 280
        { (Globals.initial : Globals ℝ) with firstMouse := false }).lastX = 410 := by
  have h := mouse_callback_update realMath 410 280
    { (Globals.initial : Globals ℝ) with firstMouse := false } rfl
  exact ⟨h.1, h.2.1, h.2.2.1⟩

/-- C20. For every fov in [1, 45] and every scroll event, `scroll_callback` sets fov to
min(45, max(1, fov - yoffset)); the result is the same for every horizontal offset; a
positive vertical offset does not widen the field of view and narrows it when fov is
above 1; and a zero vertical offset leaves fov unchanged. -/
theorem scroll_callback_fov (xoffset yoffset : α) (g : Globals α)
    (hlo : 1 ≤ g.fov) (hhi : g.fov ≤ 45) :
    (scroll_callback xoffset yoffset g).fov = min 45 (max 1 (g.fov - yoffset)) ∧
      (∀ xoffset₂ : α, scroll_callback xoffset₂ yoffset g = scroll_callback xoffset yoffset g) ∧
      (0 < yoffset → (scroll_callback xoffset yoffset g).fov ≤ g.fov) ∧
      (0 < yoffset → 1 < g.fov → (scroll_callback xoffset yoffset g).fov < g.fov) ∧
      (yoffset = 0 → (scroll_callback xoffset yoffset g).fov = g.fov) := by
  have hf : (scroll_callback xoffset yoffset g).fov = min 45 (max 1 (g.fov - yoffset)) := by
    simp only [scroll_callback]
    by_cases h1 : g.fov - yoffset < 1
    · rw [max_eq_left (le_of_lt h1), min_eq_right (by norm_num)]
      simp [h1]
    · rw [max_eq_right (not_lt.mp h1)]
      by_cases h2 : g.fov - yoffset > 45
      · rw [min_eq_left (le_of_lt h2)]
        simp [h1, h2]
      · rw [min_eq_right (not_lt.mp h2)]
        simp [h1, h2]
  refine ⟨hf, fun _ => rfl, ?_, ?_, ?_⟩
  · intro hy
    rw [hf]
    exact le_trans (min_le_right _ _) (max_le hlo (by linarith))
  · intro hy h1
    rw [hf]
    exact lt_of_le_of_lt (min_le_right _ _) (max_lt h1 (by linarith))
  · intro hy
    rw [hf, hy, sub_zero, max_eq_right hlo, min_eq_right hhi]

/-- From fov 45 a scroll of (7, 3) gives fov 42, and a scroll of (7, 0) leaves 45. -/
theorem scroll_callback_fov_witness :
    (scroll_callback (7 : ℚ) 3 Globals.initial).fov = min 45 (max 1 (45 - 3)) ∧
      (scroll_callback (7 : ℚ) 0 Globals.initial).fov = 45 := by
  have h := scroll_callback_fov (7 : ℚ) 3 Globals.initial
    (by norm_num [Globals.initial]) (by norm_num [Globals.initial])
  have h0 := scroll_callback_fov (7 : ℚ) 0 Globals.initial
    (by norm_num [Globals.initial]) (by norm_num [Globals.initial])
  exact ⟨h.1, h0.2.2.2.2 rfl⟩

end CameraBehaviour

/-! ## Vertex counts and program release, on a run of the program -/

set_option maxRecDepth 100000 in
/-- C16, the code at a failing input. After a successful startup the vertex arrays
`VAO5`, `VAO6` and `VAO7` hold the arrays `cup`, `candle` and `lid`, of 72 vertices
each (576 floats, 8 per vertex), and the first frame draws 78 vertices from each of the
three, past the end of the buffer; the plane, coaster and stand draws pass the vertex
counts of their arrays, 6, 36 and 54. -/
theorem draw_count_exceeds_vertex_array :
    (plane.length / 8 = 6 ∧ coaster.length / 8 = 36 ∧ stand.length / 8 = 54 ∧
      cup.length / 8 = 72 ∧ candle.length / 8 = 72 ∧ lid.length / 8 = 72) ∧
    (vertexArrayData (startup Environment.working : Bool × ProgramState ℚ).2.gl
        (startup Environment.working : Bool × ProgramState ℚ).2.VAO5) = cup ∧
    (vertexArrayData (startup Environment.working : Bool × ProgramState ℚ).2.gl
        (startup Environment.working : Bool × ProgramState ℚ).2.VAO6) = candle ∧
    (vertexArrayData (startup Environment.working : Bool × ProgramState ℚ).2.gl
        (startup Environment.working : Bool × ProgramState ℚ).2.VAO7) = lid ∧
    ((startup Environment.working : Bool × ProgramState ℚ).2.VAO,
      (startup Environment.working : Bool × ProgramState ℚ).2.VAO2,
      (startup Environment.working : Bool × ProgramState ℚ).2.VAO4,
      (startup Environment.working : Bool × ProgramState ℚ).2.VAO5,
      (startup Environment.working : Bool × ProgramState ℚ).2.VAO6,
      (startup Environment.working : Bool × ProgramState ℚ).2.VAO7) = (1, 2, 4, 5, 6, 7) ∧
    (frame realMath FrameInput.idle (startup Environment.working).2).gl.draws.map
        (fun d => (d.vertexArray, d.count, d.inBounds)) =
      [(1, 6, true), (2, 36, true), (4, 54, true), (5, 78, false), (6, 78, false),
        (7, 78, false), (3, 18, true)] :=
  ⟨by decide, rfl, rfl, rfl, by decide, by decide⟩

set_option maxRecDepth 100000 in
/-- C18, the code at a failing input. A run in which the startup succeeds and the
first frame ends with the Escape key held exits with `EXIT_SUCCESS`; after the release
section the lit program is gone and the lamp program, created at startup, is still
live. -/
theorem lamp_program_not_destroyed :
    (main realMath Environment.working [FrameInput.escape]).1 = some EXIT_SUCCESS ∧
      (main realMath Environment.working [FrameInput.escape]).2.gCubeProgramId ∉
        (main realMath Environment.working [FrameInput.escape]).2.gl.programs ∧
      (main realMath Environment.working [FrameInput.escape]).2.gLightProgramId ∈
        (main realMath Environment.working [FrameInput.escape]).2.gl.programs ∧
      (main realMath Environment.working [FrameInput.escape]).2.gLightProgramId ∈
        (startup Environment.working : Bool × ProgramState ℝ).2.gl.programs := by
  decide

/-! ## Exit status of the program -/

section ProgramTheorems

variable {α : Type} [LinearOrderedField α]

/-- The outcome of `UCreateTexture` depends on the decoder and the file name only. -/
theorem UCreateTexture_fst (stbi_load : String → Option Image) (filename : String)
    (textureId : Nat) (gl : GLContext) :
    (UCreateTexture stbi_load filename textureId gl).1 =
      (UCreateTexture stbi_load filename 0 GLContext.fresh).1 := by
  unfold UCreateTexture
  cases h : stbi_load filename with
  | none => rfl
  | some image =>
    by_cases h3 : image.channels = 3
    · simp [h3]
    · by_cases h4 : image.channels = 4
      · simp [h4]
      · simp [h3, h4]

/-- The outcome of `UCreateShaderProgram` depends on the driver and the sources only. -/
theorem UCreateShaderProgram_fst (d : Driver) (vtxShaderSource fragShaderSource : String)
    (gl : GLContext) :
    (UCreateShaderProgram d vtxShaderSource fragShaderSource gl).1 =
      (UCreateShaderProgram d vtxShaderSource fragShaderSource GLContext.fresh).1 := by
  cases hv : d.compileStatus GLenum.GL_VERTEX_SHADER vtxShaderSource <;>
    cases hf : d.compileStatus GLenum.GL_FRAGMENT_SHADER fragShaderSource <;>
    cases hl : d.linkStatus vtxShaderSource fragShaderSource <;>
    simp [UCreateShaderProgram, hv, hf, hl]

/-- The outcome of `UInitialize` depends on the environment only. -/
theorem UInitialize_fst (env : Environment) (gl : GLContext) :
    ( UInitialize env gl).1 = ( UInitialize env GLContext.fresh).1 := by
  unfold UInitialize
  cases env.glfwCreateWindow <;> cases env.glewInit <;> rfl

omit [LinearOrderedField α] in
/-- The early exit passes on success exactly when both parts succeed. -/
theorem andThen_fst (r : Bool × ProgramState α)
    (next : ProgramState α → Bool × ProgramState α) :
    (andThen r next).1 = (r.1 && (next r.2).1) := by
  unfold andThen
  cases h : r.1 <;> simp [h]

omit [LinearOrderedField α] in
/-- The outcome of a texture step is the outcome of its `UCreateTexture`. -/
theorem textureStep_fst (env : Environment) (filename printed : String)
    (get : ProgramState α → Nat) (set : Nat → ProgramState α → ProgramState α)
    (st : ProgramState α) :
    (textureStep env filename printed get set st).1 =
      (UCreateTexture env.stbi_load filename 0 GLContext.fresh).1 := by
  have h := UCreateTexture_fst env.stbi_load filename (get st) st.gl
  unfold textureStep
  simp only []
  rw [← h]
  split_ifs with hc
  · exact hc.symm
  · simpa using hc

/-- The startup succeeds exactly when its nine fallible steps do. -/
theorem startup_fst (env : Environment) :
    (startup env : Bool × ProgramState α).1 = startupSucceeds env := by
  have hmesh : ∀ st : ProgramState α, (meshStep st).1 = true := fun _ => rfl
  have hsampler : ∀ st : ProgramState α, (samplerStep st).1 = true := fun _ => rfl
  have hinit : ∀ st : ProgramState α,
      (initializeStep env st).1 = ( UInitialize env GLContext.fresh).1 :=
    fun st => UInitialize_fst env st.gl
  have hcube : ∀ st : ProgramState α, (cubeProgramStep env st).1 =
      (UCreateShaderProgram env.driver env.cubeVertexShaderSource
        env.cubeFragmentShaderSource GLContext.fresh).1 :=
    fun st => UCreateShaderProgram_fst _ _ _ st.gl
  have hlight : ∀ st : ProgramState α, (lightProgramStep env st).1 =
      (UCreateShaderProgram env.driver env.lampVertexShaderSource
        env.lampFragmentShaderSource GLContext.fresh).1 :=
    fun st => UCreateShaderProgram_fst _ _ _ st.gl
  simp only [startup, startupSucceeds, andThen_fst, textureStep_fst, hmesh, hsampler, hinit,
    hcube, hlight, Bool.and_true]

/-! ### No frame is drawn outside the loop -/

/-- The OpenGL context `UInitialize` returns has the call log it was given. -/
theorem UInitialize_calls (env : Environment) (gl : GLContext) :
    ( UInitialize env gl).2.calls = gl.calls := by
  unfold UInitialize
  cases env.glfwCreateWindow <;> cases env.glewInit <;> rfl

/-- The call log after `UCreateShaderProgram` has the buffer swaps it had before. -/
theorem UCreateShaderProgram_swaps (d : Driver) (vtxShaderSource fragShaderSource : String)
    (gl : GLContext) :
    (UCreateShaderProgram d vtxShaderSource fragShaderSource gl).2.2.calls.count
        GLCall.glfwSwapBuffers = gl.calls.count GLCall.glfwSwapBuffers := by
  cases hv : d.compileStatus GLenum.GL_VERTEX_SHADER vtxShaderSource <;>
    cases hf : d.compileStatus GLenum.GL_FRAGMENT_SHADER fragShaderSource <;>
    cases hl : d.linkStatus vtxShaderSource fragShaderSource <;>
    simp [UCreateShaderProgram, hv, hf, hl, cout, glCompileShader, glShaderSource,
      glCreateShader, glCreateProgram, glAttachShader, glLinkProgram, glUseProgram,
      List.count_cons]

/-- The call log after `UCreateTexture` has the buffer swaps it had before. -/
theorem UCreateTexture_swaps (stbi_load : String → Option Image) (filename : String)
    (textureId : Nat) (gl : GLContext) :
    (UCreateTexture stbi_load filename textureId gl).2.2.calls.count GLCall.glfwSwapBuffers =
      gl.calls.count GLCall.glfwSwapBuffers := by
  unfold UCreateTexture
  cases h : stbi_load filename with
  | none => rfl
  | some image =>
    by_cases h3 : image.channels = 3
    · simp [h3, glGenTextures, glBindTexture, glTexParameteri, glTexImage2D, glGenerateMipmap,
        List.count_cons]
    · by_cases h4 : image.channels = 4
      · simp [h4, glGenTextures, glBindTexture, glTexParameteri, glTexImage2D,
          glGenerateMipmap, List.count_cons]
      · simp [h3, h4, cout, glGenTextures, glBindTexture, glTexParameteri, List.count_cons]

/-- The call log after `setupMesh` has the buffer swaps it had before. -/
theorem setupMesh_swaps (data : List ℚ) (gl : GLContext) :
    (setupMesh data gl).2.2.calls.count GLCall.glfwSwapBuffers =
      gl.calls.count GLCall.glfwSwapBuffers := by
  simp [setupMesh, glGenVertexArrays, glGenBuffers, glBindVertexArray, glBindBuffer,
    glBufferData, glVertexAttribPointer, glEnableVertexAttribArray, List.count_cons]

omit [LinearOrderedField α] in
/-- The early exit keeps a count of frames that each part keeps. -/
theorem andThen_framesExecuted (r : Bool × ProgramState α)
    (next : ProgramState α → Bool × ProgramState α)
    (h : ∀ st, framesExecuted (next st).2 = framesExecuted st) :
    framesExecuted (andThen r next).2 = framesExecuted r.2 := by
  unfold andThen
  split_ifs
  · exact h r.2
  · rfl

omit [LinearOrderedField α] in
/-- A texture step swaps no buffers. -/
theorem textureStep_framesExecuted (env : Environment) (filename printed : String)
    (get : ProgramState α → Nat) (set : Nat → ProgramState α → ProgramState α)
    (hset : ∀ t st, (set t st).gl = st.gl) (st : ProgramState α) :
    framesExecuted (textureStep env filename printed get set st).2 = framesExecuted st := by
  have h := UCreateTexture_swaps env.stbi_load filename (get st) st.gl
  unfold textureStep
  simp only []
  split_ifs <;> simp [framesExecuted, onGL, cout, hset, h]

/-- The startup swaps no buffers: no frame has been drawn when it ends, whether it
succeeds or fails. -/
theorem startup_framesExecuted (env : Environment) :
    framesExecuted (startup env : Bool × ProgramState α).2 = 0 := by
  have hinit : framesExecuted (initializeStep env (ProgramState.initial : ProgramState α)).2
      = 0 := by
    simp [framesExecuted, initializeStep, UInitialize_calls, ProgramState.initial,
      GLContext.fresh]
  have hcube : ∀ st : ProgramState α,
      framesExecuted (cubeProgramStep env st).2 = framesExecuted st := by
    intro st
    simp [framesExecuted, cubeProgramStep, UCreateShaderProgram_swaps]
  have hlight : ∀ st : ProgramState α,
      framesExecuted (lightProgramStep env st).2 = framesExecuted st := by
    intro st
    simp [framesExecuted, lightProgramStep, UCreateShaderProgram_swaps]
  have hmesh : ∀ st : ProgramState α, framesExecuted (meshStep st).2 = framesExecuted st := by
    intro st
    simp [framesExecuted, meshStep, setupMesh_swaps]
  have hsampler : ∀ st : ProgramState α,
      framesExecuted (samplerStep st).2 = framesExecuted st := by
    intro st
    simp [framesExecuted, samplerStep, onGL, glUseProgram, glCall, List.count_cons]
  have htex : ∀ (filename printed : String) (get : ProgramState α → Nat)
      (set : Nat → ProgramState α → ProgramState α), (∀ t st, (set t st).gl = st.gl) →
      ∀ st, framesExecuted (textureStep env filename printed get set st).2 =
        framesExecuted st :=
    fun filename printed get set hset st =>
      textureStep_framesExecuted env filename printed get set hset st
  unfold startup
  refine (andThen_framesExecuted _ _ hsampler).trans ?_
  refine (andThen_framesExecuted _ _ (htex _ _ _ _ ?_)).trans ?_
  · exact fun _ _ => rfl
  refine (andThen_framesExecuted _ _ (htex _ _ _ _ ?_)).trans ?_
  · exact fun _ _ => rfl
  refine (andThen_framesExecuted _ _ (htex _ _ _ _ ?_)).trans ?_
  · exact fun _ _ => rfl
  refine (andThen_framesExecuted _ _ (htex _ _ _ _ ?_)).trans ?_
  · exact fun _ _ => rfl
  refine (andThen_framesExecuted _ _ (htex _ _ _ _ ?_)).trans ?_
  · exact fun _ _ => rfl
  refine (andThen_framesExecuted _ _ (htex _ _ _ _ ?_)).trans ?_
  · exact fun _ _ => rfl
  refine (andThen_framesExecuted _ _ hmesh).trans ?_
  refine (andThen_framesExecuted _ _ hlight).trans ?_
  exact (andThen_framesExecuted _ _ hcube).trans hinit

/-! ### The rendering part of an iteration -/

/-- The call log after a logged call. -/
theorem glCall_calls (call : GLCall) (gl : GLContext) :
    (glCall call gl).calls = gl.calls ++ [call] := rfl

/-- The call log after `glUseProgram`. -/
theorem glUseProgram_calls (program : Nat) (gl : GLContext) :
    (glUseProgram program gl).calls = gl.calls ++ [GLCall.glUseProgram program] := rfl

/-- The call log after `glBindVertexArray`. -/
theorem glBindVertexArray_calls (array : Nat) (gl : GLContext) :
    (glBindVertexArray array gl).calls = gl.calls ++ [GLCall.glBindVertexArray array] := rfl

/-- The call log after `glDrawArrays`. -/
theorem glDrawArrays_calls (first count : Nat) (gl : GLContext) :
    (glDrawArrays first count gl).calls =
      gl.calls ++ [GLCall.glDrawArrays GLenum.GL_TRIANGLES first count] := rfl

/-- The call log after the draw of one scene mesh. -/
theorem drawMesh_calls (texture vertexArray count : Nat) (gl : GLContext) :
    (drawMesh texture vertexArray count gl).calls =
      gl.calls ++ [GLCall.glActiveTexture 0, GLCall.glBindTexture GLenum.GL_TEXTURE_2D texture,
        GLCall.glBindVertexArray vertexArray,
        GLCall.glDrawArrays GLenum.GL_TRIANGLES 0 count, GLCall.glBindVertexArray 0] := by
  simp [drawMesh, glActiveTexture, glBindTexture, glBindVertexArray, glDrawArrays]

/-- The rendering part of an iteration leaves the camera globals alone. -/
theorem renderFrame_globals (m : MathLib α) (st : ProgramState α) :
    (renderFrame m st).globals = st.globals := rfl

/-- The calls of the rendering part of an iteration, in order. -/
theorem renderFrame_calls (m : MathLib α) (st : ProgramState α) :
    (renderFrame m st).gl.calls = st.gl.calls ++
      [GLCall.glEnable GLenum.GL_DEPTH_TEST, GLCall.glClearColor 0.2 0.3 0.3 1.0,
        GLCall.glClear true true, GLCall.glUseProgram st.gCubeProgramId,
        GLCall.glUniformMatrix4fv st.gCubeProgramId "model",
        GLCall.glUniformMatrix4fv st.gCubeProgramId "view",
        GLCall.glUniformMatrix4fv st.gCubeProgramId "projection",
        GLCall.glUniform3f st.gCubeProgramId "objectColor",
        GLCall.glUniform3f st.gCubeProgramId "lightColor",
        GLCall.glUniform3f st.gCubeProgramId "lightPos",
        GLCall.glUniform3f st.gCubeProgramId "viewPosition",
        GLCall.glUniform2fv st.gCubeProgramId "uvScale",
        GLCall.glActiveTexture 0, GLCall.glBindTexture GLenum.GL_TEXTURE_2D st.gTextureId,
        GLCall.glBindVertexArray st.VAO, GLCall.glDrawArrays GLenum.GL_TRIANGLES 0 6,
        GLCall.glBindVertexArray 0,
        GLCall.glActiveTexture 0, GLCall.glBindTexture GLenum.GL_TEXTURE_2D st.gTextureId2,
        GLCall.glBindVertexArray st.VAO2, GLCall.glDrawArrays GLenum.GL_TRIANGLES 0 36,
        GLCall.glBindVertexArray 0,
        GLCall.glActiveTexture 0, GLCall.glBindTexture GLenum.GL_TEXTURE_2D st.gTextureId3,
        GLCall.glBindVertexArray st.VAO4, GLCall.glDrawArrays GLenum.GL_TRIANGLES 0 54,
        GLCall.glBindVertexArray 0,
        GLCall.glActiveTexture 0, GLCall.glBindTexture GLenum.GL_TEXTURE_2D st.gTextureId5,
        GLCall.glBindVertexArray st.VAO5, GLCall.glDrawArrays GLenum.GL_TRIANGLES 0 78,
        GLCall.glBindVertexArray 0,
        GLCall.glActiveTexture 0, GLCall.glBindTexture GLenum.GL_TEXTURE_2D st.gTextureId6,
        GLCall.glBindVertexArray st.VAO6, GLCall.glDrawArrays GLenum.GL_TRIANGLES 0 78,
        GLCall.glBindVertexArray 0,
        GLCall.glActiveTexture 0, GLCall.glBindTexture GLenum.GL_TEXTURE_2D st.gTextureId7,
        GLCall.glBindVertexArray st.VAO7, GLCall.glDrawArrays GLenum.GL_TRIANGLES 0 78,
        GLCall.glBindVertexArray 0,
        GLCall.glUseProgram st.gLightProgramId,
        GLCall.glUniformMatrix4fv st.gLightProgramId "model",
        GLCall.glUniformMatrix4fv st.gLightProgramId "view",
        GLCall.glUniformMatrix4fv st.gLightProgramId "projection",
        GLCall.glBindVertexArray st.VAO3, GLCall.glDrawArrays GLenum.GL_TRIANGLES 0 18,
        GLCall.glBindVertexArray 0] := by
  simp only [renderFrame, withGL, glUniformMatrix4fv, glUniform3f, glUniform2fv, glCall_calls,
    glUseProgram_calls, glBindVertexArray_calls, glDrawArrays_calls, drawMesh_calls,
    List.append_assoc, List.cons_append, List.nil_append]

/-- What a logged call leaves alone: the draws and the bindings. -/
theorem glCall_bindings (call : GLCall) (gl : GLContext) :
    (glCall call gl).draws = gl.draws ∧
      (glCall call gl).currentProgram = gl.currentProgram ∧
      (glCall call gl).activeTexture = gl.activeTexture ∧
      (glCall call gl).boundTexture2D = gl.boundTexture2D ∧
      (glCall call gl).boundVertexArray = gl.boundVertexArray :=
  ⟨rfl, rfl, rfl, rfl, rfl⟩

/-- The draws and bindings after `glUseProgram`. -/
theorem glUseProgram_bindings (program : Nat) (gl : GLContext) :
    (glUseProgram program gl).draws = gl.draws ∧
      (glUseProgram program gl).currentProgram = program ∧
      (glUseProgram program gl).activeTexture = gl.activeTexture ∧
      (glUseProgram program gl).boundTexture2D = gl.boundTexture2D ∧
      (glUseProgram program gl).boundVertexArray = gl.boundVertexArray :=
  ⟨rfl, rfl, rfl, rfl, rfl⟩

/-- The draws and bindings after `glBindVertexArray`. -/
theorem glBindVertexArray_bindings (array : Nat) (gl : GLContext) :
    (glBindVertexArray array gl).draws = gl.draws ∧
      (glBindVertexArray array gl).currentProgram = gl.currentProgram ∧
      (glBindVertexArray array gl).activeTexture = gl.activeTexture ∧
      (glBindVertexArray array gl).boundTexture2D = gl.boundTexture2D ∧
      (glBindVertexArray array gl).boundVertexArray = array :=
  ⟨rfl, rfl, rfl, rfl, rfl⟩

/-- The draws and bindings after `glDrawArrays`: one more draw, with the bindings in
force. -/
theorem glDrawArrays_bindings (first count : Nat) (gl : GLContext) :
    (glDrawArrays first count gl).draws.map DrawRecord.key =
        gl.draws.map DrawRecord.key ++
          [(gl.currentProgram, gl.activeTexture, gl.boundTexture2D, gl.boundVertexArray,
            first, count)] ∧
      (glDrawArrays first count gl).currentProgram = gl.currentProgram ∧
      (glDrawArrays first count gl).activeTexture = gl.activeTexture ∧
      (glDrawArrays first count gl).boundTexture2D = gl.boundTexture2D ∧
      (glDrawArrays first count gl).boundVertexArray = gl.boundVertexArray := by
  refine ⟨?_, rfl, rfl, rfl, rfl⟩
  simp [glDrawArrays, DrawRecord.key]

/-- The draws and bindings after the draw of one scene mesh: one more draw, of the
given texture on unit 0 and the given vertex array, which is unbound afterwards. -/
theorem drawMesh_bindings (texture vertexArray count : Nat) (gl : GLContext) :
    (drawMesh texture vertexArray count gl).draws.map DrawRecord.key =
        gl.draws.map DrawRecord.key ++
          [(gl.currentProgram, 0, texture, vertexArray, 0, count)] ∧
      (drawMesh texture vertexArray count gl).currentProgram = gl.currentProgram ∧
      (drawMesh texture vertexArray count gl).activeTexture = 0 ∧
      (drawMesh texture vertexArray count gl).boundTexture2D = texture ∧
      (drawMesh texture vertexArray count gl).boundVertexArray = 0 := by
  refine ⟨?_, rfl, rfl, rfl, rfl⟩
  simp [drawMesh, glActiveTexture, glBindTexture, glBindVertexArray, glDrawArrays,
    DrawRecord.key]

/-- The draws of the rendering part of an iteration, in order: the six scene meshes
under the lit program, each with its texture on unit 0, then the lamp under the lamp
program. -/
theorem renderFrame_draws (m : MathLib α) (st : ProgramState α) :
    (renderFrame m st).gl.draws.map DrawRecord.key =
        st.gl.draws.map DrawRecord.key ++
          [(st.gCubeProgramId, 0, st.gTextureId, st.VAO, 0, 6),
            (st.gCubeProgramId, 0, st.gTextureId2, st.VAO2, 0, 36),
            (st.gCubeProgramId, 0, st.gTextureId3, st.VAO4, 0, 54),
            (st.gCubeProgramId, 0, st.gTextureId5, st.VAO5, 0, 78),
            (st.gCubeProgramId, 0, st.gTextureId6, st.VAO6, 0, 78),
            (st.gCubeProgramId, 0, st.gTextureId7, st.VAO7, 0, 78),
            (st.gLightProgramId, 0, st.gTextureId7, st.VAO3, 0, 18)] ∧
      (renderFrame m st).gl.boundVertexArray = 0 := by
  simp only [renderFrame, withGL, glUniformMatrix4fv, glUniform3f, glUniform2fv,
    (glCall_bindings _ _).1, (glCall_bindings _ _).2.1, (glCall_bindings _ _).2.2.1,
    (glCall_bindings _ _).2.2.2.1, (glCall_bindings _ _).2.2.2.2,
    (glUseProgram_bindings _ _).1, (glUseProgram_bindings _ _).2.1,
    (glUseProgram_bindings _ _).2.2.1, (glUseProgram_bindings _ _).2.2.2.1,
    (glUseProgram_bindings _ _).2.2.2.2,
    (glBindVertexArray_bindings _ _).1, (glBindVertexArray_bindings _ _).2.1,
    (glBindVertexArray_bindings _ _).2.2.1, (glBindVertexArray_bindings _ _).2.2.2.1,
    (glBindVertexArray_bindings _ _).2.2.2.2,
    (glDrawArrays_bindings _ _ _).1, (glDrawArrays_bindings _ _ _).2.1,
    (glDrawArrays_bindings _ _ _).2.2.1, (glDrawArrays_bindings _ _ _).2.2.2.1,
    (glDrawArrays_bindings _ _ _).2.2.2.2,
    (drawMesh_bindings _ _ _ _).1, (drawMesh_bindings _ _ _ _).2.1,
    (drawMesh_bindings _ _ _ _).2.2.1, (drawMesh_bindings _ _ _ _).2.2.2.1,
    (drawMesh_bindings _ _ _ _).2.2.2.2,
    List.append_assoc, List.cons_append, List.nil_append, and_self]

/-- The rendering part of an iteration writes no object name. -/
theorem renderFrame_handles (m : MathLib α) (st : ProgramState α) :
    (renderFrame m st).handles = st.handles := rfl

/-! ### The close flag and the frame count through one iteration -/

/-- The close flag after `UProcessInput`: set when it was set or Escape is held. -/
theorem UProcessInput_windowShouldClose (m : MathLib α) (pressed : Key → Bool)
    (g : Globals α) :
    (UProcessInput m pressed g).windowShouldClose =
      (g.windowShouldClose || pressed Key.ESCAPE) := by
  unfold UProcessInput
  lift_lets
  intro g1 cameraSpeed g2 g3 g4 g5 g6 g7 g8
  have e1 : g1.windowShouldClose = (g.windowShouldClose || pressed Key.ESCAPE) := by
    simp only [g1]
    cases pressed Key.ESCAPE <;> simp
  have e2 : g2.windowShouldClose = g1.windowShouldClose := by
    simp only [g2]; split_ifs <;> rfl
  have e3 : g3.windowShouldClose = g2.windowShouldClose := by
    simp only [g3]; split_ifs <;> rfl
  have e4 : g4.windowShouldClose = g3.windowShouldClose := by
    simp only [g4]; split_ifs <;> rfl
  have e5 : g5.windowShouldClose = g4.windowShouldClose := by
    simp only [g5]; split_ifs <;> rfl
  have e6 : g6.windowShouldClose = g5.windowShouldClose := by
    simp only [g6]; split_ifs <;> rfl
  have e7 : g7.windowShouldClose = g6.windowShouldClose := by
    simp only [g7]; split_ifs <;> rfl
  have e8 : g8.windowShouldClose = g7.windowShouldClose := by
    simp only [g8]; split_ifs <;> rfl
  clear_value g1 g2 g3 g4 g5 g6 g7 g8
  rw [e8, e7, e6, e5, e4, e3, e2, e1]

/-- Neither callback touches the close flag. -/
theorem callbacks_windowShouldClose (m : MathLib α) (x y : α) (g : Globals α) :
    (mouse_callback m x y g).windowShouldClose = g.windowShouldClose ∧
      (scroll_callback x y g).windowShouldClose = g.windowShouldClose := by
  constructor
  · simp only [mouse_callback]
    split_ifs <;> rfl
  · simp only [scroll_callback]
    split_ifs <;> rfl

/-- What the polled events do to the program state besides the camera: a close
request sets the close flag, and the OpenGL context gains only `glViewport` calls, so
that the draws, the object names, the frame count and the calls that bind or draw are
those from before. -/
theorem deliver_foldl (m : MathLib α) (polled : List (PollEvent α)) :
    ∀ st : ProgramState α,
      (polled.foldl (deliver m) st).globals.windowShouldClose =
          (st.globals.windowShouldClose || polled.any PollEvent.isClose) ∧
        framesExecuted (polled.foldl (deliver m) st) = framesExecuted st ∧
        (polled.foldl (deliver m) st).gl.draws = st.gl.draws ∧
        (polled.foldl (deliver m) st).gl.calls.filter GLCall.isBindOrDraw =
          st.gl.calls.filter GLCall.isBindOrDraw ∧
        (polled.foldl (deliver m) st).handles = st.handles ∧
        (polled.foldl (deliver m) st).projection = st.projection := by
  induction polled with
  | nil => intro st; simp
  | cons e es ih =>
    intro st
    obtain ⟨h1, h2, h3, h4, h5, h6⟩ := ih (deliver m st e)
    rw [List.foldl_cons, h1, h2, h3, h4, h5, h6]
    cases e with
    | cursorPos xpos ypos =>
      simp [deliver, PollEvent.isClose, framesExecuted, ProgramState.handles,
        (callbacks_windowShouldClose m xpos ypos st.globals).1]
    | scroll xoffset yoffset =>
      simp [deliver, PollEvent.isClose, framesExecuted, ProgramState.handles,
        (callbacks_windowShouldClose m xoffset yoffset st.globals).2]
    | framebufferSize width height =>
      simp [deliver, PollEvent.isClose, framesExecuted, ProgramState.handles, onGL,
        UResizeWindow, glCall, List.count_cons, GLCall.isBindOrDraw]
    | close => simp [deliver, PollEvent.isClose, framesExecuted, ProgramState.handles]

/-- The rendering part of an iteration swaps no buffers. -/
theorem renderFrame_swaps (m : MathLib α) (st : ProgramState α) :
    (renderFrame m st).gl.calls.count GLCall.glfwSwapBuffers =
      st.gl.calls.count GLCall.glfwSwapBuffers := by
  rw [renderFrame_calls, List.count_append, add_right_eq_self, List.count_eq_zero]
  simp

/-- One iteration of the loop swaps buffers once, and ends with the close flag set
exactly when it began with it set or the iteration requests a close. -/
theorem frame_spec (m : MathLib α) (input : FrameInput α) (st : ProgramState α) :
    framesExecuted (frame m input st) = framesExecuted st + 1 ∧
      (frame m input st).globals.windowShouldClose =
        (st.globals.windowShouldClose || input.requestsClose) := by
  unfold frame
  simp only []
  constructor
  · rw [(deliver_foldl m input.polled _).2.1]
    simp only [framesExecuted, onGL, glCall_calls, List.count_append, renderFrame_swaps]
    simp [List.count_cons]
  · rw [(deliver_foldl m input.polled _).1]
    simp only [onGL, renderFrame_globals, UProcessInput_windowShouldClose, frameTiming,
      FrameInput.requestsClose, Bool.or_assoc]

/-- The call log after `glDeleteVertexArrays`. -/
theorem glDeleteVertexArrays_calls (array : Nat) (gl : GLContext) :
    (glDeleteVertexArrays array gl).calls = gl.calls ++ [GLCall.glDeleteVertexArrays array] :=
  rfl

/-- The call log after `glDeleteBuffers`. -/
theorem glDeleteBuffers_calls (n buffer : Nat) (gl : GLContext) :
    (glDeleteBuffers n buffer gl).calls = gl.calls ++ [GLCall.glDeleteBuffers n buffer] := rfl

/-- The call log after `UDestroyTexture`: one `glGenTextures`. -/
theorem UDestroyTexture_calls (textureId : Nat) (gl : GLContext) :
    (UDestroyTexture textureId gl).calls =
      gl.calls ++ [GLCall.glGenTextures (freshName gl.textures)] := rfl

/-- The call log after `UDestroyShaderProgram`. -/
theorem UDestroyShaderProgram_calls (programId : Nat) (gl : GLContext) :
    (UDestroyShaderProgram programId gl).calls =
      gl.calls ++ [GLCall.glDeleteProgram programId] := rfl

omit [LinearOrderedField α] in
/-- The release section swaps no buffers. -/
theorem release_framesExecuted (st : ProgramState α) :
    framesExecuted (release st) = framesExecuted st := by
  simp only [framesExecuted, release, glDeleteVertexArrays_calls, glDeleteBuffers_calls,
    UDestroyTexture_calls, UDestroyShaderProgram_calls, List.append_assoc, List.cons_append,
    List.nil_append]
  rw [List.count_append, add_right_eq_self, List.count_eq_zero]
  simp

/-- The loop stops at once when the close flag is set. -/
theorem renderLoop_closed (m : MathLib α) (inputs : List (FrameInput α))
    (st : ProgramState α) (h : st.globals.windowShouldClose = true) :
    renderLoop m inputs st = (true, st) := by
  cases inputs with
  | nil => simp [renderLoop, h]
  | cons input rest => simp [renderLoop, h]

/-- The loop over inputs none of which requests a close: it is still running when they
run out, after one frame per input. -/
theorem renderLoop_open (m : MathLib α) (inputs : List (FrameInput α))
    (hopen : ∀ i ∈ inputs, FrameInput.requestsClose i = false) :
    ∀ st : ProgramState α, st.globals.windowShouldClose = false →
      (renderLoop m inputs st).1 = false ∧
        framesExecuted (renderLoop m inputs st).2 = framesExecuted st + inputs.length := by
  induction inputs with
  | nil =>
    intro st h
    simp [renderLoop, h]
  | cons input rest ih =>
    intro st h
    obtain ⟨hf, hc⟩ := frame_spec m input st
    have hreq : FrameInput.requestsClose input = false := hopen input (by simp)
    have hnext : (frame m input st).globals.windowShouldClose = false := by
      rw [hc, h, hreq]; rfl
    obtain ⟨r1, r2⟩ := ih (fun i hi => hopen i (List.mem_cons_of_mem _ hi))
      (frame m input st) hnext
    simp only [renderLoop, h, Bool.false_eq_true, if_false]
    refine ⟨r1, ?_⟩
    rw [r2, hf, List.length_cons]
    ring

/-- The loop over inputs the first close request of which comes in `input`: it is left
after the frame of `input`, one frame per input up to and including it. -/
theorem renderLoop_until_close (m : MathLib α) (before : List (FrameInput α))
    (input : FrameInput α) (after : List (FrameInput α))
    (hopen : ∀ i ∈ before, FrameInput.requestsClose i = false)
    (hclose : FrameInput.requestsClose input = true) :
    ∀ st : ProgramState α, st.globals.windowShouldClose = false →
      (renderLoop m (before ++ input :: after) st).1 = true ∧
        framesExecuted (renderLoop m (before ++ input :: after) st).2 =
          framesExecuted st + (before.length + 1) := by
  induction before with
  | nil =>
    intro st h
    obtain ⟨hf, hc⟩ := frame_spec m input st
    have hnext : (frame m input st).globals.windowShouldClose = true := by
      rw [hc, h, hclose]; rfl
    simp only [List.nil_append, renderLoop, h, Bool.false_eq_true, if_false]
    rw [renderLoop_closed m after _ hnext]
    exact ⟨rfl, by simp [hf]⟩
  | cons b bs ih =>
    intro st h
    obtain ⟨hf, hc⟩ := frame_spec m b st
    have hreq : FrameInput.requestsClose b = false := hopen b (by simp)
    have hnext : (frame m b st).globals.windowShouldClose = false := by
      rw [hc, h, hreq]; rfl
    obtain ⟨r1, r2⟩ := ih (fun i hi => hopen i (List.mem_cons_of_mem _ hi))
      (frame m b st) hnext
    have e : renderLoop m (b :: (bs ++ input :: after)) st =
        renderLoop m (bs ++ input :: after) (frame m b st) := by
      rw [renderLoop]
      simp [h]
    rw [List.cons_append, e]
    refine ⟨r1, ?_⟩
    rw [r2, hf, List.length_cons]
    ring

/-! ### The program as a whole -/

omit [LinearOrderedField α] in
/-- The early exit keeps the camera globals when each part keeps them. -/
theorem andThen_globals (r : Bool × ProgramState α)
    (next : ProgramState α → Bool × ProgramState α)
    (h : ∀ st, (next st).2.globals = st.globals) :
    (andThen r next).2.globals = r.2.globals := by
  unfold andThen
  split_ifs
  · exact h r.2
  · rfl

omit [LinearOrderedField α] in
/-- A texture step keeps the camera globals. -/
theorem textureStep_globals (env : Environment) (filename printed : String)
    (get : ProgramState α → Nat) (set : Nat → ProgramState α → ProgramState α)
    (hset : ∀ t st, (set t st).globals = st.globals) (st : ProgramState α) :
    (textureStep env filename printed get set st).2.globals = st.globals := by
  unfold textureStep
  simp only []
  split_ifs <;> simp [onGL, hset]

/-- The startup leaves the camera globals at their initial values; in particular the
close flag is clear when the loop is entered. -/
theorem startup_globals (env : Environment) :
    (startup env : Bool × ProgramState α).2.globals = Globals.initial := by
  have htex : ∀ (filename printed : String) (get : ProgramState α → Nat)
      (set : Nat → ProgramState α → ProgramState α), (∀ t st, (set t st).globals = st.globals) →
      ∀ st, (textureStep env filename printed get set st).2.globals = st.globals :=
    fun filename printed get set hset st =>
      textureStep_globals env filename printed get set hset st
  unfold startup
  refine (andThen_globals _ _ (fun _ => rfl)).trans ?_
  refine (andThen_globals _ _ (htex _ _ _ _ ?_)).trans ?_
  · exact fun _ _ => rfl
  refine (andThen_globals _ _ (htex _ _ _ _ ?_)).trans ?_
  · exact fun _ _ => rfl
  refine (andThen_globals _ _ (htex _ _ _ _ ?_)).trans ?_
  · exact fun _ _ => rfl
  refine (andThen_globals _ _ (htex _ _ _ _ ?_)).trans ?_
  · exact fun _ _ => rfl
  refine (andThen_globals _ _ (htex _ _ _ _ ?_)).trans ?_
  · exact fun _ _ => rfl
  refine (andThen_globals _ _ (htex _ _ _ _ ?_)).trans ?_
  · exact fun _ _ => rfl
  refine (andThen_globals _ _ (fun st => by simp [meshStep])).trans ?_
  refine (andThen_globals _ _ (fun _ => rfl)).trans ?_
  exact (andThen_globals _ _ (fun _ => rfl)).trans rfl

/-- C13. With `main` a function of the outcomes of `UInitialize`, the two
`UCreateShaderProgram` calls and the six `UCreateTexture` calls: it ends with
`EXIT_FAILURE` exactly when one of the nine fails, and then no frame has been drawn;
when all nine succeed and the inputs contain a close request (Escape held, or a close
event polled), it runs one frame per input up to and including the first such input
and ends with `EXIT_SUCCESS`; and when all nine succeed and no input requests a close,
the loop is still running, after one frame per input, when the inputs run out. -/
theorem main_exit_status (m : MathLib α) (env : Environment)
    (inputs : List (FrameInput α)) :
    ((main m env inputs).1 = some EXIT_FAILURE ↔ startupSucceeds env = false) ∧
      (startupSucceeds env = false → framesExecuted (main m env inputs).2 = 0) ∧
      (startupSucceeds env = true →
        ∀ (before : List (FrameInput α)) (input : FrameInput α)
          (after : List (FrameInput α)),
          inputs = before ++ input :: after →
          (∀ i ∈ before, FrameInput.requestsClose i = false) →
          FrameInput.requestsClose input = true →
          (main m env inputs).1 = some EXIT_SUCCESS ∧
            framesExecuted (main m env inputs).2 = before.length + 1) ∧
      (startupSucceeds env = true →
        (∀ i ∈ inputs, FrameInput.requestsClose i = false) →
        (main m env inputs).1 = none ∧
          framesExecuted (main m env inputs).2 = inputs.length) := by
  have hs : (startup env : Bool × ProgramState α).1 = startupSucceeds env := startup_fst env
  have hf : framesExecuted (startup env : Bool × ProgramState α).2 = 0 :=
    startup_framesExecuted env
  have hw : (startup env : Bool × ProgramState α).2.globals.windowShouldClose = false := by
    rw [startup_globals]; rfl
  cases hok : startupSucceeds env with
  | false =>
    have hmain : main m env inputs = (some EXIT_FAILURE, (startup env).2) := by
      simp [main, hs, hok]
    rw [hmain]
    exact ⟨⟨fun _ => rfl, fun _ => rfl⟩, fun _ => hf, fun h => absurd h (by decide),
      fun h => absurd h (by decide)⟩
  | true =>
    have hmain : main m env inputs =
        (if (renderLoop m inputs (startup env).2).1 then
          (some EXIT_SUCCESS, release (renderLoop m inputs (startup env).2).2)
        else (none, (renderLoop m inputs (startup env).2).2)) := by
      simp [main, hs, hok]
    refine ⟨?_, fun h => absurd h (by decide), ?_, ?_⟩
    · rw [hmain]
      cases hl : (renderLoop m inputs (startup env).2).1 <;>
        simp [EXIT_SUCCESS, EXIT_FAILURE]
    · intro _ before input after hin hopen hclose
      subst hin
      obtain ⟨r1, r2⟩ := renderLoop_until_close m before input after hopen hclose
        (startup env).2 hw
      have hm : main m env (before ++ input :: after) =
          (some EXIT_SUCCESS,
            release (renderLoop m (before ++ input :: after) (startup env).2).2) := by
        rw [hmain, r1]
        rfl
      rw [hm]
      exact ⟨rfl, by rw [release_framesExecuted, r2, hf, zero_add]⟩
    · intro _ hopen
      obtain ⟨r1, r2⟩ := renderLoop_open m inputs hopen (startup env).2 hw
      have hm : main m env inputs = (none, (renderLoop m inputs (startup env).2).2) := by
        rw [hmain, r1]
        rfl
      rw [hm]
      exact ⟨rfl, by rw [r2, hf, zero_add]⟩

set_option maxRecDepth 100000 in
/-- In the working environment, with an idle frame, a frame with Escape held and a
third input, the program draws two frames and exits with `EXIT_SUCCESS`. -/
theorem main_exit_status_witness :
    (main realMath Environment.working
        [FrameInput.idle, FrameInput.escape, FrameInput.idle]).1 = some EXIT_SUCCESS ∧
      framesExecuted (main realMath Environment.working
        [FrameInput.idle, FrameInput.escape, FrameInput.idle]).2 = 2 :=
  (main_exit_status realMath Environment.working
      [FrameInput.idle, FrameInput.escape, FrameInput.idle]).2.2.1 (by decide)
    [FrameInput.idle] FrameInput.escape [FrameInput.idle] rfl
    (by intro i hi; simp at hi; subst hi; decide) (by decide)

/-! ### The draws of one iteration -/

/-- The draws of one loop iteration and its calls that select a program or a texture
unit, bind or draw, in order, whatever the input and the state; the object names are
not written. -/
theorem frame_draws (m : MathLib α) (input : FrameInput α) (st : ProgramState α) :
    (frame m input st).gl.draws.map DrawRecord.key =
        st.gl.draws.map DrawRecord.key ++
          [(st.gCubeProgramId, 0, st.gTextureId, st.VAO, 0, 6),
            (st.gCubeProgramId, 0, st.gTextureId2, st.VAO2, 0, 36),
            (st.gCubeProgramId, 0, st.gTextureId3, st.VAO4, 0, 54),
            (st.gCubeProgramId, 0, st.gTextureId5, st.VAO5, 0, 78),
            (st.gCubeProgramId, 0, st.gTextureId6, st.VAO6, 0, 78),
            (st.gCubeProgramId, 0, st.gTextureId7, st.VAO7, 0, 78),
            (st.gLightProgramId, 0, st.gTextureId7, st.VAO3, 0, 18)] ∧
      (frame m input st).gl.calls.filter GLCall.isBindOrDraw =
        st.gl.calls.filter GLCall.isBindOrDraw ++
          [GLCall.glUseProgram st.gCubeProgramId,
            GLCall.glActiveTexture 0, GLCall.glBindTexture GLenum.GL_TEXTURE_2D st.gTextureId,
            GLCall.glBindVertexArray st.VAO, GLCall.glDrawArrays GLenum.GL_TRIANGLES 0 6,
            GLCall.glBindVertexArray 0,
            GLCall.glActiveTexture 0, GLCall.glBindTexture GLenum.GL_TEXTURE_2D st.gTextureId2,
            GLCall.glBindVertexArray st.VAO2, GLCall.glDrawArrays GLenum.GL_TRIANGLES 0 36,
            GLCall.glBindVertexArray 0,
            GLCall.glActiveTexture 0, GLCall.glBindTexture GLenum.GL_TEXTURE_2D st.gTextureId3,
            GLCall.glBindVertexArray st.VAO4, GLCall.glDrawArrays GLenum.GL_TRIANGLES 0 54,
            GLCall.glBindVertexArray 0,
            GLCall.glActiveTexture 0, GLCall.glBindTexture GLenum.GL_TEXTURE_2D st.gTextureId5,
            GLCall.glBindVertexArray st.VAO5, GLCall.glDrawArrays GLenum.GL_TRIANGLES 0 78,
            GLCall.glBindVertexArray 0,
            GLCall.glActiveTexture 0, GLCall.glBindTexture GLenum.GL_TEXTURE_2D st.gTextureId6,
            GLCall.glBindVertexArray st.VAO6, GLCall.glDrawArrays GLenum.GL_TRIANGLES 0 78,
            GLCall.glBindVertexArray 0,
            GLCall.glActiveTexture 0, GLCall.glBindTexture GLenum.GL_TEXTURE_2D st.gTextureId7,
            GLCall.glBindVertexArray st.VAO7, GLCall.glDrawArrays GLenum.GL_TRIANGLES 0 78,
            GLCall.glBindVertexArray 0,
            GLCall.glUseProgram st.gLightProgramId,
            GLCall.glBindVertexArray st.VAO3, GLCall.glDrawArrays GLenum.GL_TRIANGLES 0 18,
            GLCall.glBindVertexArray 0] ∧
      (frame m input st).handles = st.handles := by
  unfold frame
  simp only []
  obtain ⟨-, -, h3, h4, h5, -⟩ := deliver_foldl m input.polled
    (onGL (glCall GLCall.glfwPollEvents) (onGL (glCall GLCall.glfwSwapBuffers)
      (renderFrame m
        { ({ st with globals := frameTiming input.currentFrame st.globals } :
            ProgramState α) with
          globals := UProcessInput m input.pressed
            (frameTiming input.currentFrame st.globals) })))
  refine ⟨?_, ?_, ?_⟩
  · rw [h3]
    simp only [onGL, (glCall_bindings _ _).1]
    exact (renderFrame_draws m _).1
  · rw [h4]
    simp only [onGL, glCall_calls, renderFrame_calls, List.filter_append]
    simp [GLCall.isBindOrDraw]
  · rw [h5]
    rfl

/-! ### What the startup loads into which object -/

/-- The resources `UInitialize` leaves alone: textures, texture images, vertex arrays,
buffers and vertex attributes. -/
theorem UInitialize_resources (env : Environment) (gl : GLContext) :
    ( UInitialize env gl).2.textures = gl.textures ∧
      ( UInitialize env gl).2.texImages = gl.texImages ∧
      ( UInitialize env gl).2.vertexArrays = gl.vertexArrays ∧
      ( UInitialize env gl).2.buffers = gl.buffers ∧
      ( UInitialize env gl).2.attribs = gl.attribs := by
  unfold UInitialize
  cases env.glfwCreateWindow <;> cases env.glewInit <;> exact ⟨rfl, rfl, rfl, rfl, rfl⟩

/-- The resources `UCreateShaderProgram` leaves alone: textures, texture images, vertex
arrays, buffers and vertex attributes. -/
theorem UCreateShaderProgram_resources (d : Driver)
    (vtxShaderSource fragShaderSource : String) (gl : GLContext) :
    (UCreateShaderProgram d vtxShaderSource fragShaderSource gl).2.2.textures = gl.textures ∧
      (UCreateShaderProgram d vtxShaderSource fragShaderSource gl).2.2.texImages =
        gl.texImages ∧
      (UCreateShaderProgram d vtxShaderSource fragShaderSource gl).2.2.vertexArrays =
        gl.vertexArrays ∧
      (UCreateShaderProgram d vtxShaderSource fragShaderSource gl).2.2.buffers = gl.buffers ∧
      (UCreateShaderProgram d vtxShaderSource fragShaderSource gl).2.2.attribs = gl.attribs := by
  cases hv : d.compileStatus GLenum.GL_VERTEX_SHADER vtxShaderSource <;>
    cases hf : d.compileStatus GLenum.GL_FRAGMENT_SHADER fragShaderSource <;>
    cases hl : d.linkStatus vtxShaderSource fragShaderSource <;>
    simp [UCreateShaderProgram, hv, hf, hl, cout, glCompileShader, glShaderSource,
      glCreateShader, glCreateProgram, glAttachShader, glLinkProgram, glUseProgram]

/-- What a successful `UCreateTexture` returns and does to the resources: a new texture
name, holding the decoded image, is returned in `textureId`. -/
theorem UCreateTexture_success (stbi_load : String → Option Image) (filename : String)
    (textureId : Nat) (gl : GLContext) (image : Image)
    (h : stbi_load filename = some image)
    (hc : image.channels = 3 ∨ image.channels = 4) :
    (UCreateTexture stbi_load filename textureId gl).1 = true ∧
      (UCreateTexture stbi_load filename textureId gl).2.1 = freshName gl.textures ∧
      (UCreateTexture stbi_load filename textureId gl).2.2.textures =
        gl.textures ++ [freshName gl.textures] ∧
      (UCreateTexture stbi_load filename textureId gl).2.2.texImages =
        gl.texImages.filter (fun t => t.texture != freshName gl.textures) ++
          [{ texture := freshName gl.textures,
             format := if image.channels = 3 then GLenum.GL_RGB else GLenum.GL_RGBA,
             width := image.width, height := image.height, pixels := image.pixels }] ∧
      (UCreateTexture stbi_load filename textureId gl).2.2.vertexArrays = gl.vertexArrays ∧
      (UCreateTexture stbi_load filename textureId gl).2.2.buffers = gl.buffers ∧
      (UCreateTexture stbi_load filename textureId gl).2.2.attribs = gl.attribs := by
  rcases hc with hc | hc <;>
    simp [UCreateTexture, h, hc, glGenTextures, glBindTexture, glTexParameteri, glTexImage2D,
      glGenerateMipmap]

/-- A successful `UCreateTexture` has decoded an image with 3 or 4 channels. -/
theorem UCreateTexture_image (stbi_load : String → Option Image) (filename : String)
    (textureId : Nat) (gl : GLContext)
    (h : (UCreateTexture stbi_load filename textureId gl).1 = true) :
    ∃ image, stbi_load filename = some image ∧ (image.channels = 3 ∨ image.channels = 4) := by
  unfold UCreateTexture at h
  cases hl : stbi_load filename with
  | none => simp [hl] at h
  | some image =>
    refine ⟨image, rfl, ?_⟩
    by_cases h3 : image.channels = 3
    · exact Or.inl h3
    · by_cases h4 : image.channels = 4
      · exact Or.inr h4
      · simp [hl, h3, h4] at h

/-- The data of a vertex array depends on the attributes and the buffers only. -/
theorem vertexArrayData_congr (gl₁ gl₂ : GLContext) (ha : gl₁.attribs = gl₂.attribs)
    (hb : gl₁.buffers = gl₂.buffers) (vertexArray : Nat) :
    vertexArrayData gl₁ vertexArray = vertexArrayData gl₂ vertexArray := by
  simp [vertexArrayData, bufferData, ha, hb]

/-- What `setupMesh` returns and does to the resources: a new vertex array and a new
buffer holding the data, three attributes of the vertex array sourced from the buffer,
and no change to the textures. -/
theorem setupMesh_resources (data : List ℚ) (gl : GLContext) :
    (setupMesh data gl).1 = freshName gl.vertexArrays ∧
      (setupMesh data gl).2.1 = freshName (gl.buffers.map Prod.fst) ∧
      (setupMesh data gl).2.2.vertexArrays = gl.vertexArrays ++ [freshName gl.vertexArrays] ∧
      (setupMesh data gl).2.2.buffers =
        (gl.buffers ++ [(freshName (gl.buffers.map Prod.fst), [])]).map
          (fun b : Nat × List ℚ =>
            if b.1 = freshName (gl.buffers.map Prod.fst) then (b.1, data) else b) ∧
      (setupMesh data gl).2.2.attribs =
        (((gl.attribs.filter
            (fun a : VertexAttrib => !(a.vertexArray = freshName gl.vertexArrays ∧ a.index = 0)) ++
          [({ vertexArray := freshName gl.vertexArrays, index := 0, size := 3, stride := 32,
               pointer := 0, buffer := freshName (gl.buffers.map Prod.fst) } : VertexAttrib)]).filter
            (fun a : VertexAttrib => !(a.vertexArray = freshName gl.vertexArrays ∧ a.index = 1)) ++
          [({ vertexArray := freshName gl.vertexArrays, index := 1, size := 3, stride := 32,
               pointer := 12, buffer := freshName (gl.buffers.map Prod.fst) } : VertexAttrib)]).filter
            (fun a : VertexAttrib => !(a.vertexArray = freshName gl.vertexArrays ∧ a.index = 2)) ++
          [({ vertexArray := freshName gl.vertexArrays, index := 2, size := 2, stride := 32,
               pointer := 24, buffer := freshName (gl.buffers.map Prod.fst) } : VertexAttrib)]) ∧
      (setupMesh data gl).2.2.textures = gl.textures ∧
      (setupMesh data gl).2.2.texImages = gl.texImages :=
  ⟨rfl, rfl, rfl, rfl, rfl, rfl, rfl⟩

/-! ### The objects through the loop -/

/-- What a logged call leaves alone: the vertex attributes, the buffers and the texture
images. -/
theorem glCall_resources (call : GLCall) (gl : GLContext) :
    (glCall call gl).attribs = gl.attribs ∧ (glCall call gl).buffers = gl.buffers ∧
      (glCall call gl).texImages = gl.texImages :=
  ⟨rfl, rfl, rfl⟩

/-- The attributes, buffers and texture images after `glUseProgram`. -/
theorem glUseProgram_resources (program : Nat) (gl : GLContext) :
    (glUseProgram program gl).attribs = gl.attribs ∧
      (glUseProgram program gl).buffers = gl.buffers ∧
      (glUseProgram program gl).texImages = gl.texImages :=
  ⟨rfl, rfl, rfl⟩

/-- The attributes, buffers and texture images after `glBindVertexArray`. -/
theorem glBindVertexArray_resources (array : Nat) (gl : GLContext) :
    (glBindVertexArray array gl).attribs = gl.attribs ∧
      (glBindVertexArray array gl).buffers = gl.buffers ∧
      (glBindVertexArray array gl).texImages = gl.texImages :=
  ⟨rfl, rfl, rfl⟩

/-- The attributes, buffers and texture images after `glDrawArrays`. -/
theorem glDrawArrays_resources (first count : Nat) (gl : GLContext) :
    (glDrawArrays first count gl).attribs = gl.attribs ∧
      (glDrawArrays first count gl).buffers = gl.buffers ∧
      (glDrawArrays first count gl).texImages = gl.texImages :=
  ⟨rfl, rfl, rfl⟩

/-- The attributes, buffers and texture images after the draw of one scene mesh. -/
theorem drawMesh_resources (texture vertexArray count : Nat) (gl : GLContext) :
    (drawMesh texture vertexArray count gl).attribs = gl.attribs ∧
      (drawMesh texture vertexArray count gl).buffers = gl.buffers ∧
      (drawMesh texture vertexArray count gl).texImages = gl.texImages :=
  ⟨rfl, rfl, rfl⟩

/-- The rendering part of an iteration leaves the vertex attributes, the buffers and
the texture images alone. -/
theorem renderFrame_resources (m : MathLib α) (st : ProgramState α) :
    (renderFrame m st).gl.attribs = st.gl.attribs ∧
      (renderFrame m st).gl.buffers = st.gl.buffers ∧
      (renderFrame m st).gl.texImages = st.gl.texImages := by
  simp only [renderFrame, withGL, glUniformMatrix4fv, glUniform3f, glUniform2fv,
    (glCall_resources _ _).1, (glCall_resources _ _).2.1, (glCall_resources _ _).2.2,
    (glUseProgram_resources _ _).1, (glUseProgram_resources _ _).2.1,
    (glUseProgram_resources _ _).2.2,
    (glBindVertexArray_resources _ _).1, (glBindVertexArray_resources _ _).2.1,
    (glBindVertexArray_resources _ _).2.2,
    (glDrawArrays_resources _ _ _).1, (glDrawArrays_resources _ _ _).2.1,
    (glDrawArrays_resources _ _ _).2.2,
    (drawMesh_resources _ _ _ _).1, (drawMesh_resources _ _ _ _).2.1,
    (drawMesh_resources _ _ _ _).2.2, and_self]

/-- The polled events leave the vertex attributes, the buffers and the texture images
alone. -/
theorem deliver_foldl_resources (m : MathLib α) (polled : List (PollEvent α)) :
    ∀ st : ProgramState α,
      (polled.foldl (deliver m) st).gl.attribs = st.gl.attribs ∧
        (polled.foldl (deliver m) st).gl.buffers = st.gl.buffers ∧
        (polled.foldl (deliver m) st).gl.texImages = st.gl.texImages := by
  induction polled with
  | nil => intro st; simp
  | cons e es ih =>
    intro st
    obtain ⟨h1, h2, h3⟩ := ih (deliver m st e)
    rw [List.foldl_cons, h1, h2, h3]
    cases e <;> exact ⟨rfl, rfl, rfl⟩

/-- One iteration of the loop leaves the vertex attributes, the buffers, the texture
images and the object names alone. -/
theorem frame_resources (m : MathLib α) (input : FrameInput α) (st : ProgramState α) :
    (frame m input st).gl.attribs = st.gl.attribs ∧
      (frame m input st).gl.buffers = st.gl.buffers ∧
      (frame m input st).gl.texImages = st.gl.texImages ∧
      (frame m input st).handles = st.handles := by
  unfold frame
  simp only []
  obtain ⟨h1, h2, h3⟩ := deliver_foldl_resources m input.polled
    (onGL (glCall GLCall.glfwPollEvents) (onGL (glCall GLCall.glfwSwapBuffers)
      (renderFrame m
        { ({ st with globals := frameTiming input.currentFrame st.globals } :
            ProgramState α) with
          globals := UProcessInput m input.pressed
            (frameTiming input.currentFrame st.globals) })))
  obtain ⟨-, -, -, -, h5, -⟩ := deliver_foldl m input.polled
    (onGL (glCall GLCall.glfwPollEvents) (onGL (glCall GLCall.glfwSwapBuffers)
      (renderFrame m
        { ({ st with globals := frameTiming input.currentFrame st.globals } :
            ProgramState α) with
          globals := UProcessInput m input.pressed
            (frameTiming input.currentFrame st.globals) })))
  refine ⟨?_, ?_, ?_, ?_⟩
  · rw [h1]
    simp only [onGL, (glCall_resources _ _).1]
    exact (renderFrame_resources m _).1
  · rw [h2]
    simp only [onGL, (glCall_resources _ _).2.1]
    exact (renderFrame_resources m _).2.1
  · rw [h3]
    simp only [onGL, (glCall_resources _ _).2.2]
    exact (renderFrame_resources m _).2.2
  · rw [h5]
    rfl

/-- Any number of iterations leave the vertex attributes, the buffers, the texture
images and the object names alone. -/
theorem frames_resources (m : MathLib α) (inputs : List (FrameInput α)) :
    ∀ st : ProgramState α,
      (frames m inputs st).gl.attribs = st.gl.attribs ∧
        (frames m inputs st).gl.buffers = st.gl.buffers ∧
        (frames m inputs st).gl.texImages = st.gl.texImages ∧
        (frames m inputs st).handles = st.handles := by
  induction inputs with
  | nil => intro st; exact ⟨rfl, rfl, rfl, rfl⟩
  | cons input rest ih =>
    intro st
    obtain ⟨h1, h2, h3, h4⟩ := ih (frame m input st)
    obtain ⟨f1, f2, f3, f4⟩ := frame_resources m input st
    exact ⟨h1.trans f1, h2.trans f2, h3.trans f3, h4.trans f4⟩

/-- The state the loop of `main` ends in is the state after the iterations of some of
the first inputs. -/
theorem renderLoop_frames (m : MathLib α) (inputs : List (FrameInput α)) :
    ∀ st : ProgramState α,
      ∃ k, (renderLoop m inputs st).2 = frames m (inputs.take k) st := by
  induction inputs with
  | nil => intro st; exact ⟨0, rfl⟩
  | cons input rest ih =>
    intro st
    cases h : st.globals.windowShouldClose with
    | true => exact ⟨0, by simp [renderLoop, h, frames]⟩
    | false =>
      obtain ⟨k, hk⟩ := ih (frame m input st)
      exact ⟨k + 1, by simp [renderLoop, h, frames, hk]⟩

/-- The pixels of a texture depend on the texture images only. -/
theorem texturePixels_congr (gl₁ gl₂ : GLContext) (h : gl₁.texImages = gl₂.texImages)
    (texture : Nat) : texturePixels gl₁ texture = texturePixels gl₂ texture := by
  simp [texturePixels, h]

/-! ### What the startup loads into which object -/

omit [LinearOrderedField α] in
/-- The early exit hands on what its parts establish: when the whole succeeds, the
first part did, and what it established lets the second establish its part. -/
theorem andThen_inv (P Q : ProgramState α → Prop) (r : Bool × ProgramState α)
    (next : ProgramState α → Bool × ProgramState α)
    (hr : r.1 = true → P r.2) (hn : ∀ st, P st → (next st).1 = true → Q (next st).2)
    (h : (andThen r next).1 = true) : Q (andThen r next).2 := by
  unfold andThen at h ⊢
  cases hr1 : r.1 with
  | false => simp [hr1] at h
  | true =>
    simp only [hr1, if_true] at h ⊢
    exact hn _ (hr hr1) h

omit [LinearOrderedField α] in
/-- The seven mesh blocks, run on a context without vertex arrays, buffers and
attributes, make the vertex arrays and buffers 1 .. 7 with the floats of the seven
arrays in the order plane, coaster, lamp, stand, cup, candle, lid, and leave the
textures alone. -/
theorem meshStep_loaded (st : ProgramState α) (h : Unloaded st) :
    Loaded [] [] (meshStep st).2 := by
  obtain ⟨hv, hb, ha, ht, hx⟩ := h
  unfold Loaded meshStep
  simp only []
  have s1 := setupMesh_resources plane st.gl
  rw [hv, hb, ha] at s1
  generalize setupMesh plane st.gl = r1 at s1 ⊢
  obtain ⟨n1, b1, v1, u1, a1, t1, x1⟩ := s1
  have s2 := setupMesh_resources coaster r1.2.2
  rw [v1, u1, a1] at s2
  generalize setupMesh coaster r1.2.2 = r2 at s2 ⊢
  obtain ⟨n2, b2, v2, u2, a2, t2, x2⟩ := s2
  have s3 := setupMesh_resources lamp r2.2.2
  rw [v2, u2, a2] at s3
  generalize setupMesh lamp r2.2.2 = r3 at s3 ⊢
  obtain ⟨n3, b3, v3, u3, a3, t3, x3⟩ := s3
  have s4 := setupMesh_resources stand r3.2.2
  rw [v3, u3, a3] at s4
  generalize setupMesh stand r3.2.2 = r4 at s4 ⊢
  obtain ⟨n4, b4, v4, u4, a4, t4, x4⟩ := s4
  have s5 := setupMesh_resources cup r4.2.2
  rw [v4, u4, a4] at s5
  generalize setupMesh cup r4.2.2 = r5 at s5 ⊢
  obtain ⟨n5, b5, v5, u5, a5, t5, x5⟩ := s5
  have s6 := setupMesh_resources candle r5.2.2
  rw [v5, u5, a5] at s6
  generalize setupMesh candle r5.2.2 = r6 at s6 ⊢
  obtain ⟨n6, b6, v6, u6, a6, t6, x6⟩ := s6
  have s7 := setupMesh_resources lid r6.2.2
  rw [v6, u6, a6] at s7
  generalize setupMesh lid r6.2.2 = r7 at s7 ⊢
  obtain ⟨n7, b7, v7, u7, a7, t7, x7⟩ := s7
  refine ⟨?_, ?_, ?_, ?_, ?_, rfl⟩
  · show [r1.1, r2.1, r3.1, r4.1, r5.1, r6.1, r7.1] = _
    rw [n1, n2, n3, n4, n5, n6, n7]
    rfl
  · show r7.2.2.buffers = _
    rw [u7]
    rfl
  · show r7.2.2.attribs = _
    rw [a7]
    rfl
  · show r7.2.2.textures = _
    rw [t7, t6, t5, t4, t3, t2, t1, ht]
  · show r7.2.2.texImages = _
    rw [x7, x6, x5, x4, x3, x2, x1, hx]

omit [LinearOrderedField α] in
/-- A texture step whose file decodes to an image of 3 or 4 channels stores the new
texture name with `set` and changes the state in nothing else but the context. -/
theorem textureStep_success (env : Environment) (filename printed : String)
    (get : ProgramState α → Nat) (set : Nat → ProgramState α → ProgramState α)
    (st : ProgramState α) (image : Image) (h : env.stbi_load filename = some image)
    (hc : image.channels = 3 ∨ image.channels = 4) :
    (textureStep env filename printed get set st).2 =
      set (freshName st.gl.textures)
        { st with gl := (UCreateTexture env.stbi_load filename (get st) st.gl).2.2 } := by
  obtain ⟨h1, h2, -⟩ := UCreateTexture_success env.stbi_load filename (get st) st.gl image h hc
  unfold textureStep
  simp only [h1, h2, if_true]

omit [LinearOrderedField α] in
/-- A texture step whose file decodes to an image of 3 or 4 channels adds one texture,
holding that image, stores its name in the next texture global, and leaves the vertex
arrays alone. -/
theorem textureStep_loaded (env : Environment) (filename printed : String)
    (get : ProgramState α → Nat) (set : Nat → ProgramState α → ProgramState α)
    (textures : List Nat) (texImages : List TexImage) (image : Image) (st : ProgramState α)
    (h : env.stbi_load filename = some image)
    (hc : image.channels = 3 ∨ image.channels = 4)
    (hgl : ∀ t s, (set t s).gl = s.gl)
    (hva : ∀ t s, (set t s).vertexArrays = s.vertexArrays)
    (hid : ∀ t s, (set t s).textureIds.take (textures.length + 1) =
      s.textureIds.take textures.length ++ [t])
    (hf : texImages.filter (fun t => t.texture != freshName textures) = texImages)
    (hP : Loaded textures texImages st) :
    Loaded (textures ++ [freshName textures])
      (texImages ++ [image.upload (freshName textures)])
      (textureStep env filename printed get set st).2 := by
  rw [textureStep_success env filename printed get set st image h hc]
  obtain ⟨-, -, u3, u4, -, u6, u7⟩ :=
    UCreateTexture_success env.stbi_load filename (get st) st.gl image h hc
  obtain ⟨p1, p2, p3, p4, p5, p6⟩ := hP
  refine ⟨?_, ?_, ?_, ?_, ?_, ?_⟩
  · rw [hva]
    exact p1
  · rw [hgl]
    exact u6.trans p2
  · rw [hgl]
    exact u7.trans p3
  · rw [hgl]
    exact u3.trans (by rw [p4])
  · rw [hgl]
    refine u4.trans ?_
    rw [p5, p4, hf]
    rfl
  · rw [List.length_append, List.length_singleton, hid]
    show List.take textures.length st.textureIds ++ [freshName st.gl.textures] = _
    rw [p6, p4]

/-- The startup, when it succeeds with the six files decoded to the given images, has
made the vertex arrays 1 .. 7 of the seven arrays and the textures 1 .. 6 of the six
images, in the order of the loads. -/
theorem startup_loaded (env : Environment) (i1 i2 i3 i4 i5 i6 : Image)
    (e1 : env.stbi_load "textures/black.jpg" = some i1)
    (e2 : env.stbi_load "textures/wood.jpg" = some i2)
    (e3 : env.stbi_load "textures/matte_black.jpg" = some i3)
    (e4 : env.stbi_load "textures/blue.jpg" = some i4)
    (e5 : env.stbi_load "textures/candle.jpg" = some i5)
    (e6 : env.stbi_load "textures/metal.jpg" = some i6)
    (c1 : i1.channels = 3 ∨ i1.channels = 4) (c2 : i2.channels = 3 ∨ i2.channels = 4)
    (c3 : i3.channels = 3 ∨ i3.channels = 4) (c4 : i4.channels = 3 ∨ i4.channels = 4)
    (c5 : i5.channels = 3 ∨ i5.channels = 4) (c6 : i6.channels = 3 ∨ i6.channels = 4)
    (h : (startup env : Bool × ProgramState α).1 = true) :
    Loaded [1, 2, 3, 4, 5, 6]
      [i1.upload 1, i2.upload 2, i3.upload 3, i4.upload 4, i5.upload 5, i6.upload 6]
      (startup env : Bool × ProgramState α).2 := by
  unfold startup at h ⊢
  refine andThen_inv
    (Loaded [1, 2, 3, 4, 5, 6]
      [i1.upload 1, i2.upload 2, i3.upload 3, i4.upload 4, i5.upload 5, i6.upload 6])
    _ _ _ (fun h => ?_) (fun st hP _ => ?_) h
  swap
  · exact hP
  refine andThen_inv
    (Loaded [1, 2, 3, 4, 5] [i1.upload 1, i2.upload 2, i3.upload 3, i4.upload 4, i5.upload 5])
    _ _ _ (fun h => ?_) (fun st hP _ => ?_) h
  swap
  · refine textureStep_loaded env _ _ _ _ [1, 2, 3, 4, 5]
      [i1.upload 1, i2.upload 2, i3.upload 3, i4.upload 4, i5.upload 5] i6 st e6 c6 ?_ ?_ ?_ ?_ hP
    · exact fun _ _ => rfl
    · exact fun _ _ => rfl
    · exact fun _ _ => rfl
    · rfl
  refine andThen_inv
    (Loaded [1, 2, 3, 4] [i1.upload 1, i2.upload 2, i3.upload 3, i4.upload 4])
    _ _ _ (fun h => ?_) (fun st hP _ => ?_) h
  swap
  · refine textureStep_loaded env _ _ _ _ [1, 2, 3, 4]
      [i1.upload 1, i2.upload 2, i3.upload 3, i4.upload 4] i5 st e5 c5 ?_ ?_ ?_ ?_ hP
    · exact fun _ _ => rfl
    · exact fun _ _ => rfl
    · exact fun _ _ => rfl
    · rfl
  refine andThen_inv (Loaded [1, 2, 3] [i1.upload 1, i2.upload 2, i3.upload 3])
    _ _ _ (fun h => ?_) (fun st hP _ => ?_) h
  swap
  · refine textureStep_loaded env _ _ _ _ [1, 2, 3]
      [i1.upload 1, i2.upload 2, i3.upload 3] i4 st e4 c4 ?_ ?_ ?_ ?_ hP
    · exact fun _ _ => rfl
    · exact fun _ _ => rfl
    · exact fun _ _ => rfl
    · rfl
  refine andThen_inv (Loaded [1, 2] [i1.upload 1, i2.upload 2])
    _ _ _ (fun h => ?_) (fun st hP _ => ?_) h
  swap
  · refine textureStep_loaded env _ _ _ _ [1, 2]
      [i1.upload 1, i2.upload 2] i3 st e3 c3 ?_ ?_ ?_ ?_ hP
    · exact fun _ _ => rfl
    · exact fun _ _ => rfl
    · exact fun _ _ => rfl
    · rfl
  refine andThen_inv (Loaded [1] [i1.upload 1])
    _ _ _ (fun h => ?_) (fun st hP _ => ?_) h
  swap
  · refine textureStep_loaded env _ _ _ _ [1]
      [i1.upload 1] i2 st e2 c2 ?_ ?_ ?_ ?_ hP
    · exact fun _ _ => rfl
    · exact fun _ _ => rfl
    · exact fun _ _ => rfl
    · rfl
  refine andThen_inv (Loaded [] []) _ _ _ (fun h => ?_) (fun st hP _ => ?_) h
  swap
  · refine textureStep_loaded env _ _ _ _ []
      [] i1 st e1 c1 ?_ ?_ ?_ ?_ hP
    · exact fun _ _ => rfl
    · exact fun _ _ => rfl
    · exact fun _ _ => rfl
    · rfl
  refine andThen_inv Unloaded _ _ _ (fun h => ?_) (fun st hP _ => ?_) h
  swap
  · exact meshStep_loaded st hP
  refine andThen_inv Unloaded _ _ _ (fun h => ?_) (fun st hP _ => ?_) h
  swap
  · obtain ⟨p1, p2, p3, p4, p5⟩ := hP
    obtain ⟨q1, q2, q3, q4, q5⟩ := UCreateShaderProgram_resources env.driver
      env.lampVertexShaderSource env.lampFragmentShaderSource st.gl
    exact ⟨q3.trans p1, q4.trans p2, q5.trans p3, q1.trans p4, q2.trans p5⟩
  refine andThen_inv Unloaded _ _ _ (fun h => ?_) (fun st hP _ => ?_) h
  swap
  · obtain ⟨p1, p2, p3, p4, p5⟩ := hP
    obtain ⟨q1, q2, q3, q4, q5⟩ := UCreateShaderProgram_resources env.driver
      env.cubeVertexShaderSource env.cubeFragmentShaderSource st.gl
    exact ⟨q3.trans p1, q4.trans p2, q5.trans p3, q1.trans p4, q2.trans p5⟩
  obtain ⟨q1, q2, q3, q4, q5⟩ := UInitialize_resources env (ProgramState.initial : ProgramState α).gl
  exact ⟨q3.trans rfl, q4.trans rfl, q5.trans rfl, q1.trans rfl, q2.trans rfl⟩

/-- The startup, when it succeeds, has put the floats of the seven arrays into the
vertex arrays `VAO` .. `VAO7`, in the order plane, coaster, lamp, stand, cup, candle,
lid, and the pixels of the six files into the textures `gTextureId` .. `gTextureId7`,
in the order black, wood, matte_black, blue, candle, metal. -/
theorem startup_assets (env : Environment) (h : startupSucceeds env = true) :
    (startup env : Bool × ProgramState α).2.vertexArrays.map
        (vertexArrayData (startup env : Bool × ProgramState α).2.gl) =
        [plane, coaster, lamp, stand, cup, candle, lid] ∧
      (startup env : Bool × ProgramState α).2.textureIds.map
        (texturePixels (startup env : Bool × ProgramState α).2.gl) =
        [(env.stbi_load "textures/black.jpg").map Image.pixels,
          (env.stbi_load "textures/wood.jpg").map Image.pixels,
          (env.stbi_load "textures/matte_black.jpg").map Image.pixels,
          (env.stbi_load "textures/blue.jpg").map Image.pixels,
          (env.stbi_load "textures/candle.jpg").map Image.pixels,
          (env.stbi_load "textures/metal.jpg").map Image.pixels] := by
  have hs : (startup env : Bool × ProgramState α).1 = true := (startup_fst env).trans h
  simp only [startupSucceeds, Bool.and_eq_true] at h
  obtain ⟨⟨⟨⟨⟨⟨⟨⟨-, -⟩, -⟩, t1⟩, t2⟩, t3⟩, t4⟩, t5⟩, t6⟩ := h
  obtain ⟨i1, e1, c1⟩ := UCreateTexture_image _ _ _ _ t1
  obtain ⟨i2, e2, c2⟩ := UCreateTexture_image _ _ _ _ t2
  obtain ⟨i3, e3, c3⟩ := UCreateTexture_image _ _ _ _ t3
  obtain ⟨i4, e4, c4⟩ := UCreateTexture_image _ _ _ _ t4
  obtain ⟨i5, e5, c5⟩ := UCreateTexture_image _ _ _ _ t5
  obtain ⟨i6, e6, c6⟩ := UCreateTexture_image _ _ _ _ t6
  obtain ⟨p1, p2, p3, p4, p5, p6⟩ :=
    startup_loaded env i1 i2 i3 i4 i5 i6 e1 e2 e3 e4 e5 e6 c1 c2 c3 c4 c5 c6 hs
  have p6 : (startup env : Bool × ProgramState α).2.textureIds = [1, 2, 3, 4, 5, 6] := p6
  generalize (startup env : Bool × ProgramState α).2 = st at p1 p2 p3 p4 p5 p6 ⊢
  rw [p1, p6, e1, e2, e3, e4, e5, e6]
  constructor
  · simp only [List.map, vertexArrayData, bufferData, p2, p3]
    rfl
  · simp only [List.map, texturePixels, p5]
    rfl

/-! ### The draws of every frame -/

/-- C17. After a successful startup, every loop iteration, whatever the iterations
before it, its input and the camera state, adds the same seven draws in the same order:
under the lit program and on texture unit 0 the plane with the pixels of black.jpg,
the coaster with wood.jpg, the stand with matte_black.jpg, the cup with blue.jpg, the
candle with candle.jpg and the lid with metal.jpg, then one draw of the lamp under the
lamp program; each scene draw is preceded by the selection of unit 0, the binding of
its texture and its vertex array, and followed by the unbinding of the vertex array. -/
theorem frame_draw_order (m : MathLib α) (env : Environment)
    (before : List (FrameInput α)) (input : FrameInput α)
    (h : startupSucceeds env = true) :
    (frame m input (frames m before (startup env : Bool × ProgramState α).2)).gl.draws.map
        (DrawRecord.content (frame m input (frames m before (startup env : Bool × ProgramState α).2)).gl) =
      (frames m before (startup env : Bool × ProgramState α).2).gl.draws.map
          (DrawRecord.content (frame m input (frames m before (startup env : Bool × ProgramState α).2)).gl) ++
        [((startup env : Bool × ProgramState α).2.gCubeProgramId, 0,
              (env.stbi_load "textures/black.jpg").map Image.pixels, plane),
          ((startup env : Bool × ProgramState α).2.gCubeProgramId, 0,
              (env.stbi_load "textures/wood.jpg").map Image.pixels, coaster),
          ((startup env : Bool × ProgramState α).2.gCubeProgramId, 0,
              (env.stbi_load "textures/matte_black.jpg").map Image.pixels, stand),
          ((startup env : Bool × ProgramState α).2.gCubeProgramId, 0,
              (env.stbi_load "textures/blue.jpg").map Image.pixels, cup),
          ((startup env : Bool × ProgramState α).2.gCubeProgramId, 0,
              (env.stbi_load "textures/candle.jpg").map Image.pixels, candle),
          ((startup env : Bool × ProgramState α).2.gCubeProgramId, 0,
              (env.stbi_load "textures/metal.jpg").map Image.pixels, lid),
          ((startup env : Bool × ProgramState α).2.gLightProgramId, 0,
              (env.stbi_load "textures/metal.jpg").map Image.pixels, lamp)] ∧
      (frame m input (frames m before (startup env : Bool × ProgramState α).2)).gl.calls.filter GLCall.isBindOrDraw =
        (frames m before (startup env : Bool × ProgramState α).2).gl.calls.filter GLCall.isBindOrDraw ++
          [GLCall.glUseProgram (startup env : Bool × ProgramState α).2.gCubeProgramId,
            GLCall.glActiveTexture 0,
            GLCall.glBindTexture GLenum.GL_TEXTURE_2D (startup env : Bool × ProgramState α).2.gTextureId,
            GLCall.glBindVertexArray (startup env : Bool × ProgramState α).2.VAO,
            GLCall.glDrawArrays GLenum.GL_TRIANGLES 0 6,
            GLCall.glBindVertexArray 0,
            GLCall.glActiveTexture 0,
            GLCall.glBindTexture GLenum.GL_TEXTURE_2D (startup env : Bool × ProgramState α).2.gTextureId2,
            GLCall.glBindVertexArray (startup env : Bool × ProgramState α).2.VAO2,
            GLCall.glDrawArrays GLenum.GL_TRIANGLES 0 36,
            GLCall.glBindVertexArray 0,
            GLCall.glActiveTexture 0,
            GLCall.glBindTexture GLenum.GL_TEXTURE_2D (startup env : Bool × ProgramState α).2.gTextureId3,
            GLCall.glBindVertexArray (startup env : Bool × ProgramState α).2.VAO4,
            GLCall.glDrawArrays GLenum.GL_TRIANGLES 0 54,
            GLCall.glBindVertexArray 0,
            GLCall.glActiveTexture 0,
            GLCall.glBindTexture GLenum.GL_TEXTURE_2D (startup env : Bool × ProgramState α).2.gTextureId5,
            GLCall.glBindVertexArray (startup env : Bool × ProgramState α).2.VAO5,
            GLCall.glDrawArrays GLenum.GL_TRIANGLES 0 78,
            GLCall.glBindVertexArray 0,
            GLCall.glActiveTexture 0,
            GLCall.glBindTexture GLenum.GL_TEXTURE_2D (startup env : Bool × ProgramState α).2.gTextureId6,
            GLCall.glBindVertexArray (startup env : Bool × ProgramState α).2.VAO6,
            GLCall.glDrawArrays GLenum.GL_TRIANGLES 0 78,
            GLCall.glBindVertexArray 0,
            GLCall.glActiveTexture 0,
            GLCall.glBindTexture GLenum.GL_TEXTURE_2D (startup env : Bool × ProgramState α).2.gTextureId7,
            GLCall.glBindVertexArray (startup env : Bool × ProgramState α).2.VAO7,
            GLCall.glDrawArrays GLenum.GL_TRIANGLES 0 78,
            GLCall.glBindVertexArray 0,
            GLCall.glUseProgram (startup env : Bool × ProgramState α).2.gLightProgramId,
            GLCall.glBindVertexArray (startup env : Bool × ProgramState α).2.VAO3,
            GLCall.glDrawArrays GLenum.GL_TRIANGLES 0 18,
            GLCall.glBindVertexArray 0] := by
  obtain ⟨d1, d2, -⟩ := frame_draws m input
    (frames m before (startup env : Bool × ProgramState α).2)
  obtain ⟨f1, f2, f3, -⟩ := frame_resources m input
    (frames m before (startup env : Bool × ProgramState α).2)
  obtain ⟨g1, g2, g3, g4⟩ := frames_resources m before
    (startup env : Bool × ProgramState α).2
  obtain ⟨a1, a2⟩ := @startup_assets α _ env h
  have hv := vertexArrayData_congr _ _ (f1.trans g1) (f2.trans g2)
  have ht := texturePixels_congr _ _ (f3.trans g3)
  simp only [ProgramState.handles, List.cons.injEq, and_true] at g4
  obtain ⟨k1, k2, k3, k4, k5, k6, k7, k8, k9, -, k11, -, k13, -, k15, -, k17, -, k19, -,
    k21, -⟩ := g4
  simp only [ProgramState.vertexArrays, List.map, List.cons.injEq, and_true] at a1
  obtain ⟨v1, v2, v3, v4, v5, v6, v7⟩ := a1
  simp only [ProgramState.textureIds, List.map, List.cons.injEq, and_true] at a2
  obtain ⟨t1, t2, t3, t4, t5, t6⟩ := a2
  constructor
  · have hc : ∀ gl : GLContext, DrawRecord.content gl =
        (fun k : Nat × Nat × Nat × Nat × Nat × Nat =>
          (k.1, k.2.1, texturePixels gl k.2.2.1, vertexArrayData gl k.2.2.2.1)) ∘
          DrawRecord.key := fun _ => rfl
    rw [hc, ← List.map_map, d1, List.map_append, List.map_map]
    simp only [List.map_cons, List.map_nil, hv, ht, k1, k2, k3, k4, k5, k6, k7, k8, k9, k11,
      k13, k15, k17, k19, k21, v1, v2, v3, v4, v5, v6, v7, t1, t2, t3, t4, t5, t6]
  · rw [d2, k1, k2, k3, k4, k5, k6, k7, k8, k9, k11, k13, k15, k17, k19, k21]

set_option maxRecDepth 100000 in
/-- In the working environment, the iteration with Escape held that follows an idle
iteration adds the seven draws. -/
theorem frame_draw_order_witness :
    startupSucceeds Environment.working = true ∧
      ((frame realMath FrameInput.escape (frames realMath [FrameInput.idle] (startup Environment.working : Bool × ProgramState ℝ).2)).gl.draws.map
          (DrawRecord.content (frame realMath FrameInput.escape (frames realMath [FrameInput.idle] (startup Environment.working : Bool × ProgramState ℝ).2)).gl) =
        (frames realMath [FrameInput.idle] (startup Environment.working : Bool × ProgramState ℝ).2).gl.draws.map
            (DrawRecord.content (frame realMath FrameInput.escape (frames realMath [FrameInput.idle] (startup Environment.working : Bool × ProgramState ℝ).2)).gl) ++
          [((startup Environment.working : Bool × ProgramState ℝ).2.gCubeProgramId, 0,
                (Environment.working.stbi_load "textures/black.jpg").map Image.pixels, plane),
            ((startup Environment.working : Bool × ProgramState ℝ).2.gCubeProgramId, 0,
                (Environment.working.stbi_load "textures/wood.jpg").map Image.pixels, coaster),
            ((startup Environment.working : Bool × ProgramState ℝ).2.gCubeProgramId, 0,
                (Environment.working.stbi_load "textures/matte_black.jpg").map Image.pixels, stand),
            ((startup Environment.working : Bool × ProgramState ℝ).2.gCubeProgramId, 0,
                (Environment.working.stbi_load "textures/blue.jpg").map Image.pixels, cup),
            ((startup Environment.working : Bool × ProgramState ℝ).2.gCubeProgramId, 0,
                (Environment.working.stbi_load "textures/candle.jpg").map Image.pixels, candle),
            ((startup Environment.working : Bool × ProgramState ℝ).2.gCubeProgramId, 0,
                (Environment.working.stbi_load "textures/metal.jpg").map Image.pixels, lid),
            ((startup Environment.working : Bool × ProgramState ℝ).2.gLightProgramId, 0,
                (Environment.working.stbi_load "textures/metal.jpg").map Image.pixels, lamp)] ∧
        (frame realMath FrameInput.escape (frames realMath [FrameInput.idle] (startup Environment.working : Bool × ProgramState ℝ).2)).gl.calls.filter GLCall.isBindOrDraw =
          (frames realMath [FrameInput.idle] (startup Environment.working : Bool × ProgramState ℝ).2).gl.calls.filter GLCall.isBindOrDraw ++
            [GLCall.glUseProgram (startup Environment.working : Bool × ProgramState ℝ).2.gCubeProgramId,
              GLCall.glActiveTexture 0,
              GLCall.glBindTexture GLenum.GL_TEXTURE_2D (startup Environment.working : Bool × ProgramState ℝ).2.gTextureId,
              GLCall.glBindVertexArray (startup Environment.working : Bool × ProgramState ℝ).2.VAO,
              GLCall.glDrawArrays GLenum.GL_TRIANGLES 0 6,
              GLCall.glBindVertexArray 0,
              GLCall.glActiveTexture 0,
              GLCall.glBindTexture GLenum.GL_TEXTURE_2D (startup Environment.working : Bool × ProgramState ℝ).2.gTextureId2,
              GLCall.glBindVertexArray (startup Environment.working : Bool × ProgramState ℝ).2.VAO2,
              GLCall.glDrawArrays GLenum.GL_TRIANGLES 0 36,
              GLCall.glBindVertexArray 0,
              GLCall.glActiveTexture 0,
              GLCall.glBindTexture GLenum.GL_TEXTURE_2D (startup Environment.working : Bool × ProgramState ℝ).2.gTextureId3,
              GLCall.glBindVertexArray (startup Environment.working : Bool × ProgramState ℝ).2.VAO4,
              GLCall.glDrawArrays GLenum.GL_TRIANGLES 0 54,
              GLCall.glBindVertexArray 0,
              GLCall.glActiveTexture 0,
              GLCall.glBindTexture GLenum.GL_TEXTURE_2D (startup Environment.working : Bool × ProgramState ℝ).2.gTextureId5,
              GLCall.glBindVertexArray (startup Environment.working : Bool × ProgramState ℝ).2.VAO5,
              GLCall.glDrawArrays GLenum.GL_TRIANGLES 0 78,
              GLCall.glBindVertexArray 0,
              GLCall.glActiveTexture 0,
              GLCall.glBindTexture GLenum.GL_TEXTURE_2D (startup Environment.working : Bool × ProgramState ℝ).2.gTextureId6,
              GLCall.glBindVertexArray (startup Environment.working : Bool × ProgramState ℝ).2.VAO6,
              GLCall.glDrawArrays GLenum.GL_TRIANGLES 0 78,
              GLCall.glBindVertexArray 0,
              GLCall.glActiveTexture 0,
              GLCall.glBindTexture GLenum.GL_TEXTURE_2D (startup Environment.working : Bool × ProgramState ℝ).2.gTextureId7,
              GLCall.glBindVertexArray (startup Environment.working : Bool × ProgramState ℝ).2.VAO7,
              GLCall.glDrawArrays GLenum.GL_TRIANGLES 0 78,
              GLCall.glBindVertexArray 0,
              GLCall.glUseProgram (startup Environment.working : Bool × ProgramState ℝ).2.gLightProgramId,
              GLCall.glBindVertexArray (startup Environment.working : Bool × ProgramState ℝ).2.VAO3,
              GLCall.glDrawArrays GLenum.GL_TRIANGLES 0 18,
              GLCall.glBindVertexArray 0]) :=
  ⟨by decide,
    frame_draw_order realMath Environment.working [FrameInput.idle] FrameInput.escape
      (by decide)⟩

/-! ### What changes the camera -/

/-- C22. The camera is written by the input steps only.  Of the loop body outside
`UProcessInput` and the polled events, the frame timing leaves position, front, up,
yaw, pitch and fov as they are, and the rendering part, the buffer swap and the poll
call leave all globals as they are; `mouse_callback` leaves position, up, fov and
projection mode as they are; `scroll_callback` writes nothing but fov; `UProcessInput`
leaves yaw, pitch, front, up and fov as they are. -/
theorem camera_written_by_input_only (m : MathLib α) (st : ProgramState α)
    (g : Globals α) (currentFrame xpos ypos xoffset yoffset : α) (pressed : Key → Bool) :
    ((frameTiming currentFrame g).cameraPos = g.cameraPos ∧
        (frameTiming currentFrame g).cameraFront = g.cameraFront ∧
        (frameTiming currentFrame g).cameraUp = g.cameraUp ∧
        (frameTiming currentFrame g).yaw = g.yaw ∧
        (frameTiming currentFrame g).pitch = g.pitch ∧
        (frameTiming currentFrame g).fov = g.fov) ∧
      (renderFrame m st).globals = st.globals ∧
      (onGL (glCall GLCall.glfwSwapBuffers) st).globals = st.globals ∧
      (onGL (glCall GLCall.glfwPollEvents) st).globals = st.globals ∧
      ((mouse_callback m xpos ypos g).cameraPos = g.cameraPos ∧
        (mouse_callback m xpos ypos g).cameraUp = g.cameraUp ∧
        (mouse_callback m xpos ypos g).fov = g.fov ∧
        (mouse_callback m xpos ypos g).viewProjection = g.viewProjection) ∧
      scroll_callback xoffset yoffset g =
        { g with fov := (scroll_callback xoffset yoffset g).fov } ∧
      ((UProcessInput m pressed g).yaw = g.yaw ∧
        (UProcessInput m pressed g).pitch = g.pitch ∧
        (UProcessInput m pressed g).cameraFront = g.cameraFront ∧
        (UProcessInput m pressed g).cameraUp = g.cameraUp ∧
        (UProcessInput m pressed g).fov = g.fov) := by
  refine ⟨⟨rfl, rfl, rfl, rfl, rfl, rfl⟩, renderFrame_globals m st, rfl, rfl, ?_, ?_, ?_⟩
  · simp only [mouse_callback]
    split_ifs <;> exact ⟨rfl, rfl, rfl, rfl⟩
  · simp only [scroll_callback]
    split_ifs <;> rfl
  · obtain ⟨h1, h2, h3, h4, h5⟩ := UProcessInput_frame m pressed g
    exact ⟨h3, h4, h1, h2, h5⟩

/-! ### The texture release -/

/-- The running maximum of a list is at least its start value and each element. -/
theorem le_foldl_max (l : List Nat) :
    ∀ init : Nat, init ≤ l.foldl max init ∧ ∀ x ∈ l, x ≤ l.foldl max init := by
  induction l with
  | nil => intro init; simp
  | cons a as ih =>
    intro init
    obtain ⟨h1, h2⟩ := ih (max init a)
    rw [List.foldl_cons]
    refine ⟨le_trans (le_max_left _ _) h1, ?_⟩
    intro x hx
    rcases List.mem_cons.mp hx with rfl | hx
    · exact le_trans (le_max_right _ _) h1
    · exact h2 x hx

/-- A fresh name is not in use. -/
theorem freshName_not_mem (used : List Nat) : freshName used ∉ used := by
  intro h
  have := (le_foldl_max used 0).2 _ h
  unfold freshName at this
  omega

/-- The textures and texture images after `glDeleteVertexArrays`. -/
theorem glDeleteVertexArrays_textures (array : Nat) (gl : GLContext) :
    (glDeleteVertexArrays array gl).textures = gl.textures ∧
      (glDeleteVertexArrays array gl).texImages = gl.texImages :=
  ⟨rfl, rfl⟩

/-- The textures and texture images after `glDeleteBuffers`. -/
theorem glDeleteBuffers_textures (n buffer : Nat) (gl : GLContext) :
    (glDeleteBuffers n buffer gl).textures = gl.textures ∧
      (glDeleteBuffers n buffer gl).texImages = gl.texImages :=
  ⟨rfl, rfl⟩

/-- The textures and texture images after `UDestroyShaderProgram`. -/
theorem UDestroyShaderProgram_textures (programId : Nat) (gl : GLContext) :
    (UDestroyShaderProgram programId gl).textures = gl.textures ∧
      (UDestroyShaderProgram programId gl).texImages = gl.texImages :=
  ⟨rfl, rfl⟩

/-- The textures and texture images after `UDestroyTexture`: one more name, and the
images as before. -/
theorem UDestroyTexture_textures (textureId : Nat) (gl : GLContext) :
    (UDestroyTexture textureId gl).textures = gl.textures ++ [freshName gl.textures] ∧
      (UDestroyTexture textureId gl).texImages = gl.texImages :=
  ⟨rfl, rfl⟩

omit [LinearOrderedField α] in
/-- C23. `UDestroyTexture` releases nothing: for every context and texture name, the
textures after the call are those before it and one newly generated name, so that a
texture that was live is still live, and the texture images are as before; the release
section of `main`, with its six calls, ends with all textures it began with, their
images, and six more names. -/
theorem UDestroyTexture_releases_nothing (textureId : Nat) (gl : GLContext)
    (st : ProgramState α) :
    (UDestroyTexture textureId gl).textures = gl.textures ++ [freshName gl.textures] ∧
      freshName gl.textures ∉ gl.textures ∧
      (textureId ∈ gl.textures → textureId ∈ (UDestroyTexture textureId gl).textures) ∧
      (UDestroyTexture textureId gl).texImages = gl.texImages ∧
      (∀ texture, texturePixels (UDestroyTexture textureId gl) texture =
        texturePixels gl texture) ∧
      (∃ added : List Nat, added.length = 6 ∧
        (release st).gl.textures = st.gl.textures ++ added) ∧
      (release st).gl.texImages = st.gl.texImages := by
  refine ⟨rfl, freshName_not_mem _, fun h => ?_, rfl, fun _ => rfl, ?_, ?_⟩
  · exact List.mem_append_left _ h
  · have he : ∃ a b c d e f,
        (release st).gl.textures = st.gl.textures ++ [a, b, c, d, e, f] := by
      simp only [release, (UDestroyShaderProgram_textures _ _).1,
        (UDestroyTexture_textures _ _).1, (glDeleteBuffers_textures _ _ _).1,
        (glDeleteVertexArrays_textures _ _).1, List.append_assoc, List.cons_append,
        List.nil_append]
      exact ⟨_, _, _, _, _, _, rfl⟩
    obtain ⟨a, b, c, d, e, f, he⟩ := he
    exact ⟨[a, b, c, d, e, f], rfl, he⟩
  · simp only [release, (UDestroyShaderProgram_textures _ _).2,
      (UDestroyTexture_textures _ _).2, (glDeleteBuffers_textures _ _ _).2,
      (glDeleteVertexArrays_textures _ _).2]

/-- A context with one texture, which `UDestroyTexture` leaves live. -/
theorem UDestroyTexture_releases_nothing_witness :
    1 ∈ (glGenTextures GLContext.fresh).2.textures ∧
      1 ∈ (UDestroyTexture 1 (glGenTextures GLContext.fresh).2).textures :=
  ⟨by decide,
    (UDestroyTexture_releases_nothing 1 (glGenTextures GLContext.fresh).2
      (ProgramState.initial : ProgramState ℚ)).2.2.1 (by decide)⟩

/-! ### Yaw as a function of the cursor positions -/

/-- After a `mouse_callback` with `firstMouse` cleared, yaw has moved by 0.1 times the
cursor's x movement, the last x position is the new one and the flag stays cleared. -/
theorem mouse_callback_yaw (m : MathLib α) (xpos ypos : α) (g : Globals α)
    (hfirst : g.firstMouse = false) :
    (mouse_callback m xpos ypos g).yaw = g.yaw + (xpos - g.lastX) * 0.1 ∧
      (mouse_callback m xpos ypos g).lastX = xpos ∧
      (mouse_callback m xpos ypos g).firstMouse = false := by
  simp only [mouse_callback, hfirst, Bool.false_eq_true, if_false]
  split_ifs <;> exact ⟨rfl, rfl, rfl⟩

/-- After a `mouse_callback` with `firstMouse` set, yaw is as before, the last x
position is the new one and the flag is cleared. -/
theorem mouse_callback_yaw_first (m : MathLib α) (xpos ypos : α) (g : Globals α)
    (hfirst : g.firstMouse = true) :
    (mouse_callback m xpos ypos g).yaw = g.yaw ∧
      (mouse_callback m xpos ypos g).lastX = xpos ∧
      (mouse_callback m xpos ypos g).firstMouse = false := by
  simp only [mouse_callback, hfirst, if_true]
  split_ifs <;> simp

/-- Through any cursor positions after the first, yaw stays -90 plus 0.1 times the
distance of the last x position from the first one, `x₁`. -/
theorem mouseRun_yaw (m : MathLib α) (x₁ : α) (ps : List (α × α)) :
    ∀ g : Globals α, g.firstMouse = false → g.yaw = -90 + 0.1 * (g.lastX - x₁) →
      (mouseRun m g ps).yaw = -90 + 0.1 * ((ps.map Prod.fst).getLastD g.lastX - x₁) := by
  induction ps with
  | nil => intro g _ hy; simpa [mouseRun] using hy
  | cons p ps ih =>
    intro g hf hy
    obtain ⟨h1, h2, h3⟩ := mouse_callback_yaw m p.1 p.2 g hf
    have hstep : mouseRun m g (p :: ps) = mouseRun m (mouse_callback m p.1 p.2 g) ps := rfl
    rw [hstep, ih _ h3 (by rw [h1, h2, hy]; ring), h2]
    cases ps with
    | nil => rfl
    | cons q qs => rfl

omit [LinearOrderedField α] in
/-- The last x position of a non-empty list of cursor positions. -/
theorem getLastD_map_fst (ps : List (α × α)) :
    ∀ p : α × α, (ps.map Prod.fst).getLastD p.1 =
      ((p :: ps).getLast (List.cons_ne_nil p ps)).1 := by
  induction ps with
  | nil => intro p; rfl
  | cons q qs ih =>
    intro p
    rw [List.getLast_cons (List.cons_ne_nil q qs), List.map_cons, List.getLastD_cons]
    exact ih q

/-- C25. After any non-empty sequence of `mouse_callback` events from the initial
globals, with cursor positions `p :: ps`, yaw is -90 + 0.1 (x_n - x_1) in exact
arithmetic, where x_1 is the x position of the first event and x_n that of the last:
the positions in between and all y positions do not enter. -/
theorem yaw_from_first_and_last_x (m : MathLib α) (p : α × α) (ps : List (α × α)) :
    (mouseRun m Globals.initial (p :: ps)).yaw =
      -90 + 0.1 * (((p :: ps).getLast (List.cons_ne_nil p ps)).1 - p.1) := by
  obtain ⟨h1, h2, h3⟩ := mouse_callback_yaw_first m p.1 p.2 (Globals.initial : Globals α) rfl
  have hstep : mouseRun m Globals.initial (p :: ps) =
      mouseRun m (mouse_callback m p.1 p.2 Globals.initial) ps := rfl
  have hy : (mouse_callback m p.1 p.2 (Globals.initial : Globals α)).yaw =
      -90 + 0.1 * ((mouse_callback m p.1 p.2 (Globals.initial : Globals α)).lastX - p.1) := by
    rw [h1, h2]
    simp [Globals.initial]
  rw [hstep, mouseRun_yaw m p.1 ps _ h3 hy, h2, getLastD_map_fst]

/-! ### The strafe direction -/

/-- The vector the strafe branches normalise, for a front that is the direction of yaw
and pitch and the up vector (0, 1, 0). -/
theorem cross_direction_up (yaw pitch : ℝ) :
    Vec3.cross (direction realMath yaw pitch) ⟨0, 1, 0⟩ =
      ⟨-(realMath.sin (radians realMath yaw) * realMath.cos (radians realMath pitch)), 0,
        realMath.cos (radians realMath yaw) * realMath.cos (radians realMath pitch)⟩ := by
  ext <;> simp [Vec3.cross, direction]

/-- The cosine of a pitch within [-89, 89] degrees is positive. -/
theorem cos_pitch_pos (pitch : ℝ) (hlo : -89 ≤ pitch) (hhi : pitch ≤ 89) :
    0 < realMath.cos (radians realMath pitch) := by
  have hpi := Real.pi_pos
  apply Real.cos_pos_of_mem_Ioo
  constructor
  · show -(Real.pi / 2) < pitch * (Real.pi / 180)
    nlinarith
  · show pitch * (Real.pi / 180) < Real.pi / 2
    nlinarith

/-- The length of the vector the strafe branches normalise is the cosine of the pitch,
which is positive for a pitch within [-89, 89] degrees. -/
theorem length_cross_direction_up (yaw pitch : ℝ) (hlo : -89 ≤ pitch) (hhi : pitch ≤ 89) :
    length realMath (Vec3.cross (direction realMath yaw pitch) ⟨0, 1, 0⟩) =
      realMath.cos (radians realMath pitch) := by
  have hpos := cos_pitch_pos pitch hlo hhi
  have hy := Real.sin_sq_add_cos_sq (radians realMath yaw)
  have hc : realMath.cos = Real.cos := rfl
  have hs : realMath.sin = Real.sin := rfl
  have hq : realMath.sqrt = Real.sqrt := rfl
  rw [cross_direction_up]
  simp only [length, Vec3.dot, hc, hs, hq] at hpos ⊢
  have e : -(Real.sin (radians realMath yaw) * Real.cos (radians realMath pitch)) *
        -(Real.sin (radians realMath yaw) * Real.cos (radians realMath pitch)) + 0 * 0 +
        Real.cos (radians realMath yaw) * Real.cos (radians realMath pitch) *
          (Real.cos (radians realMath yaw) * Real.cos (radians realMath pitch)) =
      Real.cos (radians realMath pitch) ^ 2 := by
    linear_combination (Real.cos (radians realMath pitch)) ^ 2 * hy
  rw [e, Real.sqrt_sq (le_of_lt hpos)]

/-- Each event keeps the pitch within [-89, 89] and the up vector as it is. -/
theorem step_pitch_up (g : Globals ℝ) (e : Event ℝ) (hlo : -89 ≤ g.pitch)
    (hhi : g.pitch ≤ 89) :
    -89 ≤ (step realMath g e).pitch ∧ (step realMath g e).pitch ≤ 89 ∧
      (step realMath g e).cameraUp = g.cameraUp := by
  cases e with
  | mouse xpos ypos =>
    obtain ⟨h1, h2⟩ := mouse_callback_pitch_range realMath xpos ypos g
    refine ⟨h1, h2, ?_⟩
    show (mouse_callback realMath xpos ypos g).cameraUp = g.cameraUp
    simp only [mouse_callback]
    split_ifs <;> rfl
  | scroll xoffset yoffset =>
    obtain ⟨-, -, hp⟩ := scroll_callback_orientation xoffset yoffset g
    show -89 ≤ (scroll_callback xoffset yoffset g).pitch ∧
      (scroll_callback xoffset yoffset g).pitch ≤ 89 ∧
      (scroll_callback xoffset yoffset g).cameraUp = g.cameraUp
    rw [hp]
    refine ⟨hlo, hhi, ?_⟩
    simp only [scroll_callback]
    split_ifs <;> rfl
  | frame currentFrame pressed =>
    obtain ⟨-, hu, -, hp, -⟩ :=
      UProcessInput_frame realMath pressed (frameTiming currentFrame g)
    show -89 ≤ (UProcessInput realMath pressed (frameTiming currentFrame g)).pitch ∧
      (UProcessInput realMath pressed (frameTiming currentFrame g)).pitch ≤ 89 ∧
      (UProcessInput realMath pressed (frameTiming currentFrame g)).cameraUp = g.cameraUp
    rw [hp, hu]
    exact ⟨hlo, hhi, rfl⟩

/-- Every run of events keeps the pitch within [-89, 89], the front equal to the
direction of yaw and pitch, and the up vector as it is. -/
theorem run_camera_invariant (events : List (Event ℝ)) :
    ∀ g : Globals ℝ, -89 ≤ g.pitch → g.pitch ≤ 89 →
      g.cameraFront = direction realMath g.yaw g.pitch →
      -89 ≤ (run realMath g events).pitch ∧ (run realMath g events).pitch ≤ 89 ∧
        (run realMath g events).cameraFront =
          direction realMath (run realMath g events).yaw (run realMath g events).pitch ∧
        (run realMath g events).cameraUp = g.cameraUp := by
  induction events with
  | nil => intro g hlo hhi hf; exact ⟨hlo, hhi, hf, rfl⟩
  | cons e es ih =>
    intro g hlo hhi hf
    obtain ⟨s1, s2, s3⟩ := step_pitch_up g e hlo hhi
    obtain ⟨r1, r2, r3, r4⟩ := ih (step realMath g e) s1 s2 (step_front_eq_direction g e hf)
    exact ⟨r1, r2, r3, r4.trans s3⟩

/-- C24. In every state reached from the initial globals by `mouse_callback`,
`scroll_callback` and `UProcessInput` events in any order, over the reals: pitch is
within [-89, 89], the front is the direction of yaw and pitch, and the vector
cross(cameraFront, cameraUp) that the A and D branches of `UProcessInput` normalise has
length cos(pitch), which is positive; so the vector is not zero and the square root
`normalize` divides by is not zero. -/
theorem strafe_normalisation_defined (events : List (Event ℝ)) :
    (-89 ≤ (run realMath Globals.initial events).pitch ∧
        (run realMath Globals.initial events).pitch ≤ 89) ∧
      (run realMath Globals.initial events).cameraFront =
        direction realMath (run realMath Globals.initial events).yaw
          (run realMath Globals.initial events).pitch ∧
      length realMath
          (Vec3.cross (run realMath Globals.initial events).cameraFront
            (run realMath Globals.initial events).cameraUp) =
        realMath.cos (radians realMath (run realMath Globals.initial events).pitch) ∧
      0 < realMath.cos (radians realMath (run realMath Globals.initial events).pitch) ∧
      Vec3.cross (run realMath Globals.initial events).cameraFront
          (run realMath Globals.initial events).cameraUp ≠ ⟨0, 0, 0⟩ ∧
      realMath.sqrt
          (Vec3.dot
            (Vec3.cross (run realMath Globals.initial events).cameraFront
              (run realMath Globals.initial events).cameraUp)
            (Vec3.cross (run realMath Globals.initial events).cameraFront
              (run realMath Globals.initial events).cameraUp)) ≠ 0 := by
  obtain ⟨r1, r2, r3, r4⟩ := run_camera_invariant events Globals.initial
    (by norm_num [Globals.initial]) (by norm_num [Globals.initial])
    initial_front_eq_direction
  have hu : (run realMath Globals.initial events).cameraUp = ⟨0, 1, 0⟩ := r4
  have hpos := cos_pitch_pos _ r1 r2
  have hlen := length_cross_direction_up (run realMath Globals.initial events).yaw _ r1 r2
  rw [← r3, ← hu] at hlen
  refine ⟨⟨r1, r2⟩, r3, hlen, hpos, ?_, ?_⟩
  · intro h0
    rw [h0] at hlen
    have hz : length realMath (⟨0, 0, 0⟩ : Vec3 ℝ) = 0 := by
      simp [length, Vec3.dot, realMath]
    rw [hz] at hlen
    rw [← hlen] at hpos
    exact lt_irrefl _ hpos
  · have hl : length realMath
        (Vec3.cross (run realMath Globals.initial events).cameraFront
          (run realMath Globals.initial events).cameraUp) ≠ 0 := by
      rw [hlen]
      exact ne_of_gt hpos
    exact hl

/-! ### The projection -/

/-- The projection the rendering part of an iteration computes: orthographic with the
bounds [-5, 5] x [-5, 5] when the toggle is set, and otherwise perspective with the
field of view `fov` in degrees and the aspect ratio 800 / 600; near 0.1 and far 100
in both. -/
theorem renderFrame_projection (m : MathLib α) (st : ProgramState α) :
    (renderFrame m st).projection =
      if st.globals.viewProjection = true then Mat4.ortho (-5) 5 (-5) 5 0.1 100
      else Mat4.perspective (radians m st.globals.fov) (800 / 600) 0.1 100 := by
  show (if st.globals.viewProjection = true then Mat4.ortho (-5) 5 (-5) 5 0.1 100
    else if st.globals.viewProjection = false then
      Mat4.perspective (radians m st.globals.fov) (800 / 600) 0.1 100
    else st.projection) = _
  cases st.globals.viewProjection <;> simp

/-- The projection after one loop iteration, whatever events it polls: chosen by the
toggle as `UProcessInput` leaves it, with the aspect ratio 800 / 600. -/
theorem frame_projection (m : MathLib α) (input : FrameInput α) (st : ProgramState α) :
    (frame m input st).projection =
      if (UProcessInput m input.pressed
          (frameTiming input.currentFrame st.globals)).viewProjection = true then
        Mat4.ortho (-5) 5 (-5) 5 0.1 100
      else Mat4.perspective (radians m st.globals.fov) (800 / 600) 0.1 100 := by
  unfold frame
  simp only []
  rw [(deliver_foldl m input.polled _).2.2.2.2.2]
  simp only [onGL]
  rw [renderFrame_projection]
  simp only [(UProcessInput_frame m input.pressed _).2.2.2.2]
  rfl

set_option maxRecDepth 100000 in
/-- C21. The perspective branch takes its aspect ratio from the constants 800 and 600,
not from the window: in the working environment, after an iteration at the end of
which the window is resized to 400 x 600, the next iteration (no key held, so the mode
is still the perspective mode of the startup) computes the perspective matrix of
fov = 45 degrees, near 0.1 and far 100 with the aspect ratio 800 / 600, while the
window's width divided by its height is 400 / 600. -/
theorem projection_aspect_after_resize :
    (startup Environment.working : Bool × ProgramState ℝ).2.globals.viewProjection = false ∧
      windowSize (frame realMath FrameInput.idle
        (frame realMath (FrameInput.resize 400 600)
          (startup Environment.working).2)).gl = (400, 600) ∧
      (frame realMath FrameInput.idle
        (frame realMath (FrameInput.resize 400 600)
          (startup Environment.working).2)).projection =
        Mat4.perspective (radians realMath 45) (800 / 600) 0.1 100 ∧
      (800 / 600 : ℝ) ≠ 400 / 600 := by
  refine ⟨by decide, by decide, ?_, by norm_num⟩
  rw [frame_projection]
  rfl

/-! ### The message of a failed texture load -/

set_option maxRecDepth 100000 in
/-- C26. The message `main` prints when a texture fails to load: in the working
environment with one of the six files not decoding, `main` exits with `EXIT_FAILURE`,
and its last line of output names the file for black.jpg and wood.jpg, but names
wood.jpg for matte_black.jpg, blue.jpg, candle.jpg and metal.jpg. -/
theorem texture_failure_message :
    ((main realMath (Environment.missing "textures/black.jpg") []).1 = some EXIT_FAILURE ∧
        (main realMath (Environment.missing "textures/black.jpg") []).2.gl.stdout.getLast? =
          some "Failed to load texture textures/black.jpg\n") ∧
      ((main realMath (Environment.missing "textures/wood.jpg") []).1 = some EXIT_FAILURE ∧
        (main realMath (Environment.missing "textures/wood.jpg") []).2.gl.stdout.getLast? =
          some "Failed to load texture textures/wood.jpg\n") ∧
      ((main realMath (Environment.missing "textures/matte_black.jpg") []).1 =
          some EXIT_FAILURE ∧
        (main realMath (Environment.missing "textures/matte_black.jpg")
          []).2.gl.stdout.getLast? = some "Failed to load texture textures/wood.jpg\n") ∧
      ((main realMath (Environment.missing "textures/blue.jpg") []).1 = some EXIT_FAILURE ∧
        (main realMath (Environment.missing "textures/blue.jpg") []).2.gl.stdout.getLast? =
          some "Failed to load texture textures/wood.jpg\n") ∧
      ((main realMath (Environment.missing "textures/candle.jpg") []).1 = some EXIT_FAILURE ∧
        (main realMath (Environment.missing "textures/candle.jpg") []).2.gl.stdout.getLast? =
          some "Failed to load texture textures/wood.jpg\n") ∧
      ((main realMath (Environment.missing "textures/metal.jpg") []).1 = some EXIT_FAILURE ∧
        (main realMath (Environment.missing "textures/metal.jpg") []).2.gl.stdout.getLast? =
          some "Failed to load texture textures/wood.jpg\n") := by
  refine ⟨⟨?_, ?_⟩, ⟨?_, ?_⟩, ⟨?_, ?_⟩, ⟨?_, ?_⟩, ⟨?_, ?_⟩, ⟨?_, ?_⟩⟩ <;> decide

end ProgramTheorems

end Source
